import Mathlib

/-!
# unifi-ap-exporter: collection and flattening pipeline

A shallow embedding of `internal/config.go`, `internal/collector.go` and
`internal/exporter.go`.

* Go `int64` values are `Int`; the one place where the program does arithmetic
  on them (the byte totals of `Exporter.Collect`) wraps explicitly with `wrap64`.
* Go `float64` is an abstract type `F`.  The two operations the program performs
  on it, the conversion `float64(n)` and `strconv.ParseFloat`, are the fields of
  `Float64Ops`; the constants `0` and `1` are `float64(0)` and `float64(1)`.
* A panic is the `error` case of `Except`.
* The outcome of every external call made by one `Fetch` (file system, ssh
  library) is an input of the model, `Remote`.  Likewise what `os.Open` and the YAML
  decoder answer to `NewConfig` is an input, `ConfigFile`.
-/

namespace UnifiApExporter

/-! ## float64 and int64 -/

/-- The float64 operations used by the program: `float64(n)` for an int64 `n`,
and `strconv.ParseFloat(s, 64)`, which is `none` when it reports an error. -/
structure Float64Ops (F : Type) where
  ofInt64 : Int → F
  parseFloat : String → Option F

/-- Two's complement reduction of an integer to the int64 range. -/
def wrap64 (x : Int) : Int := (x + 2 ^ 63) % 2 ^ 64 - 2 ^ 63

/-- The function `strconv.ParseInt(s, 10, 64)`: an optional sign, then one or more
decimal digits, and the value must fit an int64. -/
def ParseInt64 (s : String) : Option Int :=
  let body : Bool × List Char :=
    match s.toList with
    | '+' :: r => (false, r)
    | '-' :: r => (true, r)
    | r => (false, r)
  if body.2.isEmpty || !(body.2.all Char.isDigit) then none
  else
    let un : Nat := body.2.foldl (fun a c => 10 * a + (c.toNat - 48)) 0
    if body.1 then (if un > 2 ^ 63 then none else some (-(un : Int)))
    else (if un ≥ 2 ^ 63 then none else some (un : Int))

/-! ## config.go -/

structure GlobalConfig where
  ListenPort : Int
deriving DecidableEq, Repr

structure AccessPointConfig where
  Name : String
  Address : String
  Username : String
  Password : String
  KeyFile : String
deriving DecidableEq, Repr

structure Config where
  Global : GlobalConfig
  AccessPoints : List AccessPointConfig
deriving DecidableEq, Repr

/-! ## collector.go: the device status record -/

structure APSystemStats (F : Type) where
  CPU : F
  Mem : F
deriving DecidableEq, Repr

structure APSysStats (F : Type) where
  LoadAvg1 : F
  LoadAvg5 : F
  LoadAvg15 : F
  MemUsed : Int
  MemTotal : Int
  MemBuffer : Int
deriving DecidableEq, Repr

structure APInterface where
  TxBytes : Int
  RxBytes : Int
  Up : Bool
deriving DecidableEq, Repr

structure APScan where
  BSSID : String
  Channel : Int
  ESSID : String
  Frequency : Int
  Noise : Int
  Security : String
  Signal : Int
deriving DecidableEq, Repr

structure APRadio where
  Radio : String
  RadioName : String
  CurrentAntennaGain : Int
  MaxTxpower : Int
  MinTxpower : Int
  ScanTable : List APScan
deriving DecidableEq, Repr

structure APStation where
  Hostname : String
  Mac : String
  TxBytes : Int
  RxBytes : Int
  Noise : Int
  Signal : Int
deriving DecidableEq, Repr

structure APVap where
  Name : String
  Radio : String
  RadioName : String
  RxBytes : Int
  RxDropped : Int
  RxErrors : Int
  TxBytes : Int
  TxDropped : Int
  TxErrors : Int
  TxPower : Int
  TxRetries : Int
  TxSuccess : Int
  TxTotal : Int
  Channel : Int
  BSSID : String
  ESSID : String
  Usage : String
  StationTable : List APStation
deriving DecidableEq, Repr

structure AccessPointInfo (F : Type) where
  IP : String
  Mac : String
  Model : String
  ModelName : String
  Name : String
  Serial : String
  Version : String
  Uptime : Int
  SystemStats : APSystemStats F
  SysStats : APSysStats F
  InterfaceTable : List APInterface
  RadioTable : List APRadio
  VAPTable : List APVap
  Value : F
deriving DecidableEq, Repr

/-! ### Go zero values -/

def APSystemStats.zero {F : Type} (ops : Float64Ops F) : APSystemStats F :=
  { CPU := ops.ofInt64 0, Mem := ops.ofInt64 0 }

def APSysStats.zero {F : Type} (ops : Float64Ops F) : APSysStats F :=
  { LoadAvg1 := ops.ofInt64 0, LoadAvg5 := ops.ofInt64 0, LoadAvg15 := ops.ofInt64 0,
    MemUsed := 0, MemTotal := 0, MemBuffer := 0 }

def APInterface.zero : APInterface := { TxBytes := 0, RxBytes := 0, Up := false }

def APScan.zero : APScan :=
  { BSSID := "", Channel := 0, ESSID := "", Frequency := 0, Noise := 0, Security := "",
    Signal := 0 }

def APRadio.zero : APRadio :=
  { Radio := "", RadioName := "", CurrentAntennaGain := 0, MaxTxpower := 0, MinTxpower := 0,
    ScanTable := [] }

def APStation.zero : APStation :=
  { Hostname := "", Mac := "", TxBytes := 0, RxBytes := 0, Noise := 0, Signal := 0 }

def APVap.zero : APVap :=
  { Name := "", Radio := "", RadioName := "", RxBytes := 0, RxDropped := 0, RxErrors := 0,
    TxBytes := 0, TxDropped := 0, TxErrors := 0, TxPower := 0, TxRetries := 0, TxSuccess := 0,
    TxTotal := 0, Channel := 0, BSSID := "", ESSID := "", Usage := "", StationTable := [] }

def AccessPointInfo.zero {F : Type} (ops : Float64Ops F) : AccessPointInfo F :=
  { IP := "", Mac := "", Model := "", ModelName := "", Name := "", Serial := "", Version := "",
    Uptime := 0, SystemStats := APSystemStats.zero ops, SysStats := APSysStats.zero ops,
    InterfaceTable := [], RadioTable := [], VAPTable := [], Value := ops.ofInt64 0 }

/-! ## encoding/json, as used by `json.Unmarshal(output, &accessPointInfo)`

The decoder is the Go standard library's; what the repository decides is the
shape of the target: the struct declarations of collector.go lines 17 to 101 and
their tags.  The definitions below follow the documented behaviour of
`encoding/json` for those declarations:

* a member name selects the field whose JSON name is equal to it, or else equal
  to it under case folding; a member that selects no field is skipped;
* JSON `null` leaves a string, number, boolean or struct unchanged and sets a
  slice or pointer to nil;
* a value of the wrong JSON kind for its field is an error, and any error makes
  `Unmarshal` return an error;
* a field tagged `,string` takes a JSON string whose content is the literal,
  and refuses an unquoted value;
* an array is unmarshalled into a slice element by element, the element at
  index `i` being decoded into what the backing array of the slice already holds
  at index `i`, and the slice is then cut to the length of the array; so a
  member that occurs twice merges its second array into the elements of the
  first.  An empty array yields a fresh empty slice.
-/

/-- A JSON text the scanner accepts.  A number keeps its literal: the decoder
converts it only when it stores it, according to the field type. -/
inductive JSON where
  | null
  | bool (b : Bool)
  | num (lit : String)
  | str (s : String)
  | arr (elems : List JSON)
  | obj (members : List (String × JSON))

/-- Case folding of one character of a member name, as a code point.  Lower case
ASCII letters fold to upper case; U+017F (long s) and U+212A (Kelvin sign) are the
only other characters that fold to an ASCII letter.  All field names of this
program are ASCII, so no other folding can make a name match. -/
def foldRune (c : Char) : Nat :=
  if c.toNat = 383 then 83
  else if c.toNat = 8490 then 75
  else if 97 ≤ c.toNat ∧ c.toNat ≤ 122 then c.toNat - 32
  else c.toNat

def foldName (s : String) : List Nat := s.toList.map foldRune

/-- The index of the field a member name selects: an exact match of the JSON
name first, then the first field equal under case folding. -/
def findField (names : List String) (key : String) : Option Nat :=
  match names.findIdx? (fun n => n == key) with
  | some i => some i
  | none => names.findIdx? (fun n => foldName n == foldName key)

/-- Decoding of a JSON object into a struct (`decodeState.object`): the members
are stored one after the other into the current value. -/
def decodeObject {T : Type} (names : List String) (set : Nat → JSON → T → Option T) :
    List (String × JSON) → T → Option T
  | [], cur => some cur
  | (key, v) :: rest, cur =>
    match findField names key with
    | none => decodeObject names set rest cur
    | some i =>
      match set i v cur with
      | none => none
      | some next => decodeObject names set rest next

/-- A Go slice as the decoder sees it: its elements, and what its backing array
holds past its length (elements of an earlier, longer content).  Memory the
program never wrote is zero. -/
structure Slice (T : Type) where
  elems : List T
  spare : List T
deriving DecidableEq, Repr

/-- Decoding of the elements of a JSON array (`decodeState.array`): each element
is decoded into what `backing` holds at its index, into `zero` past its end. -/
def decodeArray {T : Type} (elem : JSON → T → Option T) (zero : T) :
    List JSON → List T → Option (List T)
  | [], _ => some []
  | e :: es, backing =>
    match elem e (backing.headD zero) with
    | none => none
    | some x =>
      match decodeArray elem zero es backing.tail with
      | none => none
      | some xs => some (x :: xs)

/-- Store into a `string` field. -/
def storeString (v : JSON) (cur : String) : Option String :=
  match v with
  | .null => some cur
  | .str s => some s
  | _ => none

/-- Store into a `bool` field. -/
def storeBool (v : JSON) (cur : Bool) : Option Bool :=
  match v with
  | .null => some cur
  | .bool b => some b
  | _ => none

/-- Store into an `int64` field. -/
def storeInt64 (v : JSON) (cur : Int) : Option Int :=
  match v with
  | .null => some cur
  | .num lit => ParseInt64 lit
  | _ => none

/-- Store into a `float64` field without the `,string` option. -/
def storeFloat64 {F : Type} (ops : Float64Ops F) (v : JSON) (cur : F) : Option F :=
  match v with
  | .null => some cur
  | .num lit => ops.parseFloat lit
  | _ => none

/-- Store of the content `item` of a JSON string into a `float64` field tagged
`,string`: the content is converted by `strconv.ParseFloat`, whatever it starts
with; a content `strconv.ParseFloat` refuses is an error, except `null`, which
is read as the null literal and leaves the field unchanged. -/
def literalStoreQuotedFloat64 {F : Type} (ops : Float64Ops F) (item : String) (cur : F) :
    Option F :=
  match ops.parseFloat item with
  | some x => some x
  | none => if item = "null" then some cur else none

/-- Store into a `float64` field tagged `,string`: JSON null, or a JSON string
holding the literal; an unquoted value (number, boolean, object, array) is the
error "invalid use of ,string struct tag". -/
def storeQuotedFloat64 {F : Type} (ops : Float64Ops F) (v : JSON) (cur : F) : Option F :=
  match v with
  | .null => some cur
  | .str s => literalStoreQuotedFloat64 ops s cur
  | _ => none

/-- Store into a struct-typed field or slice element. -/
def storeStruct {T : Type} (decode : List (String × JSON) → T → Option T) (v : JSON) (cur : T) :
    Option T :=
  match v with
  | .null => some cur
  | .obj members => decode members cur
  | _ => none

/-- Store into a slice-of-struct field.  JSON null sets the slice to nil and an
empty array sets it to a fresh empty slice; the elements of any other array are
decoded into the backing array of the current slice, and what that array holds
past the new length stays there. -/
def storeSlice {T : Type} (decode : List (String × JSON) → T → Option T) (zero : T) (v : JSON)
    (cur : Slice T) : Option (Slice T) :=
  match v with
  | .null => some { elems := [], spare := [] }
  | .arr elems =>
    if elems.isEmpty then some { elems := [], spare := [] }
    else
      (decodeArray (storeStruct decode) zero elems (cur.elems ++ cur.spare)).map fun xs =>
        { elems := xs, spare := (cur.elems ++ cur.spare).drop elems.length }
  | _ => none

/-! ### The struct declarations and their tags -/

def APSystemStats.names : List String := ["cpu", "mem"]

def APSystemStats.set {F : Type} (ops : Float64Ops F) (i : Nat) (v : JSON)
    (s : APSystemStats F) : Option (APSystemStats F) :=
  match i with
  | 0 => (storeQuotedFloat64 ops v s.CPU).map (fun x => { s with CPU := x })
  | 1 => (storeQuotedFloat64 ops v s.Mem).map (fun x => { s with Mem := x })
  | _ => some s

def APSystemStats.decode {F : Type} (ops : Float64Ops F) :
    List (String × JSON) → APSystemStats F → Option (APSystemStats F) :=
  decodeObject APSystemStats.names (APSystemStats.set ops)

def APSysStats.names : List String :=
  ["loadavg_1", "loadavg_5", "loadavg_15", "mem_used", "mem_total", "mem_buffer"]

def APSysStats.set {F : Type} (ops : Float64Ops F) (i : Nat) (v : JSON)
    (s : APSysStats F) : Option (APSysStats F) :=
  match i with
  | 0 => (storeQuotedFloat64 ops v s.LoadAvg1).map (fun x => { s with LoadAvg1 := x })
  | 1 => (storeQuotedFloat64 ops v s.LoadAvg5).map (fun x => { s with LoadAvg5 := x })
  | 2 => (storeQuotedFloat64 ops v s.LoadAvg15).map (fun x => { s with LoadAvg15 := x })
  | 3 => (storeInt64 v s.MemUsed).map (fun x => { s with MemUsed := x })
  | 4 => (storeInt64 v s.MemTotal).map (fun x => { s with MemTotal := x })
  | 5 => (storeInt64 v s.MemBuffer).map (fun x => { s with MemBuffer := x })
  | _ => some s

def APSysStats.decode {F : Type} (ops : Float64Ops F) :
    List (String × JSON) → APSysStats F → Option (APSysStats F) :=
  decodeObject APSysStats.names (APSysStats.set ops)

def APInterface.names : List String := ["tx_bytes", "rx_bytes", "up"]

def APInterface.set (i : Nat) (v : JSON) (s : APInterface) : Option APInterface :=
  match i with
  | 0 => (storeInt64 v s.TxBytes).map (fun x => { s with TxBytes := x })
  | 1 => (storeInt64 v s.RxBytes).map (fun x => { s with RxBytes := x })
  | 2 => (storeBool v s.Up).map (fun x => { s with Up := x })
  | _ => some s

def APInterface.decode : List (String × JSON) → APInterface → Option APInterface :=
  decodeObject APInterface.names APInterface.set

def APScan.names : List String :=
  ["bssid", "channel", "essid", "freq", "noise", "security", "signal"]

def APScan.set (i : Nat) (v : JSON) (s : APScan) : Option APScan :=
  match i with
  | 0 => (storeString v s.BSSID).map (fun x => { s with BSSID := x })
  | 1 => (storeInt64 v s.Channel).map (fun x => { s with Channel := x })
  | 2 => (storeString v s.ESSID).map (fun x => { s with ESSID := x })
  | 3 => (storeInt64 v s.Frequency).map (fun x => { s with Frequency := x })
  | 4 => (storeInt64 v s.Noise).map (fun x => { s with Noise := x })
  | 5 => (storeString v s.Security).map (fun x => { s with Security := x })
  | 6 => (storeInt64 v s.Signal).map (fun x => { s with Signal := x })
  | _ => some s

def APScan.decode : List (String × JSON) → APScan → Option APScan :=
  decodeObject APScan.names APScan.set

def APRadio.names : List String :=
  ["radio", "name", "builtin_ant_gain", "max_txpower", "min_txpower", "scan_table"]

/-- An `APRadio` in memory: the scan table is a slice with its backing array. -/
structure APRadioMem where
  Radio : String
  RadioName : String
  CurrentAntennaGain : Int
  MaxTxpower : Int
  MinTxpower : Int
  ScanTable : Slice APScan
deriving DecidableEq, Repr

def APRadioMem.zero : APRadioMem :=
  { Radio := "", RadioName := "", CurrentAntennaGain := 0, MaxTxpower := 0, MinTxpower := 0,
    ScanTable := { elems := [], spare := [] } }

/-- The radio as the program reads it: the elements of its slice. -/
def APRadioMem.view (s : APRadioMem) : APRadio :=
  { Radio := s.Radio, RadioName := s.RadioName, CurrentAntennaGain := s.CurrentAntennaGain,
    MaxTxpower := s.MaxTxpower, MinTxpower := s.MinTxpower, ScanTable := s.ScanTable.elems }

def APRadioMem.set (i : Nat) (v : JSON) (s : APRadioMem) : Option APRadioMem :=
  match i with
  | 0 => (storeString v s.Radio).map (fun x => { s with Radio := x })
  | 1 => (storeString v s.RadioName).map (fun x => { s with RadioName := x })
  | 2 => (storeInt64 v s.CurrentAntennaGain).map (fun x => { s with CurrentAntennaGain := x })
  | 3 => (storeInt64 v s.MaxTxpower).map (fun x => { s with MaxTxpower := x })
  | 4 => (storeInt64 v s.MinTxpower).map (fun x => { s with MinTxpower := x })
  | 5 => (storeSlice APScan.decode APScan.zero v s.ScanTable).map
      (fun x => { s with ScanTable := x })
  | _ => some s

def APRadioMem.decode : List (String × JSON) → APRadioMem → Option APRadioMem :=
  decodeObject APRadio.names APRadioMem.set

def APStation.names : List String :=
  ["hostname", "mac", "tx_bytes", "rx_bytes", "noise", "signal"]

def APStation.set (i : Nat) (v : JSON) (s : APStation) : Option APStation :=
  match i with
  | 0 => (storeString v s.Hostname).map (fun x => { s with Hostname := x })
  | 1 => (storeString v s.Mac).map (fun x => { s with Mac := x })
  | 2 => (storeInt64 v s.TxBytes).map (fun x => { s with TxBytes := x })
  | 3 => (storeInt64 v s.RxBytes).map (fun x => { s with RxBytes := x })
  | 4 => (storeInt64 v s.Noise).map (fun x => { s with Noise := x })
  | 5 => (storeInt64 v s.Signal).map (fun x => { s with Signal := x })
  | _ => some s

def APStation.decode : List (String × JSON) → APStation → Option APStation :=
  decodeObject APStation.names APStation.set

def APVap.names : List String :=
  ["name", "radio", "radio_name", "rx_bytes", "rx_dropped", "rx_errors", "tx_bytes",
    "tx_dropped", "tx_errors", "tx_power", "tx_retries", "tx_success", "tx_total", "channel",
    "bssid", "essid", "usage", "sta_table"]

/-- An `APVap` in memory: the station table is a slice with its backing array. -/
structure APVapMem where
  Name : String
  Radio : String
  RadioName : String
  RxBytes : Int
  RxDropped : Int
  RxErrors : Int
  TxBytes : Int
  TxDropped : Int
  TxErrors : Int
  TxPower : Int
  TxRetries : Int
  TxSuccess : Int
  TxTotal : Int
  Channel : Int
  BSSID : String
  ESSID : String
  Usage : String
  StationTable : Slice APStation
deriving DecidableEq, Repr

def APVapMem.zero : APVapMem :=
  { Name := "", Radio := "", RadioName := "", RxBytes := 0, RxDropped := 0, RxErrors := 0,
    TxBytes := 0, TxDropped := 0, TxErrors := 0, TxPower := 0, TxRetries := 0, TxSuccess := 0,
    TxTotal := 0, Channel := 0, BSSID := "", ESSID := "", Usage := "",
    StationTable := { elems := [], spare := [] } }

/-- The VAP as the program reads it: the elements of its slice. -/
def APVapMem.view (s : APVapMem) : APVap :=
  { Name := s.Name, Radio := s.Radio, RadioName := s.RadioName, RxBytes := s.RxBytes,
    RxDropped := s.RxDropped, RxErrors := s.RxErrors, TxBytes := s.TxBytes,
    TxDropped := s.TxDropped, TxErrors := s.TxErrors, TxPower := s.TxPower,
    TxRetries := s.TxRetries, TxSuccess := s.TxSuccess, TxTotal := s.TxTotal,
    Channel := s.Channel, BSSID := s.BSSID, ESSID := s.ESSID, Usage := s.Usage,
    StationTable := s.StationTable.elems }

def APVapMem.set (i : Nat) (v : JSON) (s : APVapMem) : Option APVapMem :=
  match i with
  | 0 => (storeString v s.Name).map (fun x => { s with Name := x })
  | 1 => (storeString v s.Radio).map (fun x => { s with Radio := x })
  | 2 => (storeString v s.RadioName).map (fun x => { s with RadioName := x })
  | 3 => (storeInt64 v s.RxBytes).map (fun x => { s with RxBytes := x })
  | 4 => (storeInt64 v s.RxDropped).map (fun x => { s with RxDropped := x })
  | 5 => (storeInt64 v s.RxErrors).map (fun x => { s with RxErrors := x })
  | 6 => (storeInt64 v s.TxBytes).map (fun x => { s with TxBytes := x })
  | 7 => (storeInt64 v s.TxDropped).map (fun x => { s with TxDropped := x })
  | 8 => (storeInt64 v s.TxErrors).map (fun x => { s with TxErrors := x })
  | 9 => (storeInt64 v s.TxPower).map (fun x => { s with TxPower := x })
  | 10 => (storeInt64 v s.TxRetries).map (fun x => { s with TxRetries := x })
  | 11 => (storeInt64 v s.TxSuccess).map (fun x => { s with TxSuccess := x })
  | 12 => (storeInt64 v s.TxTotal).map (fun x => { s with TxTotal := x })
  | 13 => (storeInt64 v s.Channel).map (fun x => { s with Channel := x })
  | 14 => (storeString v s.BSSID).map (fun x => { s with BSSID := x })
  | 15 => (storeString v s.ESSID).map (fun x => { s with ESSID := x })
  | 16 => (storeString v s.Usage).map (fun x => { s with Usage := x })
  | 17 => (storeSlice APStation.decode APStation.zero v s.StationTable).map
      (fun x => { s with StationTable := x })
  | _ => some s

def APVapMem.decode : List (String × JSON) → APVapMem → Option APVapMem :=
  decodeObject APVap.names APVapMem.set

/-- The JSON names of the fields of `AccessPointInfo`.  `Name` and `Value` carry
no tag, so their JSON names are the Go field names. -/
def AccessPointInfo.names : List String :=
  ["ip", "mac", "model", "model_display", "Name", "serial", "version", "uptime",
    "system-stats", "sys_stats", "if_table", "radio_table", "vap_table", "Value"]

/-- An `AccessPointInfo` in memory: the three tables are slices with their
backing arrays. -/
structure AccessPointInfoMem (F : Type) where
  IP : String
  Mac : String
  Model : String
  ModelName : String
  Name : String
  Serial : String
  Version : String
  Uptime : Int
  SystemStats : APSystemStats F
  SysStats : APSysStats F
  InterfaceTable : Slice APInterface
  RadioTable : Slice APRadioMem
  VAPTable : Slice APVapMem
  Value : F
deriving DecidableEq, Repr

def AccessPointInfoMem.zero {F : Type} (ops : Float64Ops F) : AccessPointInfoMem F :=
  { IP := "", Mac := "", Model := "", ModelName := "", Name := "", Serial := "", Version := "",
    Uptime := 0, SystemStats := APSystemStats.zero ops, SysStats := APSysStats.zero ops,
    InterfaceTable := { elems := [], spare := [] }, RadioTable := { elems := [], spare := [] },
    VAPTable := { elems := [], spare := [] }, Value := ops.ofInt64 0 }

/-- The record as the program reads it: the elements of its slices. -/
def AccessPointInfoMem.view {F : Type} (s : AccessPointInfoMem F) : AccessPointInfo F :=
  { IP := s.IP, Mac := s.Mac, Model := s.Model, ModelName := s.ModelName, Name := s.Name,
    Serial := s.Serial, Version := s.Version, Uptime := s.Uptime, SystemStats := s.SystemStats,
    SysStats := s.SysStats, InterfaceTable := s.InterfaceTable.elems,
    RadioTable := s.RadioTable.elems.map APRadioMem.view,
    VAPTable := s.VAPTable.elems.map APVapMem.view, Value := s.Value }

def AccessPointInfoMem.set {F : Type} (ops : Float64Ops F) (i : Nat) (v : JSON)
    (s : AccessPointInfoMem F) : Option (AccessPointInfoMem F) :=
  match i with
  | 0 => (storeString v s.IP).map (fun x => { s with IP := x })
  | 1 => (storeString v s.Mac).map (fun x => { s with Mac := x })
  | 2 => (storeString v s.Model).map (fun x => { s with Model := x })
  | 3 => (storeString v s.ModelName).map (fun x => { s with ModelName := x })
  | 4 => (storeString v s.Name).map (fun x => { s with Name := x })
  | 5 => (storeString v s.Serial).map (fun x => { s with Serial := x })
  | 6 => (storeString v s.Version).map (fun x => { s with Version := x })
  | 7 => (storeInt64 v s.Uptime).map (fun x => { s with Uptime := x })
  | 8 => (storeStruct (APSystemStats.decode ops) v s.SystemStats).map
      (fun x => { s with SystemStats := x })
  | 9 => (storeStruct (APSysStats.decode ops) v s.SysStats).map
      (fun x => { s with SysStats := x })
  | 10 => (storeSlice APInterface.decode APInterface.zero v s.InterfaceTable).map
      (fun x => { s with InterfaceTable := x })
  | 11 => (storeSlice APRadioMem.decode APRadioMem.zero v s.RadioTable).map
      (fun x => { s with RadioTable := x })
  | 12 => (storeSlice APVapMem.decode APVapMem.zero v s.VAPTable).map
      (fun x => { s with VAPTable := x })
  | 13 => (storeFloat64 ops v s.Value).map (fun x => { s with Value := x })
  | _ => some s

def AccessPointInfoMem.decode {F : Type} (ops : Float64Ops F) :
    List (String × JSON) → AccessPointInfoMem F → Option (AccessPointInfoMem F) :=
  decodeObject AccessPointInfo.names (AccessPointInfoMem.set ops)

/-- The call `json.Unmarshal(output, &accessPointInfo)` of `Fetch`.  `data` is the
output read from the device: `none` when it is not a JSON text (a syntax error).
The target is the pointer variable `accessPointInfo`, which holds a record when
the call is made; the result is the new content of that variable, or `none` when
`Unmarshal` returns an error.  JSON `null` sets the pointer to nil; an object is
decoded into the record it points to; any other value is a type error. -/
def Unmarshal {F : Type} (ops : Float64Ops F) (data : Option JSON)
    (target : AccessPointInfoMem F) : Option (Option (AccessPointInfoMem F)) :=
  match data with
  | none => none
  | some .null => some none
  | some (.obj members) => (AccessPointInfoMem.decode ops members target).map some
  | some _ => none

/-! ## collector.go: Fetch and Collect -/

structure Collector where
  config : Config
deriving DecidableEq, Repr

def NewCollector (config : Config) : Collector := { config := config }

/-- The error `Fetch` returns, named after the call that reported it. -/
inductive FetchError where
  | readFile
  | parsePrivateKey
  | dial
  | newSession
  | stdoutPipe
  | run
  | readAll
  | unmarshal
deriving DecidableEq, Repr

/-- What the outside world answers to the calls of one `Fetch`: whether each of
`os.ReadFile`, `ssh.ParsePrivateKey`, `ssh.Dial`, `client.NewSession`,
`session.StdoutPipe`, `session.Run` and `io.ReadAll` succeeds, and the output
read from the device (`none` when it is not a JSON text). -/
structure Remote where
  readFile : Bool
  parsePrivateKey : Bool
  dial : Bool
  newSession : Bool
  stdoutPipe : Bool
  run : Bool
  readAll : Bool
  output : Option JSON

/-- The method `Collector.Fetch` (collector.go 131-191).  The result is the pair
(record pointer, error) the Go function returns. -/
def Collector.Fetch {F : Type} (ops : Float64Ops F) (_c : Collector) (remote : Remote)
    (accessPoint : AccessPointConfig) : Option (AccessPointInfo F) × Option FetchError :=
  if accessPoint.KeyFile ≠ "" ∧ remote.readFile = false then (none, some .readFile)
  else if accessPoint.KeyFile ≠ "" ∧ remote.parsePrivateKey = false then
    (none, some .parsePrivateKey)
  else if remote.dial = false then (none, some .dial)
  else if remote.newSession = false then (none, some .newSession)
  else if remote.stdoutPipe = false then (none, some .stdoutPipe)
  else if remote.run = false then (none, some .run)
  else if remote.readAll = false then (none, some .readAll)
  else
    let accessPointInfo : AccessPointInfoMem F :=
      { AccessPointInfoMem.zero ops with Name := accessPoint.Name, Value := ops.ofInt64 1 }
    match Unmarshal ops remote.output accessPointInfo with
    | none => (none, some .unmarshal)
    | some pointer => (pointer.map AccessPointInfoMem.view, none)

/-- The record `Collect` appends for an access point whose `Fetch` failed
(collector.go 116-120). -/
def Collector.placeholder {F : Type} (ops : Float64Ops F) (accessPoint : AccessPointConfig) :
    AccessPointInfo F :=
  { AccessPointInfo.zero ops with
    Name := accessPoint.Name, IP := accessPoint.Address, Value := ops.ofInt64 0 }

inductive Panic where
  | nilDereference
  | labelCardinality
deriving DecidableEq, Repr

/-- The loop of `Collector.Collect` (collector.go 113-126) from the `i`-th access
point on; `remote i` is the outside world during the `i`-th call of `Fetch`.
Dereferencing a nil record pointer panics. -/
def Collector.collectFrom {F : Type} (ops : Float64Ops F) (c : Collector)
    (remote : Nat → Remote) :
    Nat → List AccessPointConfig → List (AccessPointInfo F) →
      Except Panic (List (AccessPointInfo F))
  | _, [], accessPointInfos => .ok accessPointInfos
  | i, accessPoint :: rest, accessPointInfos =>
    match c.Fetch ops (remote i) accessPoint with
    | (_, some _) =>
      Collector.collectFrom ops c remote (i + 1) rest
        (accessPointInfos ++ [Collector.placeholder ops accessPoint])
    | (some accessPointInfo, none) =>
      Collector.collectFrom ops c remote (i + 1) rest (accessPointInfos ++ [accessPointInfo])
    | (none, none) => .error .nilDereference

/-- The method `Collector.Collect` (collector.go 110-129): the list and the error it
returns, or a panic. -/
def Collector.Collect {F : Type} (ops : Float64Ops F) (c : Collector) (remote : Nat → Remote) :
    Except Panic (List (AccessPointInfo F) × Option FetchError) :=
  match Collector.collectFrom ops c remote 0 c.config.AccessPoints [] with
  | .error p => .error p
  | .ok accessPointInfos => .ok (accessPointInfos, none)

/-! ## exporter.go -/

/-- The type `prometheus.ValueType`. -/
inductive ValueType where
  | CounterValue
  | GaugeValue
  | UntypedValue
deriving DecidableEq, Repr

/-- What `prometheus.NewDesc(fqName, help, variableLabels, nil)` records. -/
structure Desc where
  fqName : String
  help : String
  variableLabels : List String
deriving DecidableEq, Repr

def NewDesc (fqName help : String) (variableLabels : List String) : Desc :=
  { fqName := fqName, help := help, variableLabels := variableLabels }

/-- A constant metric: one series sent on the channel. -/
structure Metric (F : Type) where
  desc : Desc
  valueType : ValueType
  value : F
  labelValues : List String
deriving DecidableEq, Repr

/-- The function `prometheus.MustNewConstMetric`: it panics unless there are as many
label values as the descriptor has variable labels. -/
def MustNewConstMetric {F : Type} (desc : Desc) (valueType : ValueType) (value : F)
    (labelValues : List String) : Except Panic (Metric F) :=
  if labelValues.length = desc.variableLabels.length then
    .ok { desc := desc, valueType := valueType, value := value, labelValues := labelValues }
  else .error .labelCardinality

def namespace_ : String := "unifi_ap_"

structure deviceMetrics where
  info : Desc
  uptime : Desc
  totalTxBytes : Desc
  totalRxBytes : Desc
  loadAvg1 : Desc
  loadAvg5 : Desc
  loadAvg15 : Desc
  memUsed : Desc
  memTotal : Desc
  memBuffer : Desc
  cpu : Desc
  mem : Desc
deriving DecidableEq, Repr

structure radioMetrics where
  currentAntennaGain : Desc
  maxTxpower : Desc
  minTxpower : Desc
deriving DecidableEq, Repr

structure vapMetrics where
  rxBytes : Desc
  rxDropped : Desc
  rxErrors : Desc
  txBytes : Desc
  txDropped : Desc
  txErrors : Desc
  txPower : Desc
  txRetries : Desc
  txSuccess : Desc
  txTotal : Desc
deriving DecidableEq, Repr

structure stationMetrics where
  txBytes : Desc
  rxBytes : Desc
  noise : Desc
  signal : Desc
deriving DecidableEq, Repr

structure rogueMetrics where
  channel : Desc
  frequency : Desc
  noise : Desc
  signal : Desc
deriving DecidableEq, Repr

structure Exporter where
  collector : Collector
  device : deviceMetrics
  radio : radioMetrics
  vap : vapMetrics
  station : stationMetrics
  rogue : rogueMetrics
deriving DecidableEq, Repr

def deviceInfoLabels : List String :=
  ["ip", "mac", "model", "model_name", "name", "serial", "version"]

def deviceLabels : List String := ["name", "model"]

def radioLabels : List String := ["name", "radio", "radio_name"]

def vapLabels : List String :=
  ["name", "vap_name", "bssid", "radio", "radio_name", "essid", "usage"]

def stationLabels : List String := ["name", "vap_name", "hostname", "mac"]

def rogueLabels : List String := ["name", "radio", "bssid", "essid", "security"]

/-- The function `NewExporter` (exporter.go 74-134). -/
def NewExporter (collector : Collector) : Exporter :=
  { collector := collector
    device :=
      { info := NewDesc (namespace_ ++ "info") "Device Information" deviceInfoLabels
        uptime := NewDesc (namespace_ ++ "uptime_seconds") "Device Uptime" deviceLabels
        totalTxBytes :=
          NewDesc (namespace_ ++ "transmit_bytes_total") "Total Transmitted Bytes" deviceLabels
        totalRxBytes :=
          NewDesc (namespace_ ++ "receive_bytes_total") "Total Received Bytes" deviceLabels
        loadAvg1 :=
          NewDesc (namespace_ ++ "load_average_1") "System Load Average 1 Minute" deviceLabels
        loadAvg5 :=
          NewDesc (namespace_ ++ "load_average_5") "System Load Average 5 Minutes" deviceLabels
        loadAvg15 :=
          NewDesc (namespace_ ++ "load_average_15") "System Load Average 15 Minutes" deviceLabels
        memUsed := NewDesc (namespace_ ++ "memory_used_bytes") "System Memory Used" deviceLabels
        memTotal :=
          NewDesc (namespace_ ++ "memory_installed_bytes") "System Installed Memory" deviceLabels
        memBuffer :=
          NewDesc (namespace_ ++ "memory_buffer_bytes") "System Memory Buffer" deviceLabels
        cpu := NewDesc (namespace_ ++ "cpu_utilization_ratio") "System CPU % Utilized" deviceLabels
        mem :=
          NewDesc (namespace_ ++ "memory_utilization_ratio") "System Memory % Utilized"
            deviceLabels }
    radio :=
      { currentAntennaGain :=
          NewDesc (namespace_ ++ "radio_current_antenna_gain") "Radio Current Antenna Gain"
            radioLabels
        maxTxpower :=
          NewDesc (namespace_ ++ "radio_max_transmit_power") "Radio Maximum Transmit Power"
            radioLabels
        minTxpower :=
          NewDesc (namespace_ ++ "radio_min_transmit_power") "Radio Minimum Transmit Power"
            radioLabels }
    vap :=
      { rxBytes := NewDesc (namespace_ ++ "vap_receive_bytes_total") "VAP Bytes Received" vapLabels
        rxDropped :=
          NewDesc (namespace_ ++ "vap_receive_dropped_total") "VAP Dropped Received" vapLabels
        rxErrors :=
          NewDesc (namespace_ ++ "vap_receive_errors_total") "VAP Errors Received" vapLabels
        txBytes :=
          NewDesc (namespace_ ++ "vap_transmit_bytes_total") "VAP Bytes Transmitted" vapLabels
        txDropped :=
          NewDesc (namespace_ ++ "vap_transmit_dropped_total") "VAP Dropped Transmitted" vapLabels
        txErrors :=
          NewDesc (namespace_ ++ "vap_transmit_errors_total") "VAP Errors Transmitted" vapLabels
        txPower := NewDesc (namespace_ ++ "vap_transmit_power") "VAP Transmit Power" vapLabels
        txRetries :=
          NewDesc (namespace_ ++ "vap_transmit_retries_total") "VAP Retries Transmitted" vapLabels
        txSuccess :=
          NewDesc (namespace_ ++ "vap_transmit_success_total") "VAP Success Transmits" vapLabels
        txTotal := NewDesc (namespace_ ++ "vap_transmit_total") "VAP Transmit Total" vapLabels }
    station :=
      { txBytes :=
          NewDesc (namespace_ ++ "station_transmit_bytes_total") "Station Bytes Transmitted"
            stationLabels
        rxBytes :=
          NewDesc (namespace_ ++ "station_receive_bytes_total") "Station Bytes Received"
            stationLabels
        noise := NewDesc (namespace_ ++ "station_noise") "Station Noise" stationLabels
        signal := NewDesc (namespace_ ++ "station_signal") "Station Signal" stationLabels }
    rogue :=
      { channel := NewDesc (namespace_ ++ "rogueap_channel") "RogueAP Channel" rogueLabels
        frequency := NewDesc (namespace_ ++ "rogueap_frequency") "RogueAP Frequency" rogueLabels
        noise := NewDesc (namespace_ ++ "rogueap_noise") "RogueAP Noise" rogueLabels
        signal := NewDesc (namespace_ ++ "rogueap_signal") "RogueAP Signal" rogueLabels } }

/-- The arguments of one call of `prometheus.MustNewConstMetric`. -/
structure ConstMetricArgs (F : Type) where
  desc : Desc
  valueType : ValueType
  value : F
  labelValues : List String
deriving DecidableEq, Repr

/-- The accumulators `txTotal` and `rxTotal` after the loop over the interface
table (exporter.go 199-206); `+=` on int64 wraps. -/
def Exporter.totalBytes (interfaceTable : List APInterface) : Int × Int :=
  interfaceTable.foldl
    (fun (t : Int × Int) (i : APInterface) =>
      if i.Up then (wrap64 (t.1 + i.TxBytes), wrap64 (t.2 + i.RxBytes)) else t)
    (0, 0)

/-- The calls made for one scan-table entry (exporter.go 241-248). -/
def Exporter.rogueArgs {F : Type} (ops : Float64Ops F) (e : Exporter) (name : String)
    (radio : APRadio) (rogue : APScan) : List (ConstMetricArgs F) :=
  [ ⟨e.rogue.frequency, .GaugeValue, ops.ofInt64 rogue.Frequency,
      [name, radio.Radio, rogue.BSSID, rogue.ESSID, rogue.Security]⟩,
    ⟨e.rogue.channel, .GaugeValue, ops.ofInt64 rogue.Channel,
      [name, radio.Radio, rogue.BSSID, rogue.ESSID, rogue.Security]⟩,
    ⟨e.rogue.noise, .GaugeValue, ops.ofInt64 rogue.Noise,
      [name, radio.Radio, rogue.BSSID, rogue.ESSID, rogue.Security]⟩,
    ⟨e.rogue.signal, .GaugeValue, ops.ofInt64 rogue.Signal,
      [name, radio.Radio, rogue.BSSID, rogue.ESSID, rogue.Security]⟩ ]

/-- The calls made for one radio (exporter.go 232-249). -/
def Exporter.radioArgs {F : Type} (ops : Float64Ops F) (e : Exporter) (name : String)
    (radio : APRadio) : List (ConstMetricArgs F) :=
  [ ⟨e.radio.currentAntennaGain, .GaugeValue, ops.ofInt64 radio.CurrentAntennaGain,
      [name, radio.Radio, radio.RadioName]⟩,
    ⟨e.radio.maxTxpower, .GaugeValue, ops.ofInt64 radio.MaxTxpower,
      [name, radio.Radio, radio.RadioName]⟩,
    ⟨e.radio.minTxpower, .GaugeValue, ops.ofInt64 radio.MinTxpower,
      [name, radio.Radio, radio.RadioName]⟩ ]
  ++ radio.ScanTable.flatMap (Exporter.rogueArgs ops e name radio)

/-- The calls made for one station (exporter.go 277-284). -/
def Exporter.stationArgs {F : Type} (ops : Float64Ops F) (e : Exporter) (name : String)
    (vap : APVap) (station : APStation) : List (ConstMetricArgs F) :=
  [ ⟨e.station.rxBytes, .CounterValue, ops.ofInt64 station.RxBytes,
      [name, vap.Name, station.Hostname, station.Mac]⟩,
    ⟨e.station.txBytes, .CounterValue, ops.ofInt64 station.TxBytes,
      [name, vap.Name, station.Hostname, station.Mac]⟩,
    ⟨e.station.noise, .CounterValue, ops.ofInt64 station.Noise,
      [name, vap.Name, station.Hostname, station.Mac]⟩,
    ⟨e.station.signal, .CounterValue, ops.ofInt64 station.Signal,
      [name, vap.Name, station.Hostname, station.Mac]⟩ ]

/-- The label values of every series of one VAP (exporter.go 255). -/
def Exporter.vapLabelValues (name : String) (vap : APVap) : List String :=
  [name, vap.Name, vap.BSSID, vap.Radio, vap.RadioName, vap.ESSID, vap.Usage]

/-- The calls made for one VAP (exporter.go 254-285). -/
def Exporter.vapArgs {F : Type} (ops : Float64Ops F) (e : Exporter) (name : String)
    (vap : APVap) : List (ConstMetricArgs F) :=
  [ ⟨e.vap.rxBytes, .CounterValue, ops.ofInt64 vap.RxBytes, Exporter.vapLabelValues name vap⟩,
    ⟨e.vap.rxDropped, .CounterValue, ops.ofInt64 vap.RxDropped,
      Exporter.vapLabelValues name vap⟩,
    ⟨e.vap.rxErrors, .CounterValue, ops.ofInt64 vap.RxErrors, Exporter.vapLabelValues name vap⟩,
    ⟨e.vap.txBytes, .CounterValue, ops.ofInt64 vap.TxBytes, Exporter.vapLabelValues name vap⟩,
    ⟨e.vap.txDropped, .CounterValue, ops.ofInt64 vap.TxDropped,
      Exporter.vapLabelValues name vap⟩,
    ⟨e.vap.txErrors, .CounterValue, ops.ofInt64 vap.TxErrors, Exporter.vapLabelValues name vap⟩,
    ⟨e.vap.txPower, .GaugeValue, ops.ofInt64 vap.TxPower, Exporter.vapLabelValues name vap⟩,
    ⟨e.vap.txRetries, .CounterValue, ops.ofInt64 vap.TxRetries,
      Exporter.vapLabelValues name vap⟩,
    ⟨e.vap.txSuccess, .CounterValue, ops.ofInt64 vap.TxSuccess,
      Exporter.vapLabelValues name vap⟩,
    ⟨e.vap.txTotal, .CounterValue, ops.ofInt64 vap.TxTotal, Exporter.vapLabelValues name vap⟩ ]
  ++ vap.StationTable.flatMap (Exporter.stationArgs ops e name vap)

/-- The calls made for the device-level series of one record (exporter.go 193-228). -/
def Exporter.deviceArgs {F : Type} (ops : Float64Ops F) (e : Exporter)
    (accessPointInfo : AccessPointInfo F) : List (ConstMetricArgs F) :=
  [ ⟨e.device.info, .GaugeValue, accessPointInfo.Value,
      [accessPointInfo.IP, accessPointInfo.Mac, accessPointInfo.Model,
        accessPointInfo.ModelName, accessPointInfo.Name, accessPointInfo.Serial,
        accessPointInfo.Version]⟩,
    ⟨e.device.uptime, .GaugeValue, ops.ofInt64 accessPointInfo.Uptime,
      [accessPointInfo.Name, accessPointInfo.Model]⟩,
    ⟨e.device.totalTxBytes, .CounterValue,
      ops.ofInt64 (Exporter.totalBytes accessPointInfo.InterfaceTable).1,
      [accessPointInfo.Name, accessPointInfo.Model]⟩,
    ⟨e.device.totalRxBytes, .CounterValue,
      ops.ofInt64 (Exporter.totalBytes accessPointInfo.InterfaceTable).2,
      [accessPointInfo.Name, accessPointInfo.Model]⟩,
    ⟨e.device.loadAvg1, .GaugeValue, accessPointInfo.SysStats.LoadAvg1,
      [accessPointInfo.Name, accessPointInfo.Model]⟩,
    ⟨e.device.loadAvg5, .GaugeValue, accessPointInfo.SysStats.LoadAvg5,
      [accessPointInfo.Name, accessPointInfo.Model]⟩,
    ⟨e.device.loadAvg15, .GaugeValue, accessPointInfo.SysStats.LoadAvg15,
      [accessPointInfo.Name, accessPointInfo.Model]⟩,
    ⟨e.device.memUsed, .GaugeValue, ops.ofInt64 accessPointInfo.SysStats.MemUsed,
      [accessPointInfo.Name, accessPointInfo.Model]⟩,
    ⟨e.device.memTotal, .GaugeValue, ops.ofInt64 accessPointInfo.SysStats.MemTotal,
      [accessPointInfo.Name, accessPointInfo.Model]⟩,
    ⟨e.device.memBuffer, .GaugeValue, ops.ofInt64 accessPointInfo.SysStats.MemBuffer,
      [accessPointInfo.Name, accessPointInfo.Model]⟩,
    ⟨e.device.cpu, .GaugeValue, accessPointInfo.SystemStats.CPU,
      [accessPointInfo.Name, accessPointInfo.Model]⟩,
    ⟨e.device.mem, .GaugeValue, accessPointInfo.SystemStats.Mem,
      [accessPointInfo.Name, accessPointInfo.Model]⟩ ]

/-- The calls made by one iteration of the loop over the records
(exporter.go 191-288), in order. -/
def Exporter.recordArgs {F : Type} (ops : Float64Ops F) (e : Exporter)
    (accessPointInfo : AccessPointInfo F) : List (ConstMetricArgs F) :=
  Exporter.deviceArgs ops e accessPointInfo
  ++ accessPointInfo.RadioTable.flatMap (Exporter.radioArgs ops e accessPointInfo.Name)
  ++ accessPointInfo.VAPTable.flatMap (Exporter.vapArgs ops e accessPointInfo.Name)

/-- Every call is evaluated and its metric sent on the channel, in order; the
first panic ends the run. -/
def sendAll {F : Type} : List (ConstMetricArgs F) → Except Panic (List (Metric F))
  | [] => .ok []
  | a :: rest =>
    match MustNewConstMetric a.desc a.valueType a.value a.labelValues with
    | .error p => .error p
    | .ok m =>
      match sendAll rest with
      | .error p => .error p
      | .ok ms => .ok (m :: ms)

/-- The loop of `Exporter.Collect` over the records (exporter.go 191-288): the
metrics sent on the channel, or a panic. -/
def Exporter.flatten {F : Type} (ops : Float64Ops F) (e : Exporter)
    (accessPointInfos : List (AccessPointInfo F)) : Except Panic (List (Metric F)) :=
  sendAll (accessPointInfos.flatMap (Exporter.recordArgs ops e))

/-- The method `Exporter.Collect` (exporter.go 184-290): the metrics sent on the
channel during one scrape, or a panic. -/
def Exporter.Collect {F : Type} (ops : Float64Ops F) (e : Exporter) (remote : Nat → Remote) :
    Except Panic (List (Metric F)) :=
  match e.collector.Collect ops remote with
  | .error p => .error p
  | .ok (_, some _) => .ok []
  | .ok (accessPointInfos, none) => Exporter.flatten ops e accessPointInfos

/-! ## A sample scrape, for evaluating the model -/

/-- A float64 model over the integers: it converts exactly and parses integer
literals only. -/
def sampleOps : Float64Ops Int := { ofInt64 := id, parseFloat := ParseInt64 }

def sampleA : AccessPointConfig :=
  { Name := "A", Address := "10.0.0.1", Username := "admin", Password := "secret", KeyFile := "" }

def sampleB : AccessPointConfig :=
  { Name := "B", Address := "10.0.0.2", Username := "admin", Password := "secret", KeyFile := "" }

def sampleCollector : Collector :=
  NewCollector { Global := { ListenPort := 9130 }, AccessPoints := [sampleA, sampleB] }

/-- The document of device A: one interface up, one down. -/
def sampleDocument : JSON :=
  .obj [("if_table", .arr
    [ .obj [("tx_bytes", .num "100"), ("rx_bytes", .num "200"), ("up", .bool true)],
      .obj [("tx_bytes", .num "9999"), ("rx_bytes", .num "9999"), ("up", .bool false)] ])]

/-- Device A answers with `sampleDocument`; every later device refuses the
connection. -/
def sampleRemote (i : Nat) : Remote :=
  { readFile := true, parsePrivateKey := true, dial := decide (i = 0), newSession := true,
    stdoutPipe := true, run := true, readAll := true, output := some sampleDocument }

/-- The metric `MustNewConstMetric` builds from the arguments of a call that
passes the label check. -/
def ConstMetricArgs.toMetric {F : Type} (a : ConstMetricArgs F) : Metric F :=
  { desc := a.desc, valueType := a.valueType, value := a.value, labelValues := a.labelValues }

/-- A record whose two interfaces are up, with 2^62 transmitted bytes each. -/
def overflowRecord : AccessPointInfo Int :=
  { AccessPointInfo.zero sampleOps with
    Name := "A", Value := 1,
    InterfaceTable :=
      [ { TxBytes := 4611686018427387904, RxBytes := 1, Up := true },
        { TxBytes := 4611686018427387904, RxBytes := 2, Up := true } ] }

/-- The descriptors sent by `Exporter.Describe` (exporter.go 136-175), in order:
the catalogue of metrics. -/
def Exporter.Describe (e : Exporter) : List Desc :=
  [ e.device.info, e.device.uptime, e.device.totalTxBytes, e.device.totalRxBytes,
    e.device.loadAvg1, e.device.loadAvg5, e.device.loadAvg15, e.device.memUsed,
    e.device.memTotal, e.device.memBuffer, e.device.cpu, e.device.mem,
    e.radio.currentAntennaGain, e.radio.maxTxpower, e.radio.minTxpower,
    e.vap.rxBytes, e.vap.rxDropped, e.vap.rxErrors, e.vap.txBytes, e.vap.txDropped,
    e.vap.txErrors, e.vap.txPower, e.vap.txRetries, e.vap.txSuccess, e.vap.txTotal,
    e.station.rxBytes, e.station.txBytes, e.station.noise, e.station.signal,
    e.rogue.channel, e.rogue.frequency, e.rogue.noise, e.rogue.signal ]

/-! ### The entities of a record list, in the records' own list order -/

/-- The device-level metrics other than info. -/
def Exporter.deviceDescs (e : Exporter) : List Desc :=
  [ e.device.uptime, e.device.totalTxBytes, e.device.totalRxBytes, e.device.loadAvg1,
    e.device.loadAvg5, e.device.loadAvg15, e.device.memUsed, e.device.memTotal,
    e.device.memBuffer, e.device.cpu, e.device.mem ]

def Exporter.radioDescs (e : Exporter) : List Desc :=
  [e.radio.currentAntennaGain, e.radio.maxTxpower, e.radio.minTxpower]

def Exporter.rogueDescs (e : Exporter) : List Desc :=
  [e.rogue.channel, e.rogue.frequency, e.rogue.noise, e.rogue.signal]

def Exporter.vapDescs (e : Exporter) : List Desc :=
  [ e.vap.rxBytes, e.vap.rxDropped, e.vap.rxErrors, e.vap.txBytes, e.vap.txDropped,
    e.vap.txErrors, e.vap.txPower, e.vap.txRetries, e.vap.txSuccess, e.vap.txTotal ]

def Exporter.stationDescs (e : Exporter) : List Desc :=
  [e.station.txBytes, e.station.rxBytes, e.station.noise, e.station.signal]

/-- Every radio of every record, with its record. -/
def radiosOf {F : Type} (recs : List (AccessPointInfo F)) : List (AccessPointInfo F × APRadio) :=
  recs.flatMap fun r => r.RadioTable.map fun radio => (r, radio)

/-- Every scan-table entry of every radio of every record. -/
def scansOf {F : Type} (recs : List (AccessPointInfo F)) :
    List (AccessPointInfo F × APRadio × APScan) :=
  recs.flatMap fun r => r.RadioTable.flatMap fun radio =>
    radio.ScanTable.map fun scan => (r, radio, scan)

/-- Every VAP of every record, with its record. -/
def vapsOf {F : Type} (recs : List (AccessPointInfo F)) : List (AccessPointInfo F × APVap) :=
  recs.flatMap fun r => r.VAPTable.map fun vap => (r, vap)

/-- Every station of every VAP of every record. -/
def stationsOf {F : Type} (recs : List (AccessPointInfo F)) :
    List (AccessPointInfo F × APVap × APStation) :=
  recs.flatMap fun r => r.VAPTable.flatMap fun vap =>
    vap.StationTable.map fun station => (r, vap, station)

/-- A record with one VAP and no station. -/
def vapRecord : AccessPointInfo Int :=
  { AccessPointInfo.zero sampleOps with
    Name := "A", Value := 1,
    VAPTable :=
      [ { APVap.zero with
          Name := "ath0", Radio := "ng", RadioName := "wifi0", BSSID := "00:11:22:33:44:55",
          ESSID := "home", Usage := "user", RxBytes := 1, RxDropped := 2, RxErrors := 3,
          TxBytes := 4, TxDropped := 5, TxErrors := 6, TxPower := 7, TxRetries := 8,
          TxSuccess := 9, TxTotal := 10 } ] }

/-- A record with one radio that saw one neighbour, and one VAP with one
station. -/
def stationRecord : AccessPointInfo Int :=
  { AccessPointInfo.zero sampleOps with
    Name := "A", Value := 1,
    RadioTable :=
      [ { APRadio.zero with
          Radio := "ng", RadioName := "wifi0",
          ScanTable :=
            [ { APScan.zero with
                BSSID := "66:77:88:99:aa:bb", Noise := -95, Signal := -70 } ] } ],
    VAPTable :=
      [ { APVap.zero with
          Name := "ath0", Radio := "ng", RadioName := "wifi0",
          StationTable :=
            [ { APStation.zero with
                Hostname := "laptop", Mac := "cc:dd:ee:ff:00:11", Noise := -96,
                Signal := -61 } ] } ] }

/-! ## Documents in which a numeric field holds a given kind of value -/

def JSON.isNum : JSON → Bool
  | .num _ => true
  | _ => false

def JSON.isStr : JSON → Bool
  | .str _ => true
  | _ => false

/-- A JSON object or array. -/
def JSON.isComposite : JSON → Bool
  | .obj _ => true
  | .arr _ => true
  | _ => false

/-- A JSON string that is not the text of a number: `strconv.ParseFloat` refuses
its content. -/
def JSON.isNonNumericStr {F : Type} (ops : Float64Ops F) : JSON → Bool
  | .str s => (ops.parseFloat s).isNone
  | _ => false

/-- A JSON string whose content is not `null`. -/
def JSON.isNotNullStr : JSON → Bool
  | .str s => s != "null"
  | _ => false

/-- Some member of the object selects one of the fields `idx` and holds a value
satisfying `bad`. -/
def holdsMember (names : List String) (idx : List Nat) (bad : JSON → Bool)
    (members : List (String × JSON)) : Bool :=
  members.any fun kv =>
    (match findField names kv.1 with
      | some i => idx.contains i
      | none => false) && bad kv.2

/-- The value is an object satisfying `p`. -/
def holdsObject (p : List (String × JSON) → Bool) : JSON → Bool
  | .obj members => p members
  | _ => false

/-- The value is an array with an element that is an object satisfying `p`. -/
def holdsElement (p : List (String × JSON) → Bool) : JSON → Bool
  | .arr elems => elems.any (holdsObject p)
  | _ => false

/-- The fields cpu and mem, both tagged `,string`. -/
def APSystemStats.numericHolds (badQ : JSON → Bool) (members : List (String × JSON)) : Bool :=
  holdsMember APSystemStats.names [0, 1] badQ members

/-- The three load averages, tagged `,string`, and the three int64 memory
figures. -/
def APSysStats.numericHolds (badQ badI : JSON → Bool) (members : List (String × JSON)) : Bool :=
  holdsMember APSysStats.names [0, 1, 2] badQ members ||
    holdsMember APSysStats.names [3, 4, 5] badI members

def APInterface.numericHolds (badI : JSON → Bool) (members : List (String × JSON)) : Bool :=
  holdsMember APInterface.names [0, 1] badI members

def APScan.numericHolds (badI : JSON → Bool) (members : List (String × JSON)) : Bool :=
  holdsMember APScan.names [1, 3, 4, 6] badI members

def APRadio.numericHolds (badI : JSON → Bool) (members : List (String × JSON)) : Bool :=
  holdsMember APRadio.names [2, 3, 4] badI members ||
    holdsMember APRadio.names [5] (holdsElement (APScan.numericHolds badI)) members

def APStation.numericHolds (badI : JSON → Bool) (members : List (String × JSON)) : Bool :=
  holdsMember APStation.names [2, 3, 4, 5] badI members

def APVap.numericHolds (badI : JSON → Bool) (members : List (String × JSON)) : Bool :=
  holdsMember APVap.names [3, 4, 5, 6, 7, 8, 9, 10, 11, 12, 13] badI members ||
    holdsMember APVap.names [17] (holdsElement (APStation.numericHolds badI)) members

/-- In the device document with these members, some numeric field of the status
record holds a value of the given kind: `badQ` for cpu, mem and the load
averages (the fields tagged `,string`), `badI` for the int64 fields (uptime, the
memory figures, and the counters and power figures of interfaces, radios, scan
entries, VAPs and stations). -/
def AccessPointInfo.numericHolds (badQ badI : JSON → Bool) (members : List (String × JSON)) :
    Bool :=
  holdsMember AccessPointInfo.names [7] badI members ||
    holdsMember AccessPointInfo.names [8] (holdsObject (APSystemStats.numericHolds badQ))
      members ||
    holdsMember AccessPointInfo.names [9] (holdsObject (APSysStats.numericHolds badQ badI))
      members ||
    holdsMember AccessPointInfo.names [10] (holdsElement (APInterface.numericHolds badI))
      members ||
    holdsMember AccessPointInfo.names [11] (holdsElement (APRadio.numericHolds badI)) members ||
    holdsMember AccessPointInfo.names [12] (holdsElement (APVap.numericHolds badI)) members

/-- The outside world when every call succeeds and the device prints `output`. -/
def respond (output : Option JSON) : Remote :=
  { readFile := true, parsePrivateKey := true, dial := true, newSession := true,
    stdoutPipe := true, run := true, readAll := true, output := output }

/-! ## config.go: NewConfig -/

/-- The error `NewConfig` returns: the error of `os.Open`, the error of the YAML
decoder, or one of its own messages; the numbered ones carry the position of the
access point, counted from 1. -/
inductive ConfigError where
  | openFile
  | decode
  | configIsEmpty
  | noAccessPointsDefined
  | missingName (n : Nat)
  | missingAddress (n : Nat)
  | missingUsername (n : Nat)
  | requiresPasswordOrKeyfile (n : Nat)
deriving DecidableEq, Repr

/-- What a configuration document sets: the listen port, when the document has
one, and the access point list (empty when the document has none; a field an
entry does not set is the empty string). -/
structure ConfigDocument where
  port : Option Int
  accessPoints : List AccessPointConfig
deriving DecidableEq, Repr

/-- What the outside world answers to the calls of `NewConfig`: whether `os.Open`
succeeds, and what the YAML decoder makes of the file: `none` for an error,
`some none` for a null document, which sets the pointer `config` to nil, and
otherwise the document. -/
structure ConfigFile where
  openOk : Bool
  decoded : Option (Option ConfigDocument)
deriving DecidableEq, Repr

/-- The checks of config.go 58-71 from the access point at index `i` on: the first
check that fails, if any. -/
def checkAccessPoints : Nat → List AccessPointConfig → Option ConfigError
  | _, [] => none
  | i, accessPoint :: rest =>
    if accessPoint.Name = "" then some (.missingName (i + 1))
    else if accessPoint.Address = "" then some (.missingAddress (i + 1))
    else if accessPoint.Username = "" then some (.missingUsername (i + 1))
    else if accessPoint.Password = "" ∧ accessPoint.KeyFile = "" then
      some (.requiresPasswordOrKeyfile (i + 1))
    else checkAccessPoints (i + 1) rest

/-- The function `NewConfig` (config.go 28-74).  The decoder writes the document
into a `Config` whose listen port is already 9130. -/
def NewConfig (file : ConfigFile) : Except ConfigError Config :=
  if file.openOk = false then .error .openFile
  else
    match file.decoded with
    | none => .error .decode
    | some none => .error .configIsEmpty
    | some (some document) =>
      let config : Config :=
        { Global := { ListenPort := document.port.getD 9130 },
          AccessPoints := document.accessPoints }
      if config.AccessPoints.length = 0 then .error .noAccessPointsDefined
      else
        match checkAccessPoints 0 config.AccessPoints with
        | some err => .error err
        | none => .ok config

/-- Device A answers with `sampleDocument`; every later device prints the JSON
text `null`. -/
def nullRemote (i : Nat) : Remote :=
  respond (if i = 0 then some sampleDocument else some .null)

/-- The records `Collect` returns for the sample scrape: the record of device A
and the placeholder of device B. -/
def sampleRecords : List (AccessPointInfo Int) :=
  [ { AccessPointInfo.zero sampleOps with
      Name := "A", Value := 1,
      InterfaceTable :=
        [ { TxBytes := 100, RxBytes := 200, Up := true },
          { TxBytes := 9999, RxBytes := 9999, Up := false } ] },
    Collector.placeholder sampleOps sampleB ]

/-! # Theorems -/

/-! ## Collector.Collect -/

section CollectorProofs

variable {F : Type}

/-- The loop of `Collect` appends one record per remaining access point when no
`Fetch` returns neither a record nor an error. -/
theorem collectFrom_spec (ops : Float64Ops F) (c : Collector) (remote : Nat → Remote) :
    ∀ (aps : List AccessPointConfig) (i : Nat) (acc : List (AccessPointInfo F)),
      (∀ j ap, aps[j]? = some ap →
        (c.Fetch ops (remote (i + j)) ap).2 ≠ none ∨ (c.Fetch ops (remote (i + j)) ap).1 ≠ none) →
      ∃ out : List (AccessPointInfo F),
        Collector.collectFrom ops c remote i aps acc = .ok (acc ++ out) ∧
        out.length = aps.length ∧
        ∀ j ap, aps[j]? = some ap →
          (∀ info, c.Fetch ops (remote (i + j)) ap = (some info, none) → out[j]? = some info) ∧
          ((c.Fetch ops (remote (i + j)) ap).2 ≠ none →
            out[j]? = some (Collector.placeholder ops ap)) := by
  intro aps
  induction aps with
  | nil =>
    intro i acc _
    exact ⟨[], by simp [Collector.collectFrom], rfl, by simp⟩
  | cons a rest ih =>
    intro i acc h
    have h0 := h 0 a (by simp)
    have hrest : ∀ j ap, rest[j]? = some ap →
        (c.Fetch ops (remote (i + 1 + j)) ap).2 ≠ none ∨
          (c.Fetch ops (remote (i + 1 + j)) ap).1 ≠ none := by
      intro j ap hj
      have := h (j + 1) ap (by simpa using hj)
      rwa [show i + (j + 1) = i + 1 + j by omega] at this
    simp only [Nat.add_zero] at h0
    rcases hf : c.Fetch ops (remote i) a with ⟨p, e⟩
    rw [hf] at h0
    cases e with
    | some err =>
      obtain ⟨out, hout, hlen, hall⟩ := ih (i + 1) (acc ++ [Collector.placeholder ops a]) hrest
      refine ⟨Collector.placeholder ops a :: out, ?_, by simp [hlen], ?_⟩
      · simp [Collector.collectFrom, hf, hout]
      · intro j ap hj
        cases j with
        | zero =>
          simp only [List.getElem?_cons_zero, Option.some.injEq] at hj
          subst hj
          simp [hf]
        | succ j =>
          have := hall j ap (by simpa using hj)
          rw [show i + 1 + j = i + (j + 1) by omega] at this
          simpa using this
    | none =>
      cases p with
      | none => simp at h0
      | some info =>
        obtain ⟨out, hout, hlen, hall⟩ := ih (i + 1) (acc ++ [info]) hrest
        refine ⟨info :: out, ?_, by simp [hlen], ?_⟩
        · simp [Collector.collectFrom, hf, hout]
        · intro j ap hj
          cases j with
          | zero =>
            simp only [List.getElem?_cons_zero, Option.some.injEq] at hj
            subst hj
            simp [hf]
          | succ j =>
            have := hall j ap (by simpa using hj)
            rw [show i + 1 + j = i + (j + 1) by omega] at this
            simpa using this


/-- When every call of `Fetch` either fails or yields a record, `Collect`
returns a nil error and exactly one record per configured access point, in
config order: the fetched record where the fetch succeeded, the placeholder
where it failed. -/
theorem Collector.Collect_one_record_per_access_point (ops : Float64Ops F) (c : Collector)
    (remote : Nat → Remote)
    (hsettled : ∀ i ap, c.config.AccessPoints[i]? = some ap →
      (c.Fetch ops (remote i) ap).2 ≠ none ∨ (c.Fetch ops (remote i) ap).1 ≠ none) :
    ∃ recs : List (AccessPointInfo F),
      c.Collect ops remote = .ok (recs, none) ∧
      recs.length = c.config.AccessPoints.length ∧
      ∀ i ap, c.config.AccessPoints[i]? = some ap →
        (∀ info, c.Fetch ops (remote i) ap = (some info, none) → recs[i]? = some info) ∧
        ((c.Fetch ops (remote i) ap).2 ≠ none →
          recs[i]? = some (Collector.placeholder ops ap)) := by
  obtain ⟨out, hout, hlen, hall⟩ :=
    collectFrom_spec ops c remote c.config.AccessPoints 0 [] (by simpa using hsettled)
  refine ⟨out, ?_, hlen, ?_⟩
  · simp [Collector.Collect, hout]
  · simpa using hall

/-- C2: the record `Collect` appends for an access point whose `Fetch` returned
an error, whatever the error, has liveness 0, the configured name and address,
and every other field at its zero value. -/
theorem Collector.Collect_failed_fetch_record (ops : Float64Ops F) (c : Collector)
    (remote : Nat → Remote)
    (hsettled : ∀ i ap, c.config.AccessPoints[i]? = some ap →
      (c.Fetch ops (remote i) ap).2 ≠ none ∨ (c.Fetch ops (remote i) ap).1 ≠ none)
    (i : Nat) (ap : AccessPointConfig) (hi : c.config.AccessPoints[i]? = some ap)
    (herr : (c.Fetch ops (remote i) ap).2 ≠ none) :
    ∃ recs : List (AccessPointInfo F),
      c.Collect ops remote = .ok (recs, none) ∧
      recs[i]? = some
        { IP := ap.Address, Mac := "", Model := "", ModelName := "", Name := ap.Name,
          Serial := "", Version := "", Uptime := 0,
          SystemStats := { CPU := ops.ofInt64 0, Mem := ops.ofInt64 0 },
          SysStats :=
            { LoadAvg1 := ops.ofInt64 0, LoadAvg5 := ops.ofInt64 0, LoadAvg15 := ops.ofInt64 0,
              MemUsed := 0, MemTotal := 0, MemBuffer := 0 },
          InterfaceTable := [], RadioTable := [], VAPTable := [], Value := ops.ofInt64 0 } := by
  obtain ⟨out, hout, _, hall⟩ :=
    collectFrom_spec ops c remote c.config.AccessPoints 0 [] (by simpa using hsettled)
  refine ⟨out, by simp [Collector.Collect, hout], ?_⟩
  have := (hall i ap hi).2 (by simpa using herr)
  simpa [Collector.placeholder, AccessPointInfo.zero, APSystemStats.zero, APSysStats.zero]
    using this

end CollectorProofs

theorem sample_settled : ∀ i ap, sampleCollector.config.AccessPoints[i]? = some ap →
    (sampleCollector.Fetch sampleOps (sampleRemote i) ap).2 ≠ none ∨
      (sampleCollector.Fetch sampleOps (sampleRemote i) ap).1 ≠ none := by
  intro i ap h
  match i with
  | 0 =>
    simp only [sampleCollector, NewCollector, List.getElem?_cons_zero, Option.some.injEq] at h
    subst h
    decide
  | 1 =>
    simp only [sampleCollector, NewCollector, List.getElem?_cons_succ, List.getElem?_cons_zero,
      Option.some.injEq] at h
    subst h
    decide
  | n + 2 => simp [sampleCollector, NewCollector] at h

theorem Collector.Collect_one_record_per_access_point_witness :
    ∃ recs : List (AccessPointInfo Int),
      sampleCollector.Collect sampleOps sampleRemote = .ok (recs, none) ∧
      recs.length = sampleCollector.config.AccessPoints.length ∧
      ∀ i ap, sampleCollector.config.AccessPoints[i]? = some ap →
        (∀ info, sampleCollector.Fetch sampleOps (sampleRemote i) ap = (some info, none) →
          recs[i]? = some info) ∧
        ((sampleCollector.Fetch sampleOps (sampleRemote i) ap).2 ≠ none →
          recs[i]? = some (Collector.placeholder sampleOps ap)) :=
  Collector.Collect_one_record_per_access_point sampleOps sampleCollector sampleRemote
    sample_settled

theorem Collector.Collect_failed_fetch_record_witness :
    ∃ recs : List (AccessPointInfo Int),
      sampleCollector.Collect sampleOps sampleRemote = .ok (recs, none) ∧
      recs[1]? = some
        { IP := "10.0.0.2", Mac := "", Model := "", ModelName := "", Name := "B",
          Serial := "", Version := "", Uptime := 0,
          SystemStats := { CPU := 0, Mem := 0 },
          SysStats :=
            { LoadAvg1 := 0, LoadAvg5 := 0, LoadAvg15 := 0,
              MemUsed := 0, MemTotal := 0, MemBuffer := 0 },
          InterfaceTable := [], RadioTable := [], VAPTable := [], Value := 0 } :=
  Collector.Collect_failed_fetch_record sampleOps sampleCollector sampleRemote sample_settled
    1 sampleB (by decide) (by decide)

section CollectLinkProofs
variable {F : Type}

/-- When the loop of `Collect` returns, no `Fetch` returned neither a record nor
an error. -/
theorem collectFrom_settled (ops : Float64Ops F) (c : Collector) (remote : Nat → Remote) :
    ∀ (aps : List AccessPointConfig) (i : Nat) (acc res : List (AccessPointInfo F)),
      Collector.collectFrom ops c remote i aps acc = .ok res →
      ∀ j ap, aps[j]? = some ap →
        (c.Fetch ops (remote (i + j)) ap).2 ≠ none ∨ (c.Fetch ops (remote (i + j)) ap).1 ≠ none := by
  intro aps
  induction aps with
  | nil => intro i acc res _ j ap hj; simp at hj
  | cons a rest ih =>
    intro i acc res h j ap hj
    rcases hf : c.Fetch ops (remote i) a with ⟨p, e⟩
    have hnext : ∀ acc', Collector.collectFrom ops c remote (i + 1) rest acc' = .ok res →
        ∀ j ap, (a :: rest)[j]? = some ap →
          (c.Fetch ops (remote (i + j)) ap).2 ≠ none ∨
            (c.Fetch ops (remote (i + j)) ap).1 ≠ none := by
      intro acc' h' j ap hj
      cases j with
      | zero =>
        simp only [List.getElem?_cons_zero, Option.some.injEq] at hj
        subst hj
        simp only [Nat.add_zero, hf]
        cases e with
        | some err => exact Or.inl (by simp)
        | none =>
          cases p with
          | some info => exact Or.inr (by simp)
          | none => simp [Collector.collectFrom, hf] at h
      | succ j =>
        have := ih (i + 1) acc' res h' j ap (by simpa using hj)
        rwa [show i + 1 + j = i + (j + 1) by omega] at this
    cases e with
    | some err =>
      simp only [Collector.collectFrom, hf] at h
      exact hnext _ h j ap hj
    | none =>
      cases p with
      | none => simp [Collector.collectFrom, hf] at h
      | some info =>
        simp only [Collector.collectFrom, hf] at h
        exact hnext _ h j ap hj

/-- The list `Collect` returns holds one record per access point, in config
order: the placeholder where `Fetch` failed, the fetched record elsewhere. -/
theorem Collect_ok_spec (ops : Float64Ops F) (c : Collector) (remote : Nat → Remote)
    (recs : List (AccessPointInfo F)) (e : Option FetchError)
    (h : c.Collect ops remote = .ok (recs, e)) :
    recs.length = c.config.AccessPoints.length ∧
    ∀ i ap, c.config.AccessPoints[i]? = some ap →
      (∀ info, c.Fetch ops (remote i) ap = (some info, none) → recs[i]? = some info) ∧
      ((c.Fetch ops (remote i) ap).2 ≠ none →
        recs[i]? = some (Collector.placeholder ops ap)) := by
  unfold Collector.Collect at h
  cases hl : Collector.collectFrom ops c remote 0 c.config.AccessPoints [] with
  | error p => simp [hl] at h
  | ok res =>
    simp only [hl, Except.ok.injEq, Prod.mk.injEq] at h
    obtain ⟨out, hout, hlen, hall⟩ :=
      collectFrom_spec ops c remote c.config.AccessPoints 0 []
        (collectFrom_settled ops c remote _ 0 [] res hl)
    rw [hl] at hout
    simp only [List.nil_append, Except.ok.injEq] at hout
    rw [← h.1, hout]
    exact ⟨hlen, by simpa using hall⟩

/-- The method `Exporter.Collect` sends what its loop makes of the records the
collector returned. -/
theorem Exporter.Collect_eq_flatten (ops : Float64Ops F) (c : Collector)
    (remote : Nat → Remote) (recs : List (AccessPointInfo F))
    (h : c.Collect ops remote = .ok (recs, none)) :
    Exporter.Collect ops (NewExporter c) remote = Exporter.flatten ops (NewExporter c) recs := by
  have hc : (NewExporter c).collector = c := rfl
  simp only [Exporter.Collect, hc, h]

end CollectLinkProofs

theorem sample_collect :
    sampleCollector.Collect sampleOps sampleRemote = .ok (sampleRecords, none) := by
  rfl

/-- C1, at a sweep in which the second device prints the JSON text `null`: its
`Fetch` returns neither a record nor an error, and `Collect` panics on the nil
record instead of returning two records; so does `Exporter.Collect`. -/
theorem Collector.Collect_panics_on_null_output :
    sampleCollector.Fetch sampleOps (nullRemote 1) sampleB =
      ((none : Option (AccessPointInfo Int)), none) ∧
    sampleCollector.Collect sampleOps nullRemote =
      (.error .nilDereference : Except Panic (List (AccessPointInfo Int) × Option FetchError)) ∧
    Exporter.Collect sampleOps (NewExporter sampleCollector) nullRemote =
      (.error .nilDereference : Except Panic (List (Metric Int))) := by
  refine ⟨by decide, rfl, rfl⟩

/-! ## Exporter.Collect: every call passes the label check -/

section ExporterProofs

variable {F : Type}

/-- The metric a call yields when the label check passes. -/
theorem sendAll_ok :
    ∀ (args : List (ConstMetricArgs F)),
      (∀ a ∈ args, a.labelValues.length = a.desc.variableLabels.length) →
      sendAll args =
        .ok (args.map ConstMetricArgs.toMetric) := by
  intro args
  induction args with
  | nil => intro _; rfl
  | cons a rest ih =>
    intro h
    have ha := h a (by simp)
    have hr := ih (fun b hb => h b (by simp [hb]))
    simp [sendAll, MustNewConstMetric, ha, hr, ConstMetricArgs.toMetric]

theorem recordArgs_cardinality (ops : Float64Ops F) (c : Collector) (r : AccessPointInfo F) :
    ∀ a ∈ Exporter.recordArgs ops (NewExporter c) r,
      a.labelValues.length = a.desc.variableLabels.length := by
  intro a ha
  simp only [Exporter.recordArgs, Exporter.deviceArgs, Exporter.radioArgs, Exporter.vapArgs,
    Exporter.rogueArgs, Exporter.stationArgs, List.mem_append, List.mem_flatMap, List.mem_cons,
    List.mem_singleton, List.not_mem_nil, or_false] at ha
  rcases ha with
    ((rfl | rfl | rfl | rfl | rfl | rfl | rfl | rfl | rfl | rfl | rfl | rfl) |
      ⟨radio, _, (rfl | rfl | rfl) | ⟨rogue, _, rfl | rfl | rfl | rfl⟩⟩) |
    ⟨vap, _, (rfl | rfl | rfl | rfl | rfl | rfl | rfl | rfl | rfl | rfl) |
      ⟨station, _, rfl | rfl | rfl | rfl⟩⟩
  all_goals rfl

/-- With the descriptors of `NewExporter` no call panics: the loop over the
records sends exactly the metrics of its calls, in order. -/
theorem flatten_eq (ops : Float64Ops F) (c : Collector) (recs : List (AccessPointInfo F)) :
    Exporter.flatten ops (NewExporter c) recs =
      .ok ((recs.flatMap (Exporter.recordArgs ops (NewExporter c))).map
        ConstMetricArgs.toMetric) := by
  unfold Exporter.flatten
  apply sendAll_ok
  intro a ha
  obtain ⟨r, _, hr⟩ := List.mem_flatMap.mp ha
  exact recordArgs_cardinality ops c r a hr

/-- Selecting the series of some descriptors from the output of the loop is
selecting them record by record. -/
theorem filter_desc_flatten (ops : Float64Ops F) (e : Exporter) (q : Desc → Bool)
    (sel : AccessPointInfo F → List (Metric F))
    (h : ∀ r, ((Exporter.recordArgs ops e r).filter fun a => q a.desc).map
      ConstMetricArgs.toMetric = sel r) (recs : List (AccessPointInfo F)) :
    ((recs.flatMap (Exporter.recordArgs ops e)).map ConstMetricArgs.toMetric).filter
      (fun m => q m.desc) = recs.flatMap sel := by
  induction recs with
  | nil => rfl
  | cons r rest ih =>
    simp only [List.flatMap_cons, List.map_append, List.filter_append, ih, ← h r]
    congr 1
    rw [List.filter_map]
    rfl

theorem flatMap_single {α β : Type} (g : α → β) (l : List α) :
    l.flatMap (fun x => [g x]) = l.map g := by
  induction l with
  | nil => rfl
  | cons x xs ih => simp [List.flatMap_cons, ih]

/-! ## Byte totals -/

theorem wrap64_add_wrap64 (x y : Int) : wrap64 (wrap64 x + y) = wrap64 (x + y) := by
  unfold wrap64
  omega

theorem wrap64_of_range (x : Int) (h1 : -2 ^ 63 ≤ x) (h2 : x < 2 ^ 63) : wrap64 x = x := by
  unfold wrap64
  omega

theorem totalBytes_foldl (interfaceTable : List APInterface) (a b : Int) :
    interfaceTable.foldl
      (fun (t : Int × Int) (i : APInterface) =>
        if i.Up then (wrap64 (t.1 + i.TxBytes), wrap64 (t.2 + i.RxBytes)) else t)
      (wrap64 a, wrap64 b) =
    (wrap64 (a + ((interfaceTable.filter (·.Up)).map (·.TxBytes)).sum),
      wrap64 (b + ((interfaceTable.filter (·.Up)).map (·.RxBytes)).sum)) := by
  induction interfaceTable generalizing a b with
  | nil => simp
  | cons i rest ih =>
    by_cases hu : i.Up = true
    · simp only [List.foldl_cons, hu, if_true, wrap64_add_wrap64, ih, List.filter_cons,
        List.map_cons, List.sum_cons, add_assoc]
    · simp only [List.foldl_cons, hu, if_false, List.filter_cons]
      exact ih a b

theorem totalBytes_eq (interfaceTable : List APInterface) :
    Exporter.totalBytes interfaceTable =
      (wrap64 ((interfaceTable.filter (·.Up)).map (·.TxBytes)).sum,
        wrap64 ((interfaceTable.filter (·.Up)).map (·.RxBytes)).sum) := by
  have h := totalBytes_foldl interfaceTable 0 0
  have h0 : wrap64 0 = 0 := by decide
  simp only [h0, zero_add] at h
  exact h

/-- C3 (amended): the transmit_bytes_total and receive_bytes_total series of a
record carry the sum of TxBytes, respectively RxBytes, over exactly the
interfaces with Up = true, taken in int64 arithmetic: the sum reduced to the
int64 range, which is the sum itself whenever it lies in that range.  One such
pair of series is emitted per record, in record order.  When every interface is
down, or there is none, both totals are 0. -/
theorem Exporter.total_bytes_series (ops : Float64Ops F) (c : Collector)
    (recs : List (AccessPointInfo F)) :
    ∃ ms : List (Metric F),
      Exporter.flatten ops (NewExporter c) recs = .ok ms ∧
      ms.filter (fun m => decide (m.desc = (NewExporter c).device.totalTxBytes)) =
        recs.map (fun r =>
          { desc := (NewExporter c).device.totalTxBytes, valueType := .CounterValue,
            value := ops.ofInt64 (wrap64 ((r.InterfaceTable.filter (·.Up)).map (·.TxBytes)).sum),
            labelValues := [r.Name, r.Model] }) ∧
      ms.filter (fun m => decide (m.desc = (NewExporter c).device.totalRxBytes)) =
        recs.map (fun r =>
          { desc := (NewExporter c).device.totalRxBytes, valueType := .CounterValue,
            value := ops.ofInt64 (wrap64 ((r.InterfaceTable.filter (·.Up)).map (·.RxBytes)).sum),
            labelValues := [r.Name, r.Model] }) ∧
      (∀ x : Int, -2 ^ 63 ≤ x → x < 2 ^ 63 → wrap64 x = x) ∧
      (∀ interfaceTable : List APInterface, (∀ i ∈ interfaceTable, i.Up = false) →
        Exporter.totalBytes interfaceTable = (0, 0)) := by
  refine ⟨_, flatten_eq ops c recs, ?_, ?_, wrap64_of_range, ?_⟩
  rotate_right
  · intro interfaceTable hdown
    have hnil : interfaceTable.filter (·.Up) = [] := by
      rw [List.filter_eq_nil_iff]
      intro i hi
      simp [hdown i hi]
    have h0 : wrap64 0 = 0 := by decide
    rw [totalBytes_eq, hnil]
    simp [h0]
  · rw [filter_desc_flatten ops (NewExporter c)
      (fun d => decide (d = (NewExporter c).device.totalTxBytes))
      (fun r =>
        [({ desc := (NewExporter c).device.totalTxBytes, valueType := .CounterValue,
            value :=
              ops.ofInt64 (wrap64 ((r.InterfaceTable.filter (·.Up)).map (·.TxBytes)).sum),
            labelValues := [r.Name, r.Model] } : Metric F)])]
    · exact flatMap_single _ recs
    · intro r
      simp [Exporter.recordArgs, Exporter.deviceArgs, Exporter.radioArgs, Exporter.vapArgs,
        Exporter.rogueArgs, Exporter.stationArgs, List.filter_flatMap, NewExporter, NewDesc,
        namespace_, List.filter_cons, ConstMetricArgs.toMetric, totalBytes_eq]
  · rw [filter_desc_flatten ops (NewExporter c)
      (fun d => decide (d = (NewExporter c).device.totalRxBytes))
      (fun r =>
        [({ desc := (NewExporter c).device.totalRxBytes, valueType := .CounterValue,
            value :=
              ops.ofInt64 (wrap64 ((r.InterfaceTable.filter (·.Up)).map (·.RxBytes)).sum),
            labelValues := [r.Name, r.Model] } : Metric F)])]
    · exact flatMap_single _ recs
    · intro r
      simp [Exporter.recordArgs, Exporter.deviceArgs, Exporter.radioArgs, Exporter.vapArgs,
        Exporter.rogueArgs, Exporter.stationArgs, List.filter_flatMap, NewExporter, NewDesc,
        namespace_, List.filter_cons, ConstMetricArgs.toMetric, totalBytes_eq]

/-- C3, counterexample: two interfaces, both up, with 2^62 transmitted bytes each.
The sum over the up interfaces is 2^63; the value of the transmit_bytes_total
series is float64(-2^63). -/
theorem Exporter.total_bytes_overflow :
    ((overflowRecord.InterfaceTable.filter (·.Up)).map (·.TxBytes)).sum = 9223372036854775808 ∧
    Exporter.totalBytes overflowRecord.InterfaceTable = (-9223372036854775808, 3) ∧
    ∃ ms : List (Metric Int),
      Exporter.flatten sampleOps (NewExporter sampleCollector) [overflowRecord] = .ok ms ∧
      ms.filter (fun m => decide (m.desc = (NewExporter sampleCollector).device.totalTxBytes)) =
        [{ desc := (NewExporter sampleCollector).device.totalTxBytes,
           valueType := .CounterValue,
           value := sampleOps.ofInt64 (-9223372036854775808),
           labelValues := ["A", ""] }] := by
  refine ⟨by decide, by decide, _, rfl, by decide⟩

end ExporterProofs

section FlattenProofs
variable {F : Type}

/-- The label values of the series of some descriptors, record by record. -/
theorem labels_desc_flatten (ops : Float64Ops F) (e : Exporter) (q : Desc → Bool)
    (lab : AccessPointInfo F → List (List String))
    (h : ∀ r, ((Exporter.recordArgs ops e r).filter fun a => q a.desc).map (·.labelValues) =
      lab r) (recs : List (AccessPointInfo F)) :
    (((recs.flatMap (Exporter.recordArgs ops e)).map ConstMetricArgs.toMetric).filter
      (fun m => q m.desc)).map (·.labelValues) = recs.flatMap lab := by
  rw [filter_desc_flatten ops e q
    (fun r => ((Exporter.recordArgs ops e r).filter fun a => q a.desc).map
      ConstMetricArgs.toMetric) (fun _ => rfl)]
  induction recs with
  | nil => rfl
  | cons r rest ih =>
    simp only [List.flatMap_cons, List.map_append, ih, ← h r, List.map_map]
    rfl

theorem flatMap_empty {α β : Type} (l : List α) : l.flatMap (fun _ => ([] : List β)) = [] := by
  induction l with
  | nil => rfl
  | cons x xs ih => simp [List.flatMap_cons, ih]

theorem radio_labels (ops : Float64Ops F) (c : Collector) (recs : List (AccessPointInfo F))
    (d : Desc) (hd : d ∈ (NewExporter c).radioDescs) :
    (((recs.flatMap (Exporter.recordArgs ops (NewExporter c))).map
      ConstMetricArgs.toMetric).filter (fun m => decide (m.desc = d))).map (·.labelValues) =
      (radiosOf recs).map (fun x => [x.1.Name, x.2.Radio, x.2.RadioName]) := by
  rw [labels_desc_flatten ops (NewExporter c) (fun x => decide (x = d))
    (fun r => r.RadioTable.map fun radio => [r.Name, radio.Radio, radio.RadioName])]
  · simp [radiosOf, List.map_flatMap, Function.comp_def]
  · intro r
    simp only [Exporter.radioDescs, List.mem_cons, List.mem_singleton, List.not_mem_nil,
      or_false] at hd
    rcases hd with rfl | rfl | rfl <;>
    simp [Exporter.recordArgs, Exporter.deviceArgs, Exporter.radioArgs, Exporter.vapArgs,
      Exporter.rogueArgs, Exporter.stationArgs, List.filter_flatMap, NewExporter, NewDesc,
      namespace_, List.filter_cons, List.map_flatMap, flatMap_single, flatMap_empty]

theorem info_labels (ops : Float64Ops F) (c : Collector) (recs : List (AccessPointInfo F)) :
    (((recs.flatMap (Exporter.recordArgs ops (NewExporter c))).map
      ConstMetricArgs.toMetric).filter
        (fun m => decide (m.desc = (NewExporter c).device.info))).map (·.labelValues) =
      recs.map (fun r => [r.IP, r.Mac, r.Model, r.ModelName, r.Name, r.Serial, r.Version]) := by
  rw [labels_desc_flatten ops (NewExporter c) (fun x => decide (x = (NewExporter c).device.info))
    (fun r => [[r.IP, r.Mac, r.Model, r.ModelName, r.Name, r.Serial, r.Version]])]
  · exact flatMap_single _ recs
  · intro r
    simp [Exporter.recordArgs, Exporter.deviceArgs, Exporter.radioArgs, Exporter.vapArgs,
      Exporter.rogueArgs, Exporter.stationArgs, List.filter_flatMap, NewExporter, NewDesc,
      namespace_, List.filter_cons, List.map_flatMap, flatMap_single, flatMap_empty,
      Exporter.vapLabelValues, Function.comp_def]

theorem device_labels (ops : Float64Ops F) (c : Collector) (recs : List (AccessPointInfo F))
    (d : Desc) (hd : d ∈ (NewExporter c).deviceDescs) :
    (((recs.flatMap (Exporter.recordArgs ops (NewExporter c))).map
      ConstMetricArgs.toMetric).filter (fun m => decide (m.desc = d))).map (·.labelValues) =
      recs.map (fun r => [r.Name, r.Model]) := by
  rw [labels_desc_flatten ops (NewExporter c) (fun x => decide (x = d))
    (fun r => [[r.Name, r.Model]])]
  · exact flatMap_single _ recs
  · intro r
    simp only [Exporter.deviceDescs, List.mem_cons, List.mem_singleton, List.not_mem_nil,
      or_false] at hd
    rcases hd with rfl | rfl | rfl | rfl | rfl | rfl | rfl | rfl | rfl | rfl | rfl <;>
    simp [Exporter.recordArgs, Exporter.deviceArgs, Exporter.radioArgs, Exporter.vapArgs,
      Exporter.rogueArgs, Exporter.stationArgs, List.filter_flatMap, NewExporter, NewDesc,
      namespace_, List.filter_cons, List.map_flatMap, flatMap_single, flatMap_empty,
      Exporter.vapLabelValues, Function.comp_def]

theorem rogue_labels (ops : Float64Ops F) (c : Collector) (recs : List (AccessPointInfo F))
    (d : Desc) (hd : d ∈ (NewExporter c).rogueDescs) :
    (((recs.flatMap (Exporter.recordArgs ops (NewExporter c))).map
      ConstMetricArgs.toMetric).filter (fun m => decide (m.desc = d))).map (·.labelValues) =
      (scansOf recs).map
        (fun x => [x.1.Name, x.2.1.Radio, x.2.2.BSSID, x.2.2.ESSID, x.2.2.Security]) := by
  rw [labels_desc_flatten ops (NewExporter c) (fun x => decide (x = d))
    (fun r => r.RadioTable.flatMap fun radio => radio.ScanTable.map fun scan =>
      [r.Name, radio.Radio, scan.BSSID, scan.ESSID, scan.Security])]
  · simp [scansOf, List.map_flatMap, Function.comp_def]
  · intro r
    simp only [Exporter.rogueDescs, List.mem_cons, List.mem_singleton, List.not_mem_nil,
      or_false] at hd
    rcases hd with rfl | rfl | rfl | rfl <;>
    simp [Exporter.recordArgs, Exporter.deviceArgs, Exporter.radioArgs, Exporter.vapArgs,
      Exporter.rogueArgs, Exporter.stationArgs, List.filter_flatMap, NewExporter, NewDesc,
      namespace_, List.filter_cons, List.map_flatMap, flatMap_single, flatMap_empty,
      Exporter.vapLabelValues, Function.comp_def]

theorem vap_labels (ops : Float64Ops F) (c : Collector) (recs : List (AccessPointInfo F))
    (d : Desc) (hd : d ∈ (NewExporter c).vapDescs) :
    (((recs.flatMap (Exporter.recordArgs ops (NewExporter c))).map
      ConstMetricArgs.toMetric).filter (fun m => decide (m.desc = d))).map (·.labelValues) =
      (vapsOf recs).map
        (fun x => [x.1.Name, x.2.Name, x.2.BSSID, x.2.Radio, x.2.RadioName, x.2.ESSID,
          x.2.Usage]) := by
  rw [labels_desc_flatten ops (NewExporter c) (fun x => decide (x = d))
    (fun r => r.VAPTable.map fun vap =>
      [r.Name, vap.Name, vap.BSSID, vap.Radio, vap.RadioName, vap.ESSID, vap.Usage])]
  · simp [vapsOf, List.map_flatMap, Function.comp_def]
  · intro r
    simp only [Exporter.vapDescs, List.mem_cons, List.mem_singleton, List.not_mem_nil,
      or_false] at hd
    rcases hd with rfl | rfl | rfl | rfl | rfl | rfl | rfl | rfl | rfl | rfl <;>
    simp [Exporter.recordArgs, Exporter.deviceArgs, Exporter.radioArgs, Exporter.vapArgs,
      Exporter.rogueArgs, Exporter.stationArgs, List.filter_flatMap, NewExporter, NewDesc,
      namespace_, List.filter_cons, List.map_flatMap, flatMap_single, flatMap_empty,
      Exporter.vapLabelValues, Function.comp_def]

theorem station_labels (ops : Float64Ops F) (c : Collector) (recs : List (AccessPointInfo F))
    (d : Desc) (hd : d ∈ (NewExporter c).stationDescs) :
    (((recs.flatMap (Exporter.recordArgs ops (NewExporter c))).map
      ConstMetricArgs.toMetric).filter (fun m => decide (m.desc = d))).map (·.labelValues) =
      (stationsOf recs).map
        (fun x => [x.1.Name, x.2.1.Name, x.2.2.Hostname, x.2.2.Mac]) := by
  rw [labels_desc_flatten ops (NewExporter c) (fun x => decide (x = d))
    (fun r => r.VAPTable.flatMap fun vap => vap.StationTable.map fun station =>
      [r.Name, vap.Name, station.Hostname, station.Mac])]
  · simp [stationsOf, List.map_flatMap, Function.comp_def]
  · intro r
    simp only [Exporter.stationDescs, List.mem_cons, List.mem_singleton, List.not_mem_nil,
      or_false] at hd
    rcases hd with rfl | rfl | rfl | rfl <;>
    simp [Exporter.recordArgs, Exporter.deviceArgs, Exporter.radioArgs, Exporter.vapArgs,
      Exporter.rogueArgs, Exporter.stationArgs, List.filter_flatMap, NewExporter, NewDesc,
      namespace_, List.filter_cons, List.map_flatMap, flatMap_single, flatMap_empty,
      Exporter.vapLabelValues, Function.comp_def]

theorem recordArgs_desc_mem (ops : Float64Ops F) (c : Collector) (r : AccessPointInfo F) :
    ∀ a ∈ Exporter.recordArgs ops (NewExporter c) r, a.desc ∈ (NewExporter c).Describe := by
  intro a ha
  simp only [Exporter.recordArgs, Exporter.deviceArgs, Exporter.radioArgs, Exporter.vapArgs,
    Exporter.rogueArgs, Exporter.stationArgs, List.mem_append, List.mem_flatMap, List.mem_cons,
    List.mem_singleton, List.not_mem_nil, or_false] at ha
  rcases ha with
    ((rfl | rfl | rfl | rfl | rfl | rfl | rfl | rfl | rfl | rfl | rfl | rfl) |
      ⟨radio, _, (rfl | rfl | rfl) | ⟨rogue, _, rfl | rfl | rfl | rfl⟩⟩) |
    ⟨vap, _, (rfl | rfl | rfl | rfl | rfl | rfl | rfl | rfl | rfl | rfl) |
      ⟨station, _, rfl | rfl | rfl | rfl⟩⟩
  all_goals simp [Exporter.Describe]

/-- C8: for every list of records the loop of `Exporter.Collect` does not panic
and emits, for each metric of the catalogue, exactly one series per matching
entity, labelled by that entity, in the records' own list order, and no series
of any other descriptor: one per record for info and for each other device
metric, one per radio for each radio metric, one per scan-table entry for each
rogue-AP metric, one per VAP for each VAP metric and one per station for each
station metric.  A record with no radios and no VAPs yields its twelve
device-level series only.  The records are those the collector returned for
the scrape, and the series are what `Exporter.Collect` sends on the channel. -/
theorem Exporter.one_series_per_entity (ops : Float64Ops F) (c : Collector)
    (remote : Nat → Remote) (recs : List (AccessPointInfo F))
    (h : c.Collect ops remote = .ok (recs, none)) :
    ∃ ms : List (Metric F),
      Exporter.Collect ops (NewExporter c) remote = .ok ms ∧
      Exporter.flatten ops (NewExporter c) recs = .ok ms ∧
      (∀ m ∈ ms, m.desc ∈ (NewExporter c).Describe) ∧
      (∀ d, d ∈ (NewExporter c).Describe ↔
        d = (NewExporter c).device.info ∨ d ∈ (NewExporter c).deviceDescs ∨
        d ∈ (NewExporter c).radioDescs ∨ d ∈ (NewExporter c).rogueDescs ∨
        d ∈ (NewExporter c).vapDescs ∨ d ∈ (NewExporter c).stationDescs) ∧
      (ms.filter (fun m => decide (m.desc = (NewExporter c).device.info))).map (·.labelValues) =
        recs.map (fun r => [r.IP, r.Mac, r.Model, r.ModelName, r.Name, r.Serial, r.Version]) ∧
      (∀ d ∈ (NewExporter c).deviceDescs,
        (ms.filter (fun m => decide (m.desc = d))).map (·.labelValues) =
          recs.map (fun r => [r.Name, r.Model])) ∧
      (∀ d ∈ (NewExporter c).radioDescs,
        (ms.filter (fun m => decide (m.desc = d))).map (·.labelValues) =
          (radiosOf recs).map (fun x => [x.1.Name, x.2.Radio, x.2.RadioName])) ∧
      (∀ d ∈ (NewExporter c).rogueDescs,
        (ms.filter (fun m => decide (m.desc = d))).map (·.labelValues) =
          (scansOf recs).map
            (fun x => [x.1.Name, x.2.1.Radio, x.2.2.BSSID, x.2.2.ESSID, x.2.2.Security])) ∧
      (∀ d ∈ (NewExporter c).vapDescs,
        (ms.filter (fun m => decide (m.desc = d))).map (·.labelValues) =
          (vapsOf recs).map
            (fun x => [x.1.Name, x.2.Name, x.2.BSSID, x.2.Radio, x.2.RadioName, x.2.ESSID,
              x.2.Usage])) ∧
      (∀ d ∈ (NewExporter c).stationDescs,
        (ms.filter (fun m => decide (m.desc = d))).map (·.labelValues) =
          (stationsOf recs).map
            (fun x => [x.1.Name, x.2.1.Name, x.2.2.Hostname, x.2.2.Mac])) ∧
      (∀ r ∈ recs, r.RadioTable = [] → r.VAPTable = [] →
        ∃ ds : List (Metric F),
          Exporter.flatten ops (NewExporter c) [r] = .ok ds ∧
          ds.map (·.desc) = (NewExporter c).device.info :: (NewExporter c).deviceDescs) := by
  refine ⟨_, (Exporter.Collect_eq_flatten ops c remote recs h).trans (flatten_eq ops c recs),
    flatten_eq ops c recs, ?_, ?_, info_labels ops c recs, device_labels ops c recs,
    radio_labels ops c recs, rogue_labels ops c recs, vap_labels ops c recs,
    station_labels ops c recs, ?_⟩
  · intro m hm
    obtain ⟨a, ha, rfl⟩ := List.mem_map.mp hm
    obtain ⟨r, _, hr⟩ := List.mem_flatMap.mp ha
    exact recordArgs_desc_mem ops c r a hr
  · intro d
    simp only [Exporter.Describe, Exporter.deviceDescs, Exporter.radioDescs,
      Exporter.rogueDescs, Exporter.vapDescs, Exporter.stationDescs, List.mem_cons,
      List.mem_singleton, List.not_mem_nil, or_false]
    constructor
    · rintro (rfl | rfl | rfl | rfl | rfl | rfl | rfl | rfl | rfl | rfl | rfl | rfl | rfl |
        rfl | rfl | rfl | rfl | rfl | rfl | rfl | rfl | rfl | rfl | rfl | rfl | rfl | rfl |
        rfl | rfl | rfl | rfl | rfl | rfl) <;> simp
    · rintro (rfl | (rfl | rfl | rfl | rfl | rfl | rfl | rfl | rfl | rfl | rfl | rfl) |
        (rfl | rfl | rfl) | (rfl | rfl | rfl | rfl) |
        (rfl | rfl | rfl | rfl | rfl | rfl | rfl | rfl | rfl | rfl) |
        (rfl | rfl | rfl | rfl)) <;> simp
  · intro r _ hradio hvap
    refine ⟨_, flatten_eq ops c [r], ?_⟩
    simp [Exporter.recordArgs, Exporter.deviceArgs, hradio, hvap, ConstMetricArgs.toMetric,
      Exporter.deviceDescs]

theorem Exporter.one_series_per_entity_witness :
    sampleCollector.Collect sampleOps sampleRemote = .ok (sampleRecords, none) ∧
    ∃ ms : List (Metric Int),
      Exporter.Collect sampleOps (NewExporter sampleCollector) sampleRemote = .ok ms ∧
      Exporter.flatten sampleOps (NewExporter sampleCollector) sampleRecords = .ok ms ∧
      (∀ m ∈ ms, m.desc ∈ (NewExporter sampleCollector).Describe) ∧
      (ms.filter (fun m => decide (m.desc = (NewExporter sampleCollector).device.info))).map
          (·.labelValues) =
        [["", "", "", "", "A", "", ""], ["10.0.0.2", "", "", "", "B", "", ""]] ∧
      (∀ d ∈ (NewExporter sampleCollector).deviceDescs,
        (ms.filter (fun m => decide (m.desc = d))).map (·.labelValues) =
          [["A", ""], ["B", ""]]) ∧
      (∀ d ∈ (NewExporter sampleCollector).radioDescs,
        (ms.filter (fun m => decide (m.desc = d))).map (·.labelValues) = []) ∧
      (∀ d ∈ (NewExporter sampleCollector).vapDescs,
        (ms.filter (fun m => decide (m.desc = d))).map (·.labelValues) = []) := by
  obtain ⟨ms, h1, h2, h3, _, h5, h6, h7, _, h9, _⟩ :=
    Exporter.one_series_per_entity sampleOps sampleCollector sampleRemote sampleRecords
      sample_collect
  exact ⟨sample_collect, ms, h1, h2, h3, h5, h6, h7, h9⟩

end FlattenProofs

section SeriesProofs
variable {F : Type}

/-- The series of one device metric other than info, from its selection record
by record. -/
theorem device_select (ops : Float64Ops F) (c : Collector) (recs : List (AccessPointInfo F))
    (d : Desc) (vt : ValueType) (val : AccessPointInfo F → F)
    (h : ∀ r : AccessPointInfo F,
      ((Exporter.recordArgs ops (NewExporter c) r).filter fun a => decide (a.desc = d)).map
        ConstMetricArgs.toMetric =
      [({ desc := d, valueType := vt, value := val r,
          labelValues := [r.Name, r.Model] } : Metric F)]) :
    ((recs.flatMap (Exporter.recordArgs ops (NewExporter c))).map
      ConstMetricArgs.toMetric).filter (fun m => decide (m.desc = d)) =
      recs.map (fun r =>
        ({ desc := d, valueType := vt, value := val r,
           labelValues := [r.Name, r.Model] } : Metric F)) := by
  rw [filter_desc_flatten ops (NewExporter c) (fun x => decide (x = d)) _ h]
  exact flatMap_single _ recs

/-- C9: in the series `Exporter.Collect` sends for the records the collector
returned, the info series of a record has the record's liveness flag as value
and, in the declared order ip, mac, model, model_name, name, serial, version,
the record's address, MAC, model, model name, display name, serial and version
as label values.  For the access point at position `i` whose `Fetch` failed,
the `i`-th info series has value 0 with the configured address and name, and
the `i`-th series of every other device metric (uptime, total tx/rx bytes, load
averages, memory figures, cpu, mem) has value 0.  The record built for a failed
poll yields its twelve device series and nothing else. -/
theorem Exporter.info_series (ops : Float64Ops F) (c : Collector) (remote : Nat → Remote)
    (recs : List (AccessPointInfo F)) (h : c.Collect ops remote = .ok (recs, none)) :
    ∃ ms : List (Metric F),
      Exporter.Collect ops (NewExporter c) remote = .ok ms ∧
      Exporter.flatten ops (NewExporter c) recs = .ok ms ∧
      ms.filter (fun m => decide (m.desc = (NewExporter c).device.info)) =
        recs.map (fun r =>
          { desc := (NewExporter c).device.info, valueType := .GaugeValue, value := r.Value,
            labelValues :=
              [r.IP, r.Mac, r.Model, r.ModelName, r.Name, r.Serial, r.Version] }) ∧
      (NewExporter c).device.info.variableLabels =
        ["ip", "mac", "model", "model_name", "name", "serial", "version"] ∧
      (∀ (i : Nat) (ap : AccessPointConfig), c.config.AccessPoints[i]? = some ap →
        (c.Fetch ops (remote i) ap).2 ≠ none →
        (ms.filter (fun m => decide (m.desc = (NewExporter c).device.info)))[i]? =
          some
            { desc := (NewExporter c).device.info, valueType := .GaugeValue,
              value := ops.ofInt64 0,
              labelValues := [ap.Address, "", "", "", ap.Name, "", ""] } ∧
        (ms.filter (fun m => decide (m.desc = (NewExporter c).device.uptime)))[i]? =
          some
            { desc := (NewExporter c).device.uptime, valueType := .GaugeValue,
              value := ops.ofInt64 0, labelValues := [ap.Name, ""] } ∧
        (ms.filter (fun m => decide (m.desc = (NewExporter c).device.totalTxBytes)))[i]? =
          some
            { desc := (NewExporter c).device.totalTxBytes, valueType := .CounterValue,
              value := ops.ofInt64 0, labelValues := [ap.Name, ""] } ∧
        (ms.filter (fun m => decide (m.desc = (NewExporter c).device.totalRxBytes)))[i]? =
          some
            { desc := (NewExporter c).device.totalRxBytes, valueType := .CounterValue,
              value := ops.ofInt64 0, labelValues := [ap.Name, ""] } ∧
        (ms.filter (fun m => decide (m.desc = (NewExporter c).device.loadAvg1)))[i]? =
          some
            { desc := (NewExporter c).device.loadAvg1, valueType := .GaugeValue,
              value := ops.ofInt64 0, labelValues := [ap.Name, ""] } ∧
        (ms.filter (fun m => decide (m.desc = (NewExporter c).device.loadAvg5)))[i]? =
          some
            { desc := (NewExporter c).device.loadAvg5, valueType := .GaugeValue,
              value := ops.ofInt64 0, labelValues := [ap.Name, ""] } ∧
        (ms.filter (fun m => decide (m.desc = (NewExporter c).device.loadAvg15)))[i]? =
          some
            { desc := (NewExporter c).device.loadAvg15, valueType := .GaugeValue,
              value := ops.ofInt64 0, labelValues := [ap.Name, ""] } ∧
        (ms.filter (fun m => decide (m.desc = (NewExporter c).device.memUsed)))[i]? =
          some
            { desc := (NewExporter c).device.memUsed, valueType := .GaugeValue,
              value := ops.ofInt64 0, labelValues := [ap.Name, ""] } ∧
        (ms.filter (fun m => decide (m.desc = (NewExporter c).device.memTotal)))[i]? =
          some
            { desc := (NewExporter c).device.memTotal, valueType := .GaugeValue,
              value := ops.ofInt64 0, labelValues := [ap.Name, ""] } ∧
        (ms.filter (fun m => decide (m.desc = (NewExporter c).device.memBuffer)))[i]? =
          some
            { desc := (NewExporter c).device.memBuffer, valueType := .GaugeValue,
              value := ops.ofInt64 0, labelValues := [ap.Name, ""] } ∧
        (ms.filter (fun m => decide (m.desc = (NewExporter c).device.cpu)))[i]? =
          some
            { desc := (NewExporter c).device.cpu, valueType := .GaugeValue,
              value := ops.ofInt64 0, labelValues := [ap.Name, ""] } ∧
        (ms.filter (fun m => decide (m.desc = (NewExporter c).device.mem)))[i]? =
          some
            { desc := (NewExporter c).device.mem, valueType := .GaugeValue,
              value := ops.ofInt64 0, labelValues := [ap.Name, ""] }) ∧
      ∀ ap : AccessPointConfig,
        Exporter.flatten ops (NewExporter c) [Collector.placeholder ops ap] =
          .ok
            [ { desc := (NewExporter c).device.info, valueType := .GaugeValue,
                value := ops.ofInt64 0,
                labelValues := [ap.Address, "", "", "", ap.Name, "", ""] },
              { desc := (NewExporter c).device.uptime, valueType := .GaugeValue,
                value := ops.ofInt64 0, labelValues := [ap.Name, ""] },
              { desc := (NewExporter c).device.totalTxBytes, valueType := .CounterValue,
                value := ops.ofInt64 0, labelValues := [ap.Name, ""] },
              { desc := (NewExporter c).device.totalRxBytes, valueType := .CounterValue,
                value := ops.ofInt64 0, labelValues := [ap.Name, ""] },
              { desc := (NewExporter c).device.loadAvg1, valueType := .GaugeValue,
                value := ops.ofInt64 0, labelValues := [ap.Name, ""] },
              { desc := (NewExporter c).device.loadAvg5, valueType := .GaugeValue,
                value := ops.ofInt64 0, labelValues := [ap.Name, ""] },
              { desc := (NewExporter c).device.loadAvg15, valueType := .GaugeValue,
                value := ops.ofInt64 0, labelValues := [ap.Name, ""] },
              { desc := (NewExporter c).device.memUsed, valueType := .GaugeValue,
                value := ops.ofInt64 0, labelValues := [ap.Name, ""] },
              { desc := (NewExporter c).device.memTotal, valueType := .GaugeValue,
                value := ops.ofInt64 0, labelValues := [ap.Name, ""] },
              { desc := (NewExporter c).device.memBuffer, valueType := .GaugeValue,
                value := ops.ofInt64 0, labelValues := [ap.Name, ""] },
              { desc := (NewExporter c).device.cpu, valueType := .GaugeValue,
                value := ops.ofInt64 0, labelValues := [ap.Name, ""] },
              { desc := (NewExporter c).device.mem, valueType := .GaugeValue,
                value := ops.ofInt64 0, labelValues := [ap.Name, ""] } ] := by
  have hinfo : ((recs.flatMap (Exporter.recordArgs ops (NewExporter c))).map
      ConstMetricArgs.toMetric).filter
        (fun m => decide (m.desc = (NewExporter c).device.info)) =
      recs.map (fun r =>
        ({ desc := (NewExporter c).device.info, valueType := .GaugeValue, value := r.Value,
           labelValues :=
             [r.IP, r.Mac, r.Model, r.ModelName, r.Name, r.Serial, r.Version] } :
          Metric F)) := by
    rw [filter_desc_flatten ops (NewExporter c)
      (fun d => decide (d = (NewExporter c).device.info))
      (fun r =>
        [({ desc := (NewExporter c).device.info, valueType := .GaugeValue, value := r.Value,
            labelValues :=
              [r.IP, r.Mac, r.Model, r.ModelName, r.Name, r.Serial, r.Version] } : Metric F)])]
    · exact flatMap_single _ recs
    · intro r
      simp [Exporter.recordArgs, Exporter.deviceArgs, Exporter.radioArgs, Exporter.vapArgs,
        Exporter.rogueArgs, Exporter.stationArgs, List.filter_flatMap, NewExporter, NewDesc,
        namespace_, List.filter_cons, ConstMetricArgs.toMetric, flatMap_empty]
  refine ⟨_, (Exporter.Collect_eq_flatten ops c remote recs h).trans (flatten_eq ops c recs),
    flatten_eq ops c recs, hinfo, rfl, ?_, ?_⟩
  · intro i ap hi herr
    have hrec : recs[i]? = some (Collector.placeholder ops ap) :=
      ((Collect_ok_spec ops c remote recs none h).2 i ap hi).2 herr
    refine ⟨?_, ?_, ?_, ?_, ?_, ?_, ?_, ?_, ?_, ?_, ?_, ?_⟩
    · rw [hinfo, List.getElem?_map, hrec]
      simp [Collector.placeholder, AccessPointInfo.zero]
    · rw [device_select ops c recs (NewExporter c).device.uptime .GaugeValue (fun r => ops.ofInt64 r.Uptime) (by
        intro r
        simp [Exporter.recordArgs, Exporter.deviceArgs, Exporter.radioArgs, Exporter.vapArgs,
          Exporter.rogueArgs, Exporter.stationArgs, List.filter_flatMap, NewExporter, NewDesc,
          namespace_, List.filter_cons, ConstMetricArgs.toMetric, flatMap_empty]),
        List.getElem?_map, hrec]
      simp [Collector.placeholder, AccessPointInfo.zero, APSystemStats.zero, APSysStats.zero,
        Exporter.totalBytes]
    · rw [device_select ops c recs (NewExporter c).device.totalTxBytes .CounterValue (fun r => ops.ofInt64 (Exporter.totalBytes r.InterfaceTable).1) (by
        intro r
        simp [Exporter.recordArgs, Exporter.deviceArgs, Exporter.radioArgs, Exporter.vapArgs,
          Exporter.rogueArgs, Exporter.stationArgs, List.filter_flatMap, NewExporter, NewDesc,
          namespace_, List.filter_cons, ConstMetricArgs.toMetric, flatMap_empty]),
        List.getElem?_map, hrec]
      simp [Collector.placeholder, AccessPointInfo.zero, APSystemStats.zero, APSysStats.zero,
        Exporter.totalBytes]
    · rw [device_select ops c recs (NewExporter c).device.totalRxBytes .CounterValue (fun r => ops.ofInt64 (Exporter.totalBytes r.InterfaceTable).2) (by
        intro r
        simp [Exporter.recordArgs, Exporter.deviceArgs, Exporter.radioArgs, Exporter.vapArgs,
          Exporter.rogueArgs, Exporter.stationArgs, List.filter_flatMap, NewExporter, NewDesc,
          namespace_, List.filter_cons, ConstMetricArgs.toMetric, flatMap_empty]),
        List.getElem?_map, hrec]
      simp [Collector.placeholder, AccessPointInfo.zero, APSystemStats.zero, APSysStats.zero,
        Exporter.totalBytes]
    · rw [device_select ops c recs (NewExporter c).device.loadAvg1 .GaugeValue (fun r => r.SysStats.LoadAvg1) (by
        intro r
        simp [Exporter.recordArgs, Exporter.deviceArgs, Exporter.radioArgs, Exporter.vapArgs,
          Exporter.rogueArgs, Exporter.stationArgs, List.filter_flatMap, NewExporter, NewDesc,
          namespace_, List.filter_cons, ConstMetricArgs.toMetric, flatMap_empty]),
        List.getElem?_map, hrec]
      simp [Collector.placeholder, AccessPointInfo.zero, APSystemStats.zero, APSysStats.zero,
        Exporter.totalBytes]
    · rw [device_select ops c recs (NewExporter c).device.loadAvg5 .GaugeValue (fun r => r.SysStats.LoadAvg5) (by
        intro r
        simp [Exporter.recordArgs, Exporter.deviceArgs, Exporter.radioArgs, Exporter.vapArgs,
          Exporter.rogueArgs, Exporter.stationArgs, List.filter_flatMap, NewExporter, NewDesc,
          namespace_, List.filter_cons, ConstMetricArgs.toMetric, flatMap_empty]),
        List.getElem?_map, hrec]
      simp [Collector.placeholder, AccessPointInfo.zero, APSystemStats.zero, APSysStats.zero,
        Exporter.totalBytes]
    · rw [device_select ops c recs (NewExporter c).device.loadAvg15 .GaugeValue (fun r => r.SysStats.LoadAvg15) (by
        intro r
        simp [Exporter.recordArgs, Exporter.deviceArgs, Exporter.radioArgs, Exporter.vapArgs,
          Exporter.rogueArgs, Exporter.stationArgs, List.filter_flatMap, NewExporter, NewDesc,
          namespace_, List.filter_cons, ConstMetricArgs.toMetric, flatMap_empty]),
        List.getElem?_map, hrec]
      simp [Collector.placeholder, AccessPointInfo.zero, APSystemStats.zero, APSysStats.zero,
        Exporter.totalBytes]
    · rw [device_select ops c recs (NewExporter c).device.memUsed .GaugeValue (fun r => ops.ofInt64 r.SysStats.MemUsed) (by
        intro r
        simp [Exporter.recordArgs, Exporter.deviceArgs, Exporter.radioArgs, Exporter.vapArgs,
          Exporter.rogueArgs, Exporter.stationArgs, List.filter_flatMap, NewExporter, NewDesc,
          namespace_, List.filter_cons, ConstMetricArgs.toMetric, flatMap_empty]),
        List.getElem?_map, hrec]
      simp [Collector.placeholder, AccessPointInfo.zero, APSystemStats.zero, APSysStats.zero,
        Exporter.totalBytes]
    · rw [device_select ops c recs (NewExporter c).device.memTotal .GaugeValue (fun r => ops.ofInt64 r.SysStats.MemTotal) (by
        intro r
        simp [Exporter.recordArgs, Exporter.deviceArgs, Exporter.radioArgs, Exporter.vapArgs,
          Exporter.rogueArgs, Exporter.stationArgs, List.filter_flatMap, NewExporter, NewDesc,
          namespace_, List.filter_cons, ConstMetricArgs.toMetric, flatMap_empty]),
        List.getElem?_map, hrec]
      simp [Collector.placeholder, AccessPointInfo.zero, APSystemStats.zero, APSysStats.zero,
        Exporter.totalBytes]
    · rw [device_select ops c recs (NewExporter c).device.memBuffer .GaugeValue (fun r => ops.ofInt64 r.SysStats.MemBuffer) (by
        intro r
        simp [Exporter.recordArgs, Exporter.deviceArgs, Exporter.radioArgs, Exporter.vapArgs,
          Exporter.rogueArgs, Exporter.stationArgs, List.filter_flatMap, NewExporter, NewDesc,
          namespace_, List.filter_cons, ConstMetricArgs.toMetric, flatMap_empty]),
        List.getElem?_map, hrec]
      simp [Collector.placeholder, AccessPointInfo.zero, APSystemStats.zero, APSysStats.zero,
        Exporter.totalBytes]
    · rw [device_select ops c recs (NewExporter c).device.cpu .GaugeValue (fun r => r.SystemStats.CPU) (by
        intro r
        simp [Exporter.recordArgs, Exporter.deviceArgs, Exporter.radioArgs, Exporter.vapArgs,
          Exporter.rogueArgs, Exporter.stationArgs, List.filter_flatMap, NewExporter, NewDesc,
          namespace_, List.filter_cons, ConstMetricArgs.toMetric, flatMap_empty]),
        List.getElem?_map, hrec]
      simp [Collector.placeholder, AccessPointInfo.zero, APSystemStats.zero, APSysStats.zero,
        Exporter.totalBytes]
    · rw [device_select ops c recs (NewExporter c).device.mem .GaugeValue (fun r => r.SystemStats.Mem) (by
        intro r
        simp [Exporter.recordArgs, Exporter.deviceArgs, Exporter.radioArgs, Exporter.vapArgs,
          Exporter.rogueArgs, Exporter.stationArgs, List.filter_flatMap, NewExporter, NewDesc,
          namespace_, List.filter_cons, ConstMetricArgs.toMetric, flatMap_empty]),
        List.getElem?_map, hrec]
      simp [Collector.placeholder, AccessPointInfo.zero, APSystemStats.zero, APSysStats.zero,
        Exporter.totalBytes]
  · intro ap
    rw [flatten_eq]
    simp [Exporter.recordArgs, Exporter.deviceArgs, Collector.placeholder, AccessPointInfo.zero,
      APSystemStats.zero, APSysStats.zero, Exporter.totalBytes, ConstMetricArgs.toMetric]

theorem Exporter.info_series_witness :
    sampleCollector.Collect sampleOps sampleRemote = .ok (sampleRecords, none) ∧
    sampleCollector.config.AccessPoints[1]? = some sampleB ∧
    (sampleCollector.Fetch sampleOps (sampleRemote 1) sampleB).2 ≠ none ∧
    ∃ ms : List (Metric Int),
      Exporter.Collect sampleOps (NewExporter sampleCollector) sampleRemote = .ok ms ∧
      ms.filter (fun m => decide (m.desc = (NewExporter sampleCollector).device.info)) =
        [ { desc := (NewExporter sampleCollector).device.info, valueType := .GaugeValue,
            value := 1, labelValues := ["", "", "", "", "A", "", ""] },
          { desc := (NewExporter sampleCollector).device.info, valueType := .GaugeValue,
            value := 0, labelValues := ["10.0.0.2", "", "", "", "B", "", ""] } ] ∧
      (ms.filter (fun m => decide (m.desc = (NewExporter sampleCollector).device.uptime)))[1]? =
        some
          { desc := (NewExporter sampleCollector).device.uptime, valueType := .GaugeValue,
            value := 0, labelValues := ["B", ""] } ∧
      (ms.filter
          (fun m => decide (m.desc = (NewExporter sampleCollector).device.totalTxBytes)))[1]? =
        some
          { desc := (NewExporter sampleCollector).device.totalTxBytes,
            valueType := .CounterValue, value := 0, labelValues := ["B", ""] } ∧
      (ms.filter (fun m => decide (m.desc = (NewExporter sampleCollector).device.cpu)))[1]? =
        some
          { desc := (NewExporter sampleCollector).device.cpu, valueType := .GaugeValue,
            value := 0, labelValues := ["B", ""] } := by
  obtain ⟨ms, h1, _, h3, _, h5, _⟩ :=
    Exporter.info_series sampleOps sampleCollector sampleRemote sampleRecords sample_collect
  obtain ⟨_, k1, k2, _, _, _, _, _, _, _, k10, _⟩ := h5 1 sampleB (by decide) (by decide)
  exact ⟨sample_collect, by decide, by decide, ms, h1, h3, k1, k2, k10⟩

/-- C7, at a record with one scan-table entry and one station: the value type
declared for every series.  The station noise and signal series are declared
counters; the rogue-AP noise and signal series are declared gauges. -/
theorem Exporter.station_noise_signal_declared_counter :
    ∃ ms : List (Metric Int),
      Exporter.flatten sampleOps (NewExporter sampleCollector) [stationRecord] = .ok ms ∧
      ms.map (fun m => (m.desc.fqName, m.valueType)) =
        [ ("unifi_ap_info", .GaugeValue),
          ("unifi_ap_uptime_seconds", .GaugeValue),
          ("unifi_ap_transmit_bytes_total", .CounterValue),
          ("unifi_ap_receive_bytes_total", .CounterValue),
          ("unifi_ap_load_average_1", .GaugeValue),
          ("unifi_ap_load_average_5", .GaugeValue),
          ("unifi_ap_load_average_15", .GaugeValue),
          ("unifi_ap_memory_used_bytes", .GaugeValue),
          ("unifi_ap_memory_installed_bytes", .GaugeValue),
          ("unifi_ap_memory_buffer_bytes", .GaugeValue),
          ("unifi_ap_cpu_utilization_ratio", .GaugeValue),
          ("unifi_ap_memory_utilization_ratio", .GaugeValue),
          ("unifi_ap_radio_current_antenna_gain", .GaugeValue),
          ("unifi_ap_radio_max_transmit_power", .GaugeValue),
          ("unifi_ap_radio_min_transmit_power", .GaugeValue),
          ("unifi_ap_rogueap_frequency", .GaugeValue),
          ("unifi_ap_rogueap_channel", .GaugeValue),
          ("unifi_ap_rogueap_noise", .GaugeValue),
          ("unifi_ap_rogueap_signal", .GaugeValue),
          ("unifi_ap_vap_receive_bytes_total", .CounterValue),
          ("unifi_ap_vap_receive_dropped_total", .CounterValue),
          ("unifi_ap_vap_receive_errors_total", .CounterValue),
          ("unifi_ap_vap_transmit_bytes_total", .CounterValue),
          ("unifi_ap_vap_transmit_dropped_total", .CounterValue),
          ("unifi_ap_vap_transmit_errors_total", .CounterValue),
          ("unifi_ap_vap_transmit_power", .GaugeValue),
          ("unifi_ap_vap_transmit_retries_total", .CounterValue),
          ("unifi_ap_vap_transmit_success_total", .CounterValue),
          ("unifi_ap_vap_transmit_total", .CounterValue),
          ("unifi_ap_station_receive_bytes_total", .CounterValue),
          ("unifi_ap_station_transmit_bytes_total", .CounterValue),
          ("unifi_ap_station_noise", .CounterValue),
          ("unifi_ap_station_signal", .CounterValue) ] := by
  refine ⟨_, flatten_eq sampleOps sampleCollector [stationRecord], ?_⟩
  decide

end SeriesProofs

section VapProofs
variable {F : Type}

/-- The series of one VAP metric, from its selection record by record. -/
theorem vap_select (ops : Float64Ops F) (c : Collector) (recs : List (AccessPointInfo F))
    (d : Desc) (vt : ValueType) (f : APVap → Int)
    (h : ∀ r : AccessPointInfo F,
      ((Exporter.recordArgs ops (NewExporter c) r).filter fun a => decide (a.desc = d)).map
        ConstMetricArgs.toMetric =
      r.VAPTable.map fun vap =>
        ({ desc := d, valueType := vt, value := ops.ofInt64 (f vap),
           labelValues :=
             [r.Name, vap.Name, vap.BSSID, vap.Radio, vap.RadioName, vap.ESSID,
               vap.Usage] } : Metric F)) :
    ((recs.flatMap (Exporter.recordArgs ops (NewExporter c))).map
      ConstMetricArgs.toMetric).filter (fun m => decide (m.desc = d)) =
      (vapsOf recs).map (fun x =>
        ({ desc := d, valueType := vt, value := ops.ofInt64 (f x.2),
           labelValues :=
             [x.1.Name, x.2.Name, x.2.BSSID, x.2.Radio, x.2.RadioName, x.2.ESSID,
               x.2.Usage] } : Metric F)) := by
  rw [filter_desc_flatten ops (NewExporter c) (fun x => decide (x = d)) _ h]
  simp [vapsOf, List.map_flatMap, Function.comp_def]

/-- C10 (amended): for every VAP of every record the loop of `Exporter.Collect`
emits nine traffic, error and retry counter series (received bytes, dropped and
errors; transmitted bytes, dropped, errors, retries, success and total) and in
addition a transmit-power gauge series, ten series per VAP in all, each carrying
the label values (device name, VAP name, BSSID, radio id, radio name, ESSID,
usage) in that order and the value of the corresponding VAP field. -/
theorem Exporter.vap_series (ops : Float64Ops F) (c : Collector)
    (recs : List (AccessPointInfo F)) :
    ∃ ms : List (Metric F),
      Exporter.flatten ops (NewExporter c) recs = .ok ms ∧
      ms.filter (fun m => decide (m.desc = (NewExporter c).vap.rxBytes)) =
        (vapsOf recs).map (fun x =>
          { desc := (NewExporter c).vap.rxBytes, valueType := .CounterValue,
            value := ops.ofInt64 x.2.RxBytes,
            labelValues :=
              [x.1.Name, x.2.Name, x.2.BSSID, x.2.Radio, x.2.RadioName, x.2.ESSID,
                x.2.Usage] }) ∧
      ms.filter (fun m => decide (m.desc = (NewExporter c).vap.rxDropped)) =
        (vapsOf recs).map (fun x =>
          { desc := (NewExporter c).vap.rxDropped, valueType := .CounterValue,
            value := ops.ofInt64 x.2.RxDropped,
            labelValues :=
              [x.1.Name, x.2.Name, x.2.BSSID, x.2.Radio, x.2.RadioName, x.2.ESSID,
                x.2.Usage] }) ∧
      ms.filter (fun m => decide (m.desc = (NewExporter c).vap.rxErrors)) =
        (vapsOf recs).map (fun x =>
          { desc := (NewExporter c).vap.rxErrors, valueType := .CounterValue,
            value := ops.ofInt64 x.2.RxErrors,
            labelValues :=
              [x.1.Name, x.2.Name, x.2.BSSID, x.2.Radio, x.2.RadioName, x.2.ESSID,
                x.2.Usage] }) ∧
      ms.filter (fun m => decide (m.desc = (NewExporter c).vap.txBytes)) =
        (vapsOf recs).map (fun x =>
          { desc := (NewExporter c).vap.txBytes, valueType := .CounterValue,
            value := ops.ofInt64 x.2.TxBytes,
            labelValues :=
              [x.1.Name, x.2.Name, x.2.BSSID, x.2.Radio, x.2.RadioName, x.2.ESSID,
                x.2.Usage] }) ∧
      ms.filter (fun m => decide (m.desc = (NewExporter c).vap.txDropped)) =
        (vapsOf recs).map (fun x =>
          { desc := (NewExporter c).vap.txDropped, valueType := .CounterValue,
            value := ops.ofInt64 x.2.TxDropped,
            labelValues :=
              [x.1.Name, x.2.Name, x.2.BSSID, x.2.Radio, x.2.RadioName, x.2.ESSID,
                x.2.Usage] }) ∧
      ms.filter (fun m => decide (m.desc = (NewExporter c).vap.txErrors)) =
        (vapsOf recs).map (fun x =>
          { desc := (NewExporter c).vap.txErrors, valueType := .CounterValue,
            value := ops.ofInt64 x.2.TxErrors,
            labelValues :=
              [x.1.Name, x.2.Name, x.2.BSSID, x.2.Radio, x.2.RadioName, x.2.ESSID,
                x.2.Usage] }) ∧
      ms.filter (fun m => decide (m.desc = (NewExporter c).vap.txRetries)) =
        (vapsOf recs).map (fun x =>
          { desc := (NewExporter c).vap.txRetries, valueType := .CounterValue,
            value := ops.ofInt64 x.2.TxRetries,
            labelValues :=
              [x.1.Name, x.2.Name, x.2.BSSID, x.2.Radio, x.2.RadioName, x.2.ESSID,
                x.2.Usage] }) ∧
      ms.filter (fun m => decide (m.desc = (NewExporter c).vap.txSuccess)) =
        (vapsOf recs).map (fun x =>
          { desc := (NewExporter c).vap.txSuccess, valueType := .CounterValue,
            value := ops.ofInt64 x.2.TxSuccess,
            labelValues :=
              [x.1.Name, x.2.Name, x.2.BSSID, x.2.Radio, x.2.RadioName, x.2.ESSID,
                x.2.Usage] }) ∧
      ms.filter (fun m => decide (m.desc = (NewExporter c).vap.txTotal)) =
        (vapsOf recs).map (fun x =>
          { desc := (NewExporter c).vap.txTotal, valueType := .CounterValue,
            value := ops.ofInt64 x.2.TxTotal,
            labelValues :=
              [x.1.Name, x.2.Name, x.2.BSSID, x.2.Radio, x.2.RadioName, x.2.ESSID,
                x.2.Usage] }) ∧
      ms.filter (fun m => decide (m.desc = (NewExporter c).vap.txPower)) =
        (vapsOf recs).map (fun x =>
          { desc := (NewExporter c).vap.txPower, valueType := .GaugeValue,
            value := ops.ofInt64 x.2.TxPower,
            labelValues :=
              [x.1.Name, x.2.Name, x.2.BSSID, x.2.Radio, x.2.RadioName, x.2.ESSID,
                x.2.Usage] }) ∧
      (ms.filter (fun m => decide (m.desc.variableLabels = vapLabels))).length =
        10 * (vapsOf recs).length := by
  refine ⟨_, flatten_eq ops c recs, ?_, ?_, ?_, ?_, ?_, ?_, ?_, ?_, ?_, ?_, ?_⟩
  · exact vap_select ops c recs (NewExporter c).vap.rxBytes .CounterValue (·.RxBytes) (by
      intro r
      simp [Exporter.recordArgs, Exporter.deviceArgs, Exporter.radioArgs, Exporter.vapArgs,
        Exporter.rogueArgs, Exporter.stationArgs, List.filter_flatMap, NewExporter, NewDesc,
        namespace_, List.filter_cons, ConstMetricArgs.toMetric, flatMap_empty, flatMap_single,
        Exporter.vapLabelValues, Function.comp_def])
  · exact vap_select ops c recs (NewExporter c).vap.rxDropped .CounterValue (·.RxDropped) (by
      intro r
      simp [Exporter.recordArgs, Exporter.deviceArgs, Exporter.radioArgs, Exporter.vapArgs,
        Exporter.rogueArgs, Exporter.stationArgs, List.filter_flatMap, NewExporter, NewDesc,
        namespace_, List.filter_cons, ConstMetricArgs.toMetric, flatMap_empty, flatMap_single,
        Exporter.vapLabelValues, Function.comp_def])
  · exact vap_select ops c recs (NewExporter c).vap.rxErrors .CounterValue (·.RxErrors) (by
      intro r
      simp [Exporter.recordArgs, Exporter.deviceArgs, Exporter.radioArgs, Exporter.vapArgs,
        Exporter.rogueArgs, Exporter.stationArgs, List.filter_flatMap, NewExporter, NewDesc,
        namespace_, List.filter_cons, ConstMetricArgs.toMetric, flatMap_empty, flatMap_single,
        Exporter.vapLabelValues, Function.comp_def])
  · exact vap_select ops c recs (NewExporter c).vap.txBytes .CounterValue (·.TxBytes) (by
      intro r
      simp [Exporter.recordArgs, Exporter.deviceArgs, Exporter.radioArgs, Exporter.vapArgs,
        Exporter.rogueArgs, Exporter.stationArgs, List.filter_flatMap, NewExporter, NewDesc,
        namespace_, List.filter_cons, ConstMetricArgs.toMetric, flatMap_empty, flatMap_single,
        Exporter.vapLabelValues, Function.comp_def])
  · exact vap_select ops c recs (NewExporter c).vap.txDropped .CounterValue (·.TxDropped) (by
      intro r
      simp [Exporter.recordArgs, Exporter.deviceArgs, Exporter.radioArgs, Exporter.vapArgs,
        Exporter.rogueArgs, Exporter.stationArgs, List.filter_flatMap, NewExporter, NewDesc,
        namespace_, List.filter_cons, ConstMetricArgs.toMetric, flatMap_empty, flatMap_single,
        Exporter.vapLabelValues, Function.comp_def])
  · exact vap_select ops c recs (NewExporter c).vap.txErrors .CounterValue (·.TxErrors) (by
      intro r
      simp [Exporter.recordArgs, Exporter.deviceArgs, Exporter.radioArgs, Exporter.vapArgs,
        Exporter.rogueArgs, Exporter.stationArgs, List.filter_flatMap, NewExporter, NewDesc,
        namespace_, List.filter_cons, ConstMetricArgs.toMetric, flatMap_empty, flatMap_single,
        Exporter.vapLabelValues, Function.comp_def])
  · exact vap_select ops c recs (NewExporter c).vap.txRetries .CounterValue (·.TxRetries) (by
      intro r
      simp [Exporter.recordArgs, Exporter.deviceArgs, Exporter.radioArgs, Exporter.vapArgs,
        Exporter.rogueArgs, Exporter.stationArgs, List.filter_flatMap, NewExporter, NewDesc,
        namespace_, List.filter_cons, ConstMetricArgs.toMetric, flatMap_empty, flatMap_single,
        Exporter.vapLabelValues, Function.comp_def])
  · exact vap_select ops c recs (NewExporter c).vap.txSuccess .CounterValue (·.TxSuccess) (by
      intro r
      simp [Exporter.recordArgs, Exporter.deviceArgs, Exporter.radioArgs, Exporter.vapArgs,
        Exporter.rogueArgs, Exporter.stationArgs, List.filter_flatMap, NewExporter, NewDesc,
        namespace_, List.filter_cons, ConstMetricArgs.toMetric, flatMap_empty, flatMap_single,
        Exporter.vapLabelValues, Function.comp_def])
  · exact vap_select ops c recs (NewExporter c).vap.txTotal .CounterValue (·.TxTotal) (by
      intro r
      simp [Exporter.recordArgs, Exporter.deviceArgs, Exporter.radioArgs, Exporter.vapArgs,
        Exporter.rogueArgs, Exporter.stationArgs, List.filter_flatMap, NewExporter, NewDesc,
        namespace_, List.filter_cons, ConstMetricArgs.toMetric, flatMap_empty, flatMap_single,
        Exporter.vapLabelValues, Function.comp_def])
  · exact vap_select ops c recs (NewExporter c).vap.txPower .GaugeValue (·.TxPower) (by
      intro r
      simp [Exporter.recordArgs, Exporter.deviceArgs, Exporter.radioArgs, Exporter.vapArgs,
        Exporter.rogueArgs, Exporter.stationArgs, List.filter_flatMap, NewExporter, NewDesc,
        namespace_, List.filter_cons, ConstMetricArgs.toMetric, flatMap_empty, flatMap_single,
        Exporter.vapLabelValues, Function.comp_def])
  · rw [filter_desc_flatten ops (NewExporter c) (fun x => decide (x.variableLabels = vapLabels))
      (fun r => ((Exporter.recordArgs ops (NewExporter c) r).filter
        fun a => decide (a.desc.variableLabels = vapLabels)).map ConstMetricArgs.toMetric)
      (fun _ => rfl)]
    induction recs with
    | nil => simp [vapsOf]
    | cons r rest ih =>
      have hr : ((Exporter.recordArgs ops (NewExporter c) r).filter
          fun a => decide (a.desc.variableLabels = vapLabels)).length =
          10 * r.VAPTable.length := by
        simp [Exporter.recordArgs, Exporter.deviceArgs, Exporter.radioArgs, Exporter.vapArgs,
          Exporter.rogueArgs, Exporter.stationArgs, List.filter_flatMap, NewExporter, NewDesc,
          namespace_, List.filter_cons, flatMap_empty, vapLabels, deviceInfoLabels,
          deviceLabels, radioLabels, stationLabels, rogueLabels, List.length_flatMap,
          Function.comp_def]
        induction r.VAPTable with
        | nil => rfl
        | cons v vs ihv => simp [ihv]; omega
      simp only [List.flatMap_cons, List.length_append, List.length_map, hr, ih, vapsOf]
      omega

/-- C10, counterexample: a record with one VAP and no station.  Ten series carry
the VAP labels, nine of them counters and one a gauge; the claim counts ten
counters and the transmit-power series, eleven. -/
theorem Exporter.vap_series_count :
    ∃ ms : List (Metric Int),
      Exporter.flatten sampleOps (NewExporter sampleCollector) [vapRecord] = .ok ms ∧
      (ms.filter (fun m => decide (m.desc.variableLabels = vapLabels))).length = 10 ∧
      (ms.filter (fun m => decide (m.desc.variableLabels = vapLabels) &&
        decide (m.valueType = .CounterValue))).length = 9 ∧
      (ms.filter (fun m => decide (m.desc.variableLabels = vapLabels) &&
        decide (m.valueType = .GaugeValue))).map (·.desc.fqName) =
        ["unifi_ap_vap_transmit_power"] := by
  refine ⟨_, flatten_eq sampleOps sampleCollector [vapRecord], ?_, ?_, ?_⟩ <;> decide

end VapProofs

section DecodeProofs
variable {F : Type}

/-! ## Decoding errors propagate -/

theorem holdsMember_fails {T : Type} (names : List String) (set : Nat → JSON → T → Option T)
    (idx : List Nat) (bad : JSON → Bool)
    (h : ∀ i ∈ idx, ∀ v cur, bad v = true → set i v cur = none) :
    ∀ (members : List (String × JSON)) (cur : T),
      holdsMember names idx bad members = true → decodeObject names set members cur = none := by
  intro members
  induction members with
  | nil => intro cur hm; simp [holdsMember] at hm
  | cons kv rest ih =>
    intro cur hm
    obtain ⟨key, v⟩ := kv
    simp only [holdsMember, List.any_cons, Bool.or_eq_true, Bool.and_eq_true] at hm
    simp only [decodeObject]
    rcases hm with ⟨hk, hb⟩ | hrest
    · cases hf : findField names key with
      | none => simp [hf] at hk
      | some i =>
        simp only [hf] at hk
        simp [h i (by simpa using hk) v cur hb]
    · have hrest' : holdsMember names idx bad rest = true := hrest
      cases hf : findField names key with
      | none => simpa using ih cur hrest'
      | some i =>
        cases hs : set i v cur with
        | none => simp [hs]
        | some next => simpa [hs] using ih next hrest'

theorem storeStruct_fails {T : Type} (decode : List (String × JSON) → T → Option T)
    (p : List (String × JSON) → Bool)
    (h : ∀ members cur, p members = true → decode members cur = none) (v : JSON) (cur : T)
    (hv : holdsObject p v = true) : storeStruct decode v cur = none := by
  cases v with
  | obj members => exact h members cur hv
  | _ => simp [holdsObject] at hv

theorem decodeArray_fails {T : Type} (elem : JSON → T → Option T) (zero : T) :
    ∀ (elems : List JSON) (backing : List T), (∃ e ∈ elems, ∀ cur, elem e cur = none) →
      decodeArray elem zero elems backing = none := by
  intro elems
  induction elems with
  | nil => intro backing h; simp at h
  | cons e es ih =>
    intro backing h
    simp only [decodeArray]
    cases he : elem e (backing.headD zero) with
    | none => rfl
    | some x =>
      obtain ⟨e', hmem, hnone⟩ := h
      rcases List.mem_cons.mp hmem with rfl | hmem'
      · rw [hnone] at he; cases he
      · rw [ih backing.tail ⟨e', hmem', hnone⟩]

theorem storeSlice_fails {T : Type} (decode : List (String × JSON) → T → Option T) (zero : T)
    (p : List (String × JSON) → Bool)
    (h : ∀ members cur, p members = true → decode members cur = none) (v : JSON)
    (cur : Slice T) (hv : holdsElement p v = true) : storeSlice decode zero v cur = none := by
  cases v with
  | arr elems =>
    simp only [holdsElement, List.any_eq_true] at hv
    obtain ⟨e, hmem, he⟩ := hv
    have hne : elems.isEmpty = false := by
      cases elems with
      | nil => simp at hmem
      | cons _ _ => rfl
    simp only [storeSlice, hne, Bool.false_eq_true, if_false]
    rw [decodeArray_fails _ zero elems _
      ⟨e, hmem, fun c => storeStruct_fails decode p h e c he⟩]
    rfl
  | _ => simp [holdsElement] at hv

/-! ### A numeric field that refuses its value makes the whole decode fail -/

theorem systemStats_decode_fails (ops : Float64Ops F) (badQ : JSON → Bool)
    (hQ : ∀ v (cur : F), badQ v = true → storeQuotedFloat64 ops v cur = none)
    (members : List (String × JSON)) (cur : APSystemStats F)
    (h : APSystemStats.numericHolds badQ members = true) :
    APSystemStats.decode ops members cur = none := by
  refine holdsMember_fails _ _ [0, 1] badQ ?_ members cur h
  intro i hi v s hb
  simp only [List.mem_cons, List.mem_singleton, List.not_mem_nil, or_false] at hi
  rcases hi with rfl | rfl <;> simp [APSystemStats.set, hQ v _ hb]

theorem sysStats_decode_fails (ops : Float64Ops F) (badQ badI : JSON → Bool)
    (hQ : ∀ v (cur : F), badQ v = true → storeQuotedFloat64 ops v cur = none)
    (hI : ∀ v (cur : Int), badI v = true → storeInt64 v cur = none)
    (members : List (String × JSON)) (cur : APSysStats F)
    (h : APSysStats.numericHolds badQ badI members = true) :
    APSysStats.decode ops members cur = none := by
  simp only [APSysStats.numericHolds, Bool.or_eq_true] at h
  rcases h with h | h
  · refine holdsMember_fails _ _ [0, 1, 2] badQ ?_ members cur h
    intro i hi v s hb
    simp only [List.mem_cons, List.mem_singleton, List.not_mem_nil, or_false] at hi
    rcases hi with rfl | rfl | rfl <;> simp [APSysStats.set, hQ v _ hb]
  · refine holdsMember_fails _ _ [3, 4, 5] badI ?_ members cur h
    intro i hi v s hb
    simp only [List.mem_cons, List.mem_singleton, List.not_mem_nil, or_false] at hi
    rcases hi with rfl | rfl | rfl <;> simp [APSysStats.set, hI v _ hb]

theorem interface_decode_fails (badI : JSON → Bool)
    (hI : ∀ v (cur : Int), badI v = true → storeInt64 v cur = none)
    (members : List (String × JSON)) (cur : APInterface)
    (h : APInterface.numericHolds badI members = true) :
    APInterface.decode members cur = none := by
  refine holdsMember_fails _ _ [0, 1] badI ?_ members cur h
  intro i hi v s hb
  simp only [List.mem_cons, List.mem_singleton, List.not_mem_nil, or_false] at hi
  rcases hi with rfl | rfl <;> simp [APInterface.set, hI v _ hb]

theorem scan_decode_fails (badI : JSON → Bool)
    (hI : ∀ v (cur : Int), badI v = true → storeInt64 v cur = none)
    (members : List (String × JSON)) (cur : APScan)
    (h : APScan.numericHolds badI members = true) :
    APScan.decode members cur = none := by
  refine holdsMember_fails _ _ [1, 3, 4, 6] badI ?_ members cur h
  intro i hi v s hb
  simp only [List.mem_cons, List.mem_singleton, List.not_mem_nil, or_false] at hi
  rcases hi with rfl | rfl | rfl | rfl <;> simp [APScan.set, hI v _ hb]

theorem radio_decode_fails (badI : JSON → Bool)
    (hI : ∀ v (cur : Int), badI v = true → storeInt64 v cur = none)
    (members : List (String × JSON)) (cur : APRadioMem)
    (h : APRadio.numericHolds badI members = true) :
    APRadioMem.decode members cur = none := by
  simp only [APRadio.numericHolds, Bool.or_eq_true] at h
  rcases h with h | h
  · refine holdsMember_fails _ _ [2, 3, 4] badI ?_ members cur h
    intro i hi v s hb
    simp only [List.mem_cons, List.mem_singleton, List.not_mem_nil, or_false] at hi
    rcases hi with rfl | rfl | rfl <;> simp [APRadioMem.set, hI v _ hb]
  · refine holdsMember_fails _ _ [5] _ ?_ members cur h
    intro i hi v s hb
    simp only [List.mem_singleton] at hi
    subst hi
    simp [APRadioMem.set,
      storeSlice_fails APScan.decode APScan.zero _ (scan_decode_fails badI hI) v _ hb]

theorem station_decode_fails (badI : JSON → Bool)
    (hI : ∀ v (cur : Int), badI v = true → storeInt64 v cur = none)
    (members : List (String × JSON)) (cur : APStation)
    (h : APStation.numericHolds badI members = true) :
    APStation.decode members cur = none := by
  refine holdsMember_fails _ _ [2, 3, 4, 5] badI ?_ members cur h
  intro i hi v s hb
  simp only [List.mem_cons, List.mem_singleton, List.not_mem_nil, or_false] at hi
  rcases hi with rfl | rfl | rfl | rfl <;> simp [APStation.set, hI v _ hb]

theorem vap_decode_fails (badI : JSON → Bool)
    (hI : ∀ v (cur : Int), badI v = true → storeInt64 v cur = none)
    (members : List (String × JSON)) (cur : APVapMem)
    (h : APVap.numericHolds badI members = true) :
    APVapMem.decode members cur = none := by
  simp only [APVap.numericHolds, Bool.or_eq_true] at h
  rcases h with h | h
  · refine holdsMember_fails _ _ [3, 4, 5, 6, 7, 8, 9, 10, 11, 12, 13] badI ?_ members cur h
    intro i hi v s hb
    simp only [List.mem_cons, List.mem_singleton, List.not_mem_nil, or_false] at hi
    rcases hi with rfl | rfl | rfl | rfl | rfl | rfl | rfl | rfl | rfl | rfl | rfl <;>
      simp [APVapMem.set, hI v _ hb]
  · refine holdsMember_fails _ _ [17] _ ?_ members cur h
    intro i hi v s hb
    simp only [List.mem_singleton] at hi
    subst hi
    simp [APVapMem.set,
      storeSlice_fails APStation.decode APStation.zero _ (station_decode_fails badI hI) v _ hb]

theorem accessPointInfo_decode_fails (ops : Float64Ops F) (badQ badI : JSON → Bool)
    (hQ : ∀ v (cur : F), badQ v = true → storeQuotedFloat64 ops v cur = none)
    (hI : ∀ v (cur : Int), badI v = true → storeInt64 v cur = none)
    (members : List (String × JSON)) (cur : AccessPointInfoMem F)
    (h : AccessPointInfo.numericHolds badQ badI members = true) :
    AccessPointInfoMem.decode ops members cur = none := by
  simp only [AccessPointInfo.numericHolds, Bool.or_eq_true] at h
  rcases h with ((((h | h) | h) | h) | h) | h
  · refine holdsMember_fails _ _ [7] badI ?_ members cur h
    intro i hi v s hb
    simp only [List.mem_singleton] at hi
    subst hi
    simp [AccessPointInfoMem.set, hI v _ hb]
  · refine holdsMember_fails _ _ [8] _ ?_ members cur h
    intro i hi v s hb
    simp only [List.mem_singleton] at hi
    subst hi
    simp [AccessPointInfoMem.set,
      storeStruct_fails (APSystemStats.decode ops) _ (systemStats_decode_fails ops badQ hQ)
        v s.SystemStats hb]
  · refine holdsMember_fails _ _ [9] _ ?_ members cur h
    intro i hi v s hb
    simp only [List.mem_singleton] at hi
    subst hi
    simp [AccessPointInfoMem.set,
      storeStruct_fails (APSysStats.decode ops) _ (sysStats_decode_fails ops badQ badI hQ hI)
        v s.SysStats hb]
  · refine holdsMember_fails _ _ [10] _ ?_ members cur h
    intro i hi v s hb
    simp only [List.mem_singleton] at hi
    subst hi
    simp [AccessPointInfoMem.set,
      storeSlice_fails APInterface.decode APInterface.zero _ (interface_decode_fails badI hI)
        v _ hb]
  · refine holdsMember_fails _ _ [11] _ ?_ members cur h
    intro i hi v s hb
    simp only [List.mem_singleton] at hi
    subst hi
    simp [AccessPointInfoMem.set,
      storeSlice_fails APRadioMem.decode APRadioMem.zero _ (radio_decode_fails badI hI) v _
        hb]
  · refine holdsMember_fails _ _ [12] _ ?_ members cur h
    intro i hi v s hb
    simp only [List.mem_singleton] at hi
    subst hi
    simp [AccessPointInfoMem.set,
      storeSlice_fails APVapMem.decode APVapMem.zero _ (vap_decode_fails badI hI) v _ hb]

/-- When `Unmarshal` fails, or an earlier call does, `Fetch` returns an error and
no record. -/
theorem Fetch_fails_of_decode (ops : Float64Ops F) (c : Collector) (remote : Remote)
    (ap : AccessPointConfig) (members : List (String × JSON))
    (hout : remote.output = some (.obj members))
    (h : ∀ cur : AccessPointInfoMem F, AccessPointInfoMem.decode ops members cur = none) :
    ∃ err, c.Fetch ops remote ap = (none, some err) := by
  unfold Collector.Fetch
  split_ifs
  all_goals first
    | exact ⟨_, rfl⟩
    | (simp only [hout, Unmarshal, h, Option.map_none']; exact ⟨_, rfl⟩)

end DecodeProofs

section FetchProofs
variable {F : Type}

theorem storeQuotedFloat64_str (ops : Float64Ops F) (s : String) (x cur : F)
    (h : ops.parseFloat s = some x) : storeQuotedFloat64 ops (.str s) cur = some x := by
  simp [storeQuotedFloat64, literalStoreQuotedFloat64, h]

theorem storeQuotedFloat64_refuses (ops : Float64Ops F) (v : JSON) (cur : F)
    (h : ((v.isNonNumericStr ops && v.isNotNullStr) || v.isComposite) = true) :
    storeQuotedFloat64 ops v cur = none := by
  cases v with
  | str s =>
    simp only [JSON.isNonNumericStr, JSON.isNotNullStr, JSON.isComposite, Bool.or_false,
      Bool.and_eq_true, Option.isNone_iff_eq_none, bne_iff_ne, ne_eq] at h
    simp [storeQuotedFloat64, literalStoreQuotedFloat64, h.1, h.2]
  | null => simp [JSON.isNonNumericStr, JSON.isComposite] at h
  | bool b => rfl
  | num lit => rfl
  | arr elems => rfl
  | obj members => rfl

theorem storeInt64_refuses (v : JSON) (cur : Int) (h : (v.isStr || v.isComposite) = true) :
    storeInt64 v cur = none := by
  cases v <;> first | rfl | simp [JSON.isStr, JSON.isComposite] at h

/-- C6 (amended): when a field tagged `,string` (cpu, mem, a load average) holds a
string that is neither `null` nor a text `strconv.ParseFloat` accepts, or an
object or array, or an int64 field holds any string, object or array, `Fetch`
returns an error and no record. -/
theorem Collector.Fetch_refuses_non_numeric (ops : Float64Ops F) (c : Collector)
    (remote : Remote) (ap : AccessPointConfig) (members : List (String × JSON))
    (hout : remote.output = some (.obj members))
    (h : AccessPointInfo.numericHolds
      (fun v => (v.isNonNumericStr ops && v.isNotNullStr) || v.isComposite)
      (fun v => v.isStr || v.isComposite) members = true) :
    ∃ err, c.Fetch ops remote ap = (none, some err) :=
  Fetch_fails_of_decode ops c remote ap members hout fun cur =>
    accessPointInfo_decode_fails ops _ _ (storeQuotedFloat64_refuses ops) storeInt64_refuses
      members cur h

theorem Collector.Fetch_refuses_non_numeric_witness :
    ∃ err, sampleCollector.Fetch sampleOps
      (respond (some (.obj [("system-stats", .obj [("cpu", .str "abc")])]))) sampleA =
        (none, some err) :=
  Collector.Fetch_refuses_non_numeric sampleOps sampleCollector
    (respond (some (.obj [("system-stats", .obj [("cpu", .str "abc")])]))) sampleA
    [("system-stats", .obj [("cpu", .str "abc")])] rfl (by decide)

/-- C6, counterexample: the document whose cpu field holds the string `null`.
`Fetch` returns a record and no error, and the record's CPU is zero. -/
theorem Collector.Fetch_accepts_quoted_null :
    ∃ r : AccessPointInfo Int,
      sampleCollector.Fetch sampleOps
        (respond (some (.obj [("system-stats", .obj [("cpu", .str "null")])]))) sampleA =
        (some r, none) ∧
      r.SystemStats.CPU = 0 :=
  ⟨{ AccessPointInfo.zero sampleOps with Name := "A", Value := 1 }, by decide, by decide⟩

theorem storeQuotedFloat64_num (ops : Float64Ops F) (v : JSON) (cur : F)
    (h : v.isNum = true) : storeQuotedFloat64 ops v cur = none := by
  cases v <;> first | rfl | simp [JSON.isNum] at h

theorem storeInt64_str (v : JSON) (cur : Int) (h : v.isStr = true) :
    storeInt64 v cur = none := by
  cases v <;> first | rfl | simp [JSON.isStr] at h

/-! ## Fetch: display name and liveness -/

theorem set_keeps_name_value (ops : Float64Ops F) (i : Nat) (v : JSON)
    (cur next : AccessPointInfoMem F) (h4 : i ≠ 4) (h13 : i ≠ 13)
    (h : AccessPointInfoMem.set ops i v cur = some next) :
    next.Name = cur.Name ∧ next.Value = cur.Value := by
  unfold AccessPointInfoMem.set at h
  split at h
  all_goals first
    | exact absurd rfl h4
    | exact absurd rfl h13
    | (obtain ⟨x, _, rfl⟩ := Option.map_eq_some'.mp h; exact ⟨rfl, rfl⟩)
    | (cases h; exact ⟨rfl, rfl⟩)

theorem decode_keeps_name_value (ops : Float64Ops F) :
    ∀ (members : List (String × JSON)) (cur r : AccessPointInfoMem F),
      (∀ kv ∈ members, findField AccessPointInfo.names kv.1 ≠ some 4 ∧
        findField AccessPointInfo.names kv.1 ≠ some 13) →
      AccessPointInfoMem.decode ops members cur = some r →
      r.Name = cur.Name ∧ r.Value = cur.Value := by
  intro members
  induction members with
  | nil =>
    intro cur r _ h
    simp only [AccessPointInfoMem.decode, decodeObject, Option.some.injEq] at h
    subst h
    exact ⟨rfl, rfl⟩
  | cons kv rest ih =>
    intro cur r hk h
    obtain ⟨key, v⟩ := kv
    have hkey := hk (key, v) (by simp)
    have hrest : ∀ kv ∈ rest, findField AccessPointInfo.names kv.1 ≠ some 4 ∧
        findField AccessPointInfo.names kv.1 ≠ some 13 := fun kv hkv => hk kv (by simp [hkv])
    simp only [AccessPointInfoMem.decode, decodeObject] at h
    cases hf : findField AccessPointInfo.names key with
    | none =>
      simp only [hf] at h
      exact ih cur r hrest h
    | some i =>
      simp only [hf] at h
      cases hs : AccessPointInfoMem.set ops i v cur with
      | none => simp [hs] at h
      | some next =>
        simp only [hs] at h
        have h1 := set_keeps_name_value ops i v cur next
          (by rintro rfl; exact hkey.1 hf) (by rintro rfl; exact hkey.2 hf) hs
        have h2 := ih next r hrest h
        exact ⟨h2.1.trans h1.1, h2.2.trans h1.2⟩

/-- C4, at three device outputs.  A document with the members `name` and `value`
makes `Fetch` return, without error, a record whose Name and Value are the
document's; the output `null` makes it return neither a record nor an error,
and `Collect` then panics on the nil record.  What holds in general: an error is
never accompanied by a record, and a record fetched from a document none of
whose members selects the Name or Value field has the configured name and
liveness 1. -/
theorem Collector.Fetch_name_and_liveness_from_document :
    sampleCollector.Fetch sampleOps
      (respond (some (.obj [("name", .str "evil"), ("value", .num "0")]))) sampleA =
      (some { AccessPointInfo.zero sampleOps with Name := "evil", Value := 0 }, none) ∧
    sampleCollector.Fetch sampleOps (respond (some .null)) sampleA =
      ((none : Option (AccessPointInfo Int)), none) ∧
    sampleCollector.Collect sampleOps (fun _ => respond (some .null)) =
      (.error .nilDereference : Except Panic (List (AccessPointInfo Int) × Option FetchError)) ∧
    (∀ (G : Type) (ops : Float64Ops G) (c : Collector) (remote : Remote)
      (ap : AccessPointConfig),
      (c.Fetch ops remote ap).2 ≠ none → (c.Fetch ops remote ap).1 = none) ∧
    (∀ (G : Type) (ops : Float64Ops G) (c : Collector) (remote : Remote)
      (ap : AccessPointConfig) (members : List (String × JSON)) (r : AccessPointInfo G),
      remote.output = some (.obj members) →
      (∀ kv ∈ members, findField AccessPointInfo.names kv.1 ≠ some 4 ∧
        findField AccessPointInfo.names kv.1 ≠ some 13) →
      c.Fetch ops remote ap = (some r, none) →
      r.Name = ap.Name ∧ r.Value = ops.ofInt64 1) := by
  refine ⟨by decide, by decide, rfl, ?_, ?_⟩
  · intro G ops c remote ap h
    unfold Collector.Fetch at h ⊢
    split_ifs at h ⊢
    all_goals first
      | rfl
      | (cases hu : Unmarshal ops remote.output
            { AccessPointInfoMem.zero ops with Name := ap.Name, Value := ops.ofInt64 1 } with
          | none => simp [hu]
          | some p => simp [hu] at h)
  · intro G ops c remote ap members r hout hk h
    unfold Collector.Fetch at h
    split_ifs at h
    all_goals first
      | (simp at h; done)
      | skip
    simp only [hout, Unmarshal] at h
    cases hd : AccessPointInfoMem.decode ops members
        { AccessPointInfoMem.zero ops with Name := ap.Name, Value := ops.ofInt64 1 } with
    | none => simp [hd] at h
    | some r' =>
      simp only [hd, Option.map_some', Prod.mk.injEq, Option.some.injEq, and_true] at h
      subst h
      exact decode_keeps_name_value ops members _ _ hk hd

end FetchProofs

section EncodingProofs
variable {F : Type}

/-! ## Numeric fields: which encoding each accepts -/

/-- A member that selects field `i` is stored into the record the members before
it produced, and the members after it are stored into the result. -/
theorem decodeObject_insert {T : Type} (names : List String) (set : Nat → JSON → T → Option T)
    (key : String) (i : Nat) (hk : findField names key = some i) (v : JSON) :
    ∀ (pre post : List (String × JSON)) (cur : T),
      decodeObject names set (pre ++ (key, v) :: post) cur =
        (decodeObject names set pre cur).bind fun s =>
          (set i v s).bind (decodeObject names set post) := by
  intro pre
  induction pre with
  | nil =>
    intro post cur
    simp only [List.nil_append, decodeObject, hk, Option.some_bind]
    cases hs : set i v cur <;> simp [hs]
  | cons kv rest ih =>
    intro post cur
    obtain ⟨k, w⟩ := kv
    simp only [List.cons_append, decodeObject]
    cases hf : findField names k with
    | none => simpa [hf] using ih post cur
    | some j =>
      cases hs : set j w cur with
      | none => simp [hf, hs]
      | some next => simpa [hf, hs] using ih post next

theorem findField_top :
    findField AccessPointInfo.names "uptime" = some 7 ∧
    findField AccessPointInfo.names "system-stats" = some 8 ∧
    findField AccessPointInfo.names "sys_stats" = some 9 ∧
    findField AccessPointInfo.names "if_table" = some 10 ∧
    findField AccessPointInfo.names "radio_table" = some 11 ∧
    findField AccessPointInfo.names "vap_table" = some 12 := by
  decide

theorem findField_nested :
    findField APRadio.names "scan_table" = some 5 ∧
    findField APVap.names "sta_table" = some 17 := by
  decide

theorem findField_top_uptime : findField AccessPointInfo.names "uptime" = some 7 := by
  decide

theorem findField_system_cpu : findField APSystemStats.names "cpu" = some 0 := by
  decide

theorem findField_system_mem : findField APSystemStats.names "mem" = some 1 := by
  decide

theorem findField_sys_loadavg_1 : findField APSysStats.names "loadavg_1" = some 0 := by
  decide

theorem findField_sys_loadavg_5 : findField APSysStats.names "loadavg_5" = some 1 := by
  decide

theorem findField_sys_loadavg_15 : findField APSysStats.names "loadavg_15" = some 2 := by
  decide

theorem findField_sys_mem_used : findField APSysStats.names "mem_used" = some 3 := by
  decide

theorem findField_sys_mem_total : findField APSysStats.names "mem_total" = some 4 := by
  decide

theorem findField_sys_mem_buffer : findField APSysStats.names "mem_buffer" = some 5 := by
  decide

theorem findField_if_tx_bytes : findField APInterface.names "tx_bytes" = some 0 := by
  decide

theorem findField_if_rx_bytes : findField APInterface.names "rx_bytes" = some 1 := by
  decide

theorem findField_radio_builtin_ant_gain : findField APRadio.names "builtin_ant_gain" = some 2 := by
  decide

theorem findField_radio_max_txpower : findField APRadio.names "max_txpower" = some 3 := by
  decide

theorem findField_radio_min_txpower : findField APRadio.names "min_txpower" = some 4 := by
  decide

theorem findField_scan_channel : findField APScan.names "channel" = some 1 := by
  decide

theorem findField_scan_freq : findField APScan.names "freq" = some 3 := by
  decide

theorem findField_scan_noise : findField APScan.names "noise" = some 4 := by
  decide

theorem findField_scan_signal : findField APScan.names "signal" = some 6 := by
  decide

theorem findField_vap_rx_bytes : findField APVap.names "rx_bytes" = some 3 := by
  decide

theorem findField_vap_rx_dropped : findField APVap.names "rx_dropped" = some 4 := by
  decide

theorem findField_vap_rx_errors : findField APVap.names "rx_errors" = some 5 := by
  decide

theorem findField_vap_tx_bytes : findField APVap.names "tx_bytes" = some 6 := by
  decide

theorem findField_vap_tx_dropped : findField APVap.names "tx_dropped" = some 7 := by
  decide

theorem findField_vap_tx_errors : findField APVap.names "tx_errors" = some 8 := by
  decide

theorem findField_vap_tx_power : findField APVap.names "tx_power" = some 9 := by
  decide

theorem findField_vap_tx_retries : findField APVap.names "tx_retries" = some 10 := by
  decide

theorem findField_vap_tx_success : findField APVap.names "tx_success" = some 11 := by
  decide

theorem findField_vap_tx_total : findField APVap.names "tx_total" = some 12 := by
  decide

theorem findField_vap_channel : findField APVap.names "channel" = some 13 := by
  decide

theorem findField_sta_tx_bytes : findField APStation.names "tx_bytes" = some 2 := by
  decide

theorem findField_sta_rx_bytes : findField APStation.names "rx_bytes" = some 3 := by
  decide

theorem findField_sta_noise : findField APStation.names "noise" = some 4 := by
  decide

theorem findField_sta_signal : findField APStation.names "signal" = some 5 := by
  decide

/-- C5 (amended): no numeric field accepts both encodings.  Whenever cpu, mem or a
load average (the fields tagged `,string`) is written as a JSON number, or an
int64 field is written as a JSON string, `Fetch` returns an error and no record.
Written as the JSON string "v", a field tagged `,string` is set to what
`strconv.ParseFloat` converts v to; written as the JSON number v, an int64
field is set to what `strconv.ParseInt` converts v to.  This is stated for each
of the 33 numeric fields twice: inside its own object, whatever members stand
before and after it, the member sets that field of the record the earlier
members produced and nothing else; and `Fetch` of the document that holds only
that field, at its place, returns the record with that one field set. -/
theorem Collector.Fetch_numeric_encodings (ops : Float64Ops F) (c : Collector)
    (ap : AccessPointConfig) :
    (∀ (remote : Remote) (members : List (String × JSON)),
      remote.output = some (.obj members) →
      AccessPointInfo.numericHolds JSON.isNum JSON.isStr members = true →
      ∃ err, c.Fetch ops remote ap = (none, some err)) ∧
    (∀ (v : String) (x cur : F), ops.parseFloat v = some x →
      storeQuotedFloat64 ops (.str v) cur = some x) ∧
    (∀ (v : String) (cur : Int), storeInt64 (.num v) cur = ParseInt64 v) ∧
    (∀ (pre post : List (String × JSON)) (cur : AccessPointInfoMem F) (v : String) (n : Int), ParseInt64 v = some n →
      AccessPointInfoMem.decode ops (pre ++ ("uptime", .num v) :: post) cur =
        (AccessPointInfoMem.decode ops pre cur).bind fun s => AccessPointInfoMem.decode ops post { s with Uptime := n }) ∧
    (∀ (pre post : List (String × JSON)) (cur : APSystemStats F) (v : String) (x : F), ops.parseFloat v = some x →
      APSystemStats.decode ops (pre ++ ("cpu", .str v) :: post) cur =
        (APSystemStats.decode ops pre cur).bind fun s => APSystemStats.decode ops post { s with CPU := x }) ∧
    (∀ (pre post : List (String × JSON)) (cur : APSystemStats F) (v : String) (x : F), ops.parseFloat v = some x →
      APSystemStats.decode ops (pre ++ ("mem", .str v) :: post) cur =
        (APSystemStats.decode ops pre cur).bind fun s => APSystemStats.decode ops post { s with Mem := x }) ∧
    (∀ (pre post : List (String × JSON)) (cur : APSysStats F) (v : String) (x : F), ops.parseFloat v = some x →
      APSysStats.decode ops (pre ++ ("loadavg_1", .str v) :: post) cur =
        (APSysStats.decode ops pre cur).bind fun s => APSysStats.decode ops post { s with LoadAvg1 := x }) ∧
    (∀ (pre post : List (String × JSON)) (cur : APSysStats F) (v : String) (x : F), ops.parseFloat v = some x →
      APSysStats.decode ops (pre ++ ("loadavg_5", .str v) :: post) cur =
        (APSysStats.decode ops pre cur).bind fun s => APSysStats.decode ops post { s with LoadAvg5 := x }) ∧
    (∀ (pre post : List (String × JSON)) (cur : APSysStats F) (v : String) (x : F), ops.parseFloat v = some x →
      APSysStats.decode ops (pre ++ ("loadavg_15", .str v) :: post) cur =
        (APSysStats.decode ops pre cur).bind fun s => APSysStats.decode ops post { s with LoadAvg15 := x }) ∧
    (∀ (pre post : List (String × JSON)) (cur : APSysStats F) (v : String) (n : Int), ParseInt64 v = some n →
      APSysStats.decode ops (pre ++ ("mem_used", .num v) :: post) cur =
        (APSysStats.decode ops pre cur).bind fun s => APSysStats.decode ops post { s with MemUsed := n }) ∧
    (∀ (pre post : List (String × JSON)) (cur : APSysStats F) (v : String) (n : Int), ParseInt64 v = some n →
      APSysStats.decode ops (pre ++ ("mem_total", .num v) :: post) cur =
        (APSysStats.decode ops pre cur).bind fun s => APSysStats.decode ops post { s with MemTotal := n }) ∧
    (∀ (pre post : List (String × JSON)) (cur : APSysStats F) (v : String) (n : Int), ParseInt64 v = some n →
      APSysStats.decode ops (pre ++ ("mem_buffer", .num v) :: post) cur =
        (APSysStats.decode ops pre cur).bind fun s => APSysStats.decode ops post { s with MemBuffer := n }) ∧
    (∀ (pre post : List (String × JSON)) (cur : APInterface) (v : String) (n : Int), ParseInt64 v = some n →
      APInterface.decode (pre ++ ("tx_bytes", .num v) :: post) cur =
        (APInterface.decode pre cur).bind fun s => APInterface.decode post { s with TxBytes := n }) ∧
    (∀ (pre post : List (String × JSON)) (cur : APInterface) (v : String) (n : Int), ParseInt64 v = some n →
      APInterface.decode (pre ++ ("rx_bytes", .num v) :: post) cur =
        (APInterface.decode pre cur).bind fun s => APInterface.decode post { s with RxBytes := n }) ∧
    (∀ (pre post : List (String × JSON)) (cur : APRadioMem) (v : String) (n : Int), ParseInt64 v = some n →
      APRadioMem.decode (pre ++ ("builtin_ant_gain", .num v) :: post) cur =
        (APRadioMem.decode pre cur).bind fun s => APRadioMem.decode post { s with CurrentAntennaGain := n }) ∧
    (∀ (pre post : List (String × JSON)) (cur : APRadioMem) (v : String) (n : Int), ParseInt64 v = some n →
      APRadioMem.decode (pre ++ ("max_txpower", .num v) :: post) cur =
        (APRadioMem.decode pre cur).bind fun s => APRadioMem.decode post { s with MaxTxpower := n }) ∧
    (∀ (pre post : List (String × JSON)) (cur : APRadioMem) (v : String) (n : Int), ParseInt64 v = some n →
      APRadioMem.decode (pre ++ ("min_txpower", .num v) :: post) cur =
        (APRadioMem.decode pre cur).bind fun s => APRadioMem.decode post { s with MinTxpower := n }) ∧
    (∀ (pre post : List (String × JSON)) (cur : APScan) (v : String) (n : Int), ParseInt64 v = some n →
      APScan.decode (pre ++ ("channel", .num v) :: post) cur =
        (APScan.decode pre cur).bind fun s => APScan.decode post { s with Channel := n }) ∧
    (∀ (pre post : List (String × JSON)) (cur : APScan) (v : String) (n : Int), ParseInt64 v = some n →
      APScan.decode (pre ++ ("freq", .num v) :: post) cur =
        (APScan.decode pre cur).bind fun s => APScan.decode post { s with Frequency := n }) ∧
    (∀ (pre post : List (String × JSON)) (cur : APScan) (v : String) (n : Int), ParseInt64 v = some n →
      APScan.decode (pre ++ ("noise", .num v) :: post) cur =
        (APScan.decode pre cur).bind fun s => APScan.decode post { s with Noise := n }) ∧
    (∀ (pre post : List (String × JSON)) (cur : APScan) (v : String) (n : Int), ParseInt64 v = some n →
      APScan.decode (pre ++ ("signal", .num v) :: post) cur =
        (APScan.decode pre cur).bind fun s => APScan.decode post { s with Signal := n }) ∧
    (∀ (pre post : List (String × JSON)) (cur : APVapMem) (v : String) (n : Int), ParseInt64 v = some n →
      APVapMem.decode (pre ++ ("rx_bytes", .num v) :: post) cur =
        (APVapMem.decode pre cur).bind fun s => APVapMem.decode post { s with RxBytes := n }) ∧
    (∀ (pre post : List (String × JSON)) (cur : APVapMem) (v : String) (n : Int), ParseInt64 v = some n →
      APVapMem.decode (pre ++ ("rx_dropped", .num v) :: post) cur =
        (APVapMem.decode pre cur).bind fun s => APVapMem.decode post { s with RxDropped := n }) ∧
    (∀ (pre post : List (String × JSON)) (cur : APVapMem) (v : String) (n : Int), ParseInt64 v = some n →
      APVapMem.decode (pre ++ ("rx_errors", .num v) :: post) cur =
        (APVapMem.decode pre cur).bind fun s => APVapMem.decode post { s with RxErrors := n }) ∧
    (∀ (pre post : List (String × JSON)) (cur : APVapMem) (v : String) (n : Int), ParseInt64 v = some n →
      APVapMem.decode (pre ++ ("tx_bytes", .num v) :: post) cur =
        (APVapMem.decode pre cur).bind fun s => APVapMem.decode post { s with TxBytes := n }) ∧
    (∀ (pre post : List (String × JSON)) (cur : APVapMem) (v : String) (n : Int), ParseInt64 v = some n →
      APVapMem.decode (pre ++ ("tx_dropped", .num v) :: post) cur =
        (APVapMem.decode pre cur).bind fun s => APVapMem.decode post { s with TxDropped := n }) ∧
    (∀ (pre post : List (String × JSON)) (cur : APVapMem) (v : String) (n : Int), ParseInt64 v = some n →
      APVapMem.decode (pre ++ ("tx_errors", .num v) :: post) cur =
        (APVapMem.decode pre cur).bind fun s => APVapMem.decode post { s with TxErrors := n }) ∧
    (∀ (pre post : List (String × JSON)) (cur : APVapMem) (v : String) (n : Int), ParseInt64 v = some n →
      APVapMem.decode (pre ++ ("tx_power", .num v) :: post) cur =
        (APVapMem.decode pre cur).bind fun s => APVapMem.decode post { s with TxPower := n }) ∧
    (∀ (pre post : List (String × JSON)) (cur : APVapMem) (v : String) (n : Int), ParseInt64 v = some n →
      APVapMem.decode (pre ++ ("tx_retries", .num v) :: post) cur =
        (APVapMem.decode pre cur).bind fun s => APVapMem.decode post { s with TxRetries := n }) ∧
    (∀ (pre post : List (String × JSON)) (cur : APVapMem) (v : String) (n : Int), ParseInt64 v = some n →
      APVapMem.decode (pre ++ ("tx_success", .num v) :: post) cur =
        (APVapMem.decode pre cur).bind fun s => APVapMem.decode post { s with TxSuccess := n }) ∧
    (∀ (pre post : List (String × JSON)) (cur : APVapMem) (v : String) (n : Int), ParseInt64 v = some n →
      APVapMem.decode (pre ++ ("tx_total", .num v) :: post) cur =
        (APVapMem.decode pre cur).bind fun s => APVapMem.decode post { s with TxTotal := n }) ∧
    (∀ (pre post : List (String × JSON)) (cur : APVapMem) (v : String) (n : Int), ParseInt64 v = some n →
      APVapMem.decode (pre ++ ("channel", .num v) :: post) cur =
        (APVapMem.decode pre cur).bind fun s => APVapMem.decode post { s with Channel := n }) ∧
    (∀ (pre post : List (String × JSON)) (cur : APStation) (v : String) (n : Int), ParseInt64 v = some n →
      APStation.decode (pre ++ ("tx_bytes", .num v) :: post) cur =
        (APStation.decode pre cur).bind fun s => APStation.decode post { s with TxBytes := n }) ∧
    (∀ (pre post : List (String × JSON)) (cur : APStation) (v : String) (n : Int), ParseInt64 v = some n →
      APStation.decode (pre ++ ("rx_bytes", .num v) :: post) cur =
        (APStation.decode pre cur).bind fun s => APStation.decode post { s with RxBytes := n }) ∧
    (∀ (pre post : List (String × JSON)) (cur : APStation) (v : String) (n : Int), ParseInt64 v = some n →
      APStation.decode (pre ++ ("noise", .num v) :: post) cur =
        (APStation.decode pre cur).bind fun s => APStation.decode post { s with Noise := n }) ∧
    (∀ (pre post : List (String × JSON)) (cur : APStation) (v : String) (n : Int), ParseInt64 v = some n →
      APStation.decode (pre ++ ("signal", .num v) :: post) cur =
        (APStation.decode pre cur).bind fun s => APStation.decode post { s with Signal := n }) ∧
    (∀ (v : String) (n : Int), ParseInt64 v = some n →
      c.Fetch ops (respond (some (.obj [("uptime", .num v)]))) ap =
        (some
          { AccessPointInfo.zero ops with
            Name := ap.Name, Value := ops.ofInt64 1,
            Uptime := n }, none)) ∧
    (∀ (v : String) (x : F), ops.parseFloat v = some x →
      c.Fetch ops (respond (some (.obj [("system-stats", .obj [("cpu", .str v)])]))) ap =
        (some
          { AccessPointInfo.zero ops with
            Name := ap.Name, Value := ops.ofInt64 1,
            SystemStats := { APSystemStats.zero ops with CPU := x } }, none)) ∧
    (∀ (v : String) (x : F), ops.parseFloat v = some x →
      c.Fetch ops (respond (some (.obj [("system-stats", .obj [("mem", .str v)])]))) ap =
        (some
          { AccessPointInfo.zero ops with
            Name := ap.Name, Value := ops.ofInt64 1,
            SystemStats := { APSystemStats.zero ops with Mem := x } }, none)) ∧
    (∀ (v : String) (x : F), ops.parseFloat v = some x →
      c.Fetch ops (respond (some (.obj [("sys_stats", .obj [("loadavg_1", .str v)])]))) ap =
        (some
          { AccessPointInfo.zero ops with
            Name := ap.Name, Value := ops.ofInt64 1,
            SysStats := { APSysStats.zero ops with LoadAvg1 := x } }, none)) ∧
    (∀ (v : String) (x : F), ops.parseFloat v = some x →
      c.Fetch ops (respond (some (.obj [("sys_stats", .obj [("loadavg_5", .str v)])]))) ap =
        (some
          { AccessPointInfo.zero ops with
            Name := ap.Name, Value := ops.ofInt64 1,
            SysStats := { APSysStats.zero ops with LoadAvg5 := x } }, none)) ∧
    (∀ (v : String) (x : F), ops.parseFloat v = some x →
      c.Fetch ops (respond (some (.obj [("sys_stats", .obj [("loadavg_15", .str v)])]))) ap =
        (some
          { AccessPointInfo.zero ops with
            Name := ap.Name, Value := ops.ofInt64 1,
            SysStats := { APSysStats.zero ops with LoadAvg15 := x } }, none)) ∧
    (∀ (v : String) (n : Int), ParseInt64 v = some n →
      c.Fetch ops (respond (some (.obj [("sys_stats", .obj [("mem_used", .num v)])]))) ap =
        (some
          { AccessPointInfo.zero ops with
            Name := ap.Name, Value := ops.ofInt64 1,
            SysStats := { APSysStats.zero ops with MemUsed := n } }, none)) ∧
    (∀ (v : String) (n : Int), ParseInt64 v = some n →
      c.Fetch ops (respond (some (.obj [("sys_stats", .obj [("mem_total", .num v)])]))) ap =
        (some
          { AccessPointInfo.zero ops with
            Name := ap.Name, Value := ops.ofInt64 1,
            SysStats := { APSysStats.zero ops with MemTotal := n } }, none)) ∧
    (∀ (v : String) (n : Int), ParseInt64 v = some n →
      c.Fetch ops (respond (some (.obj [("sys_stats", .obj [("mem_buffer", .num v)])]))) ap =
        (some
          { AccessPointInfo.zero ops with
            Name := ap.Name, Value := ops.ofInt64 1,
            SysStats := { APSysStats.zero ops with MemBuffer := n } }, none)) ∧
    (∀ (v : String) (n : Int), ParseInt64 v = some n →
      c.Fetch ops (respond (some (.obj [("if_table", .arr [.obj [("tx_bytes", .num v)]])]))) ap =
        (some
          { AccessPointInfo.zero ops with
            Name := ap.Name, Value := ops.ofInt64 1,
            InterfaceTable := [{ APInterface.zero with TxBytes := n }] }, none)) ∧
    (∀ (v : String) (n : Int), ParseInt64 v = some n →
      c.Fetch ops (respond (some (.obj [("if_table", .arr [.obj [("rx_bytes", .num v)]])]))) ap =
        (some
          { AccessPointInfo.zero ops with
            Name := ap.Name, Value := ops.ofInt64 1,
            InterfaceTable := [{ APInterface.zero with RxBytes := n }] }, none)) ∧
    (∀ (v : String) (n : Int), ParseInt64 v = some n →
      c.Fetch ops (respond (some (.obj [("radio_table", .arr [.obj [("builtin_ant_gain", .num v)]])]))) ap =
        (some
          { AccessPointInfo.zero ops with
            Name := ap.Name, Value := ops.ofInt64 1,
            RadioTable := [{ APRadio.zero with CurrentAntennaGain := n }] }, none)) ∧
    (∀ (v : String) (n : Int), ParseInt64 v = some n →
      c.Fetch ops (respond (some (.obj [("radio_table", .arr [.obj [("max_txpower", .num v)]])]))) ap =
        (some
          { AccessPointInfo.zero ops with
            Name := ap.Name, Value := ops.ofInt64 1,
            RadioTable := [{ APRadio.zero with MaxTxpower := n }] }, none)) ∧
    (∀ (v : String) (n : Int), ParseInt64 v = some n →
      c.Fetch ops (respond (some (.obj [("radio_table", .arr [.obj [("min_txpower", .num v)]])]))) ap =
        (some
          { AccessPointInfo.zero ops with
            Name := ap.Name, Value := ops.ofInt64 1,
            RadioTable := [{ APRadio.zero with MinTxpower := n }] }, none)) ∧
    (∀ (v : String) (n : Int), ParseInt64 v = some n →
      c.Fetch ops (respond (some (.obj [("radio_table", .arr [.obj [("scan_table", .arr [.obj [("channel", .num v)]])]])]))) ap =
        (some
          { AccessPointInfo.zero ops with
            Name := ap.Name, Value := ops.ofInt64 1,
            RadioTable :=
              [{ APRadio.zero with ScanTable := [{ APScan.zero with Channel := n }] }] }, none)) ∧
    (∀ (v : String) (n : Int), ParseInt64 v = some n →
      c.Fetch ops (respond (some (.obj [("radio_table", .arr [.obj [("scan_table", .arr [.obj [("freq", .num v)]])]])]))) ap =
        (some
          { AccessPointInfo.zero ops with
            Name := ap.Name, Value := ops.ofInt64 1,
            RadioTable :=
              [{ APRadio.zero with ScanTable := [{ APScan.zero with Frequency := n }] }] }, none)) ∧
    (∀ (v : String) (n : Int), ParseInt64 v = some n →
      c.Fetch ops (respond (some (.obj [("radio_table", .arr [.obj [("scan_table", .arr [.obj [("noise", .num v)]])]])]))) ap =
        (some
          { AccessPointInfo.zero ops with
            Name := ap.Name, Value := ops.ofInt64 1,
            RadioTable :=
              [{ APRadio.zero with ScanTable := [{ APScan.zero with Noise := n }] }] }, none)) ∧
    (∀ (v : String) (n : Int), ParseInt64 v = some n →
      c.Fetch ops (respond (some (.obj [("radio_table", .arr [.obj [("scan_table", .arr [.obj [("signal", .num v)]])]])]))) ap =
        (some
          { AccessPointInfo.zero ops with
            Name := ap.Name, Value := ops.ofInt64 1,
            RadioTable :=
              [{ APRadio.zero with ScanTable := [{ APScan.zero with Signal := n }] }] }, none)) ∧
    (∀ (v : String) (n : Int), ParseInt64 v = some n →
      c.Fetch ops (respond (some (.obj [("vap_table", .arr [.obj [("rx_bytes", .num v)]])]))) ap =
        (some
          { AccessPointInfo.zero ops with
            Name := ap.Name, Value := ops.ofInt64 1,
            VAPTable := [{ APVap.zero with RxBytes := n }] }, none)) ∧
    (∀ (v : String) (n : Int), ParseInt64 v = some n →
      c.Fetch ops (respond (some (.obj [("vap_table", .arr [.obj [("rx_dropped", .num v)]])]))) ap =
        (some
          { AccessPointInfo.zero ops with
            Name := ap.Name, Value := ops.ofInt64 1,
            VAPTable := [{ APVap.zero with RxDropped := n }] }, none)) ∧
    (∀ (v : String) (n : Int), ParseInt64 v = some n →
      c.Fetch ops (respond (some (.obj [("vap_table", .arr [.obj [("rx_errors", .num v)]])]))) ap =
        (some
          { AccessPointInfo.zero ops with
            Name := ap.Name, Value := ops.ofInt64 1,
            VAPTable := [{ APVap.zero with RxErrors := n }] }, none)) ∧
    (∀ (v : String) (n : Int), ParseInt64 v = some n →
      c.Fetch ops (respond (some (.obj [("vap_table", .arr [.obj [("tx_bytes", .num v)]])]))) ap =
        (some
          { AccessPointInfo.zero ops with
            Name := ap.Name, Value := ops.ofInt64 1,
            VAPTable := [{ APVap.zero with TxBytes := n }] }, none)) ∧
    (∀ (v : String) (n : Int), ParseInt64 v = some n →
      c.Fetch ops (respond (some (.obj [("vap_table", .arr [.obj [("tx_dropped", .num v)]])]))) ap =
        (some
          { AccessPointInfo.zero ops with
            Name := ap.Name, Value := ops.ofInt64 1,
            VAPTable := [{ APVap.zero with TxDropped := n }] }, none)) ∧
    (∀ (v : String) (n : Int), ParseInt64 v = some n →
      c.Fetch ops (respond (some (.obj [("vap_table", .arr [.obj [("tx_errors", .num v)]])]))) ap =
        (some
          { AccessPointInfo.zero ops with
            Name := ap.Name, Value := ops.ofInt64 1,
            VAPTable := [{ APVap.zero with TxErrors := n }] }, none)) ∧
    (∀ (v : String) (n : Int), ParseInt64 v = some n →
      c.Fetch ops (respond (some (.obj [("vap_table", .arr [.obj [("tx_power", .num v)]])]))) ap =
        (some
          { AccessPointInfo.zero ops with
            Name := ap.Name, Value := ops.ofInt64 1,
            VAPTable := [{ APVap.zero with TxPower := n }] }, none)) ∧
    (∀ (v : String) (n : Int), ParseInt64 v = some n →
      c.Fetch ops (respond (some (.obj [("vap_table", .arr [.obj [("tx_retries", .num v)]])]))) ap =
        (some
          { AccessPointInfo.zero ops with
            Name := ap.Name, Value := ops.ofInt64 1,
            VAPTable := [{ APVap.zero with TxRetries := n }] }, none)) ∧
    (∀ (v : String) (n : Int), ParseInt64 v = some n →
      c.Fetch ops (respond (some (.obj [("vap_table", .arr [.obj [("tx_success", .num v)]])]))) ap =
        (some
          { AccessPointInfo.zero ops with
            Name := ap.Name, Value := ops.ofInt64 1,
            VAPTable := [{ APVap.zero with TxSuccess := n }] }, none)) ∧
    (∀ (v : String) (n : Int), ParseInt64 v = some n →
      c.Fetch ops (respond (some (.obj [("vap_table", .arr [.obj [("tx_total", .num v)]])]))) ap =
        (some
          { AccessPointInfo.zero ops with
            Name := ap.Name, Value := ops.ofInt64 1,
            VAPTable := [{ APVap.zero with TxTotal := n }] }, none)) ∧
    (∀ (v : String) (n : Int), ParseInt64 v = some n →
      c.Fetch ops (respond (some (.obj [("vap_table", .arr [.obj [("channel", .num v)]])]))) ap =
        (some
          { AccessPointInfo.zero ops with
            Name := ap.Name, Value := ops.ofInt64 1,
            VAPTable := [{ APVap.zero with Channel := n }] }, none)) ∧
    (∀ (v : String) (n : Int), ParseInt64 v = some n →
      c.Fetch ops (respond (some (.obj [("vap_table", .arr [.obj [("sta_table", .arr [.obj [("tx_bytes", .num v)]])]])]))) ap =
        (some
          { AccessPointInfo.zero ops with
            Name := ap.Name, Value := ops.ofInt64 1,
            VAPTable :=
              [{ APVap.zero with StationTable := [{ APStation.zero with TxBytes := n }] }] }, none)) ∧
    (∀ (v : String) (n : Int), ParseInt64 v = some n →
      c.Fetch ops (respond (some (.obj [("vap_table", .arr [.obj [("sta_table", .arr [.obj [("rx_bytes", .num v)]])]])]))) ap =
        (some
          { AccessPointInfo.zero ops with
            Name := ap.Name, Value := ops.ofInt64 1,
            VAPTable :=
              [{ APVap.zero with StationTable := [{ APStation.zero with RxBytes := n }] }] }, none)) ∧
    (∀ (v : String) (n : Int), ParseInt64 v = some n →
      c.Fetch ops (respond (some (.obj [("vap_table", .arr [.obj [("sta_table", .arr [.obj [("noise", .num v)]])]])]))) ap =
        (some
          { AccessPointInfo.zero ops with
            Name := ap.Name, Value := ops.ofInt64 1,
            VAPTable :=
              [{ APVap.zero with StationTable := [{ APStation.zero with Noise := n }] }] }, none)) ∧
    (∀ (v : String) (n : Int), ParseInt64 v = some n →
      c.Fetch ops (respond (some (.obj [("vap_table", .arr [.obj [("sta_table", .arr [.obj [("signal", .num v)]])]])]))) ap =
        (some
          { AccessPointInfo.zero ops with
            Name := ap.Name, Value := ops.ofInt64 1,
            VAPTable :=
              [{ APVap.zero with StationTable := [{ APStation.zero with Signal := n }] }] }, none)) := by
  refine ⟨?_, storeQuotedFloat64_str ops, fun _ _ => rfl, ?_, ?_, ?_, ?_, ?_, ?_, ?_, ?_, ?_, ?_, ?_, ?_, ?_, ?_, ?_, ?_, ?_, ?_, ?_, ?_, ?_, ?_, ?_, ?_, ?_, ?_, ?_, ?_, ?_, ?_, ?_, ?_, ?_, ?_, ?_, ?_, ?_, ?_, ?_, ?_, ?_, ?_, ?_, ?_, ?_, ?_, ?_, ?_, ?_, ?_, ?_, ?_, ?_, ?_, ?_, ?_, ?_, ?_, ?_, ?_, ?_, ?_, ?_, ?_, ?_, ?_⟩
  · intro remote members hout h
    exact Fetch_fails_of_decode ops c remote ap members hout fun cur =>
      accessPointInfo_decode_fails ops _ _ (storeQuotedFloat64_num ops) storeInt64_str
        members cur h
  · intro pre post cur v n h
    unfold AccessPointInfoMem.decode
    rw [decodeObject_insert _ _ _ 7 (by decide)]
    simp [AccessPointInfoMem.set, storeInt64, h]
  · intro pre post cur v x h
    unfold APSystemStats.decode
    rw [decodeObject_insert _ _ _ 0 (by decide)]
    simp [APSystemStats.set, storeQuotedFloat64, literalStoreQuotedFloat64, h]
  · intro pre post cur v x h
    unfold APSystemStats.decode
    rw [decodeObject_insert _ _ _ 1 (by decide)]
    simp [APSystemStats.set, storeQuotedFloat64, literalStoreQuotedFloat64, h]
  · intro pre post cur v x h
    unfold APSysStats.decode
    rw [decodeObject_insert _ _ _ 0 (by decide)]
    simp [APSysStats.set, storeQuotedFloat64, literalStoreQuotedFloat64, h]
  · intro pre post cur v x h
    unfold APSysStats.decode
    rw [decodeObject_insert _ _ _ 1 (by decide)]
    simp [APSysStats.set, storeQuotedFloat64, literalStoreQuotedFloat64, h]
  · intro pre post cur v x h
    unfold APSysStats.decode
    rw [decodeObject_insert _ _ _ 2 (by decide)]
    simp [APSysStats.set, storeQuotedFloat64, literalStoreQuotedFloat64, h]
  · intro pre post cur v n h
    unfold APSysStats.decode
    rw [decodeObject_insert _ _ _ 3 (by decide)]
    simp [APSysStats.set, storeInt64, h]
  · intro pre post cur v n h
    unfold APSysStats.decode
    rw [decodeObject_insert _ _ _ 4 (by decide)]
    simp [APSysStats.set, storeInt64, h]
  · intro pre post cur v n h
    unfold APSysStats.decode
    rw [decodeObject_insert _ _ _ 5 (by decide)]
    simp [APSysStats.set, storeInt64, h]
  · intro pre post cur v n h
    unfold APInterface.decode
    rw [decodeObject_insert _ _ _ 0 (by decide)]
    simp [APInterface.set, storeInt64, h]
  · intro pre post cur v n h
    unfold APInterface.decode
    rw [decodeObject_insert _ _ _ 1 (by decide)]
    simp [APInterface.set, storeInt64, h]
  · intro pre post cur v n h
    unfold APRadioMem.decode
    rw [decodeObject_insert _ _ _ 2 (by decide)]
    simp [APRadioMem.set, storeInt64, h]
  · intro pre post cur v n h
    unfold APRadioMem.decode
    rw [decodeObject_insert _ _ _ 3 (by decide)]
    simp [APRadioMem.set, storeInt64, h]
  · intro pre post cur v n h
    unfold APRadioMem.decode
    rw [decodeObject_insert _ _ _ 4 (by decide)]
    simp [APRadioMem.set, storeInt64, h]
  · intro pre post cur v n h
    unfold APScan.decode
    rw [decodeObject_insert _ _ _ 1 (by decide)]
    simp [APScan.set, storeInt64, h]
  · intro pre post cur v n h
    unfold APScan.decode
    rw [decodeObject_insert _ _ _ 3 (by decide)]
    simp [APScan.set, storeInt64, h]
  · intro pre post cur v n h
    unfold APScan.decode
    rw [decodeObject_insert _ _ _ 4 (by decide)]
    simp [APScan.set, storeInt64, h]
  · intro pre post cur v n h
    unfold APScan.decode
    rw [decodeObject_insert _ _ _ 6 (by decide)]
    simp [APScan.set, storeInt64, h]
  · intro pre post cur v n h
    unfold APVapMem.decode
    rw [decodeObject_insert _ _ _ 3 (by decide)]
    simp [APVapMem.set, storeInt64, h]
  · intro pre post cur v n h
    unfold APVapMem.decode
    rw [decodeObject_insert _ _ _ 4 (by decide)]
    simp [APVapMem.set, storeInt64, h]
  · intro pre post cur v n h
    unfold APVapMem.decode
    rw [decodeObject_insert _ _ _ 5 (by decide)]
    simp [APVapMem.set, storeInt64, h]
  · intro pre post cur v n h
    unfold APVapMem.decode
    rw [decodeObject_insert _ _ _ 6 (by decide)]
    simp [APVapMem.set, storeInt64, h]
  · intro pre post cur v n h
    unfold APVapMem.decode
    rw [decodeObject_insert _ _ _ 7 (by decide)]
    simp [APVapMem.set, storeInt64, h]
  · intro pre post cur v n h
    unfold APVapMem.decode
    rw [decodeObject_insert _ _ _ 8 (by decide)]
    simp [APVapMem.set, storeInt64, h]
  · intro pre post cur v n h
    unfold APVapMem.decode
    rw [decodeObject_insert _ _ _ 9 (by decide)]
    simp [APVapMem.set, storeInt64, h]
  · intro pre post cur v n h
    unfold APVapMem.decode
    rw [decodeObject_insert _ _ _ 10 (by decide)]
    simp [APVapMem.set, storeInt64, h]
  · intro pre post cur v n h
    unfold APVapMem.decode
    rw [decodeObject_insert _ _ _ 11 (by decide)]
    simp [APVapMem.set, storeInt64, h]
  · intro pre post cur v n h
    unfold APVapMem.decode
    rw [decodeObject_insert _ _ _ 12 (by decide)]
    simp [APVapMem.set, storeInt64, h]
  · intro pre post cur v n h
    unfold APVapMem.decode
    rw [decodeObject_insert _ _ _ 13 (by decide)]
    simp [APVapMem.set, storeInt64, h]
  · intro pre post cur v n h
    unfold APStation.decode
    rw [decodeObject_insert _ _ _ 2 (by decide)]
    simp [APStation.set, storeInt64, h]
  · intro pre post cur v n h
    unfold APStation.decode
    rw [decodeObject_insert _ _ _ 3 (by decide)]
    simp [APStation.set, storeInt64, h]
  · intro pre post cur v n h
    unfold APStation.decode
    rw [decodeObject_insert _ _ _ 4 (by decide)]
    simp [APStation.set, storeInt64, h]
  · intro pre post cur v n h
    unfold APStation.decode
    rw [decodeObject_insert _ _ _ 5 (by decide)]
    simp [APStation.set, storeInt64, h]
  · intro v n h
    simp [Collector.Fetch, respond, Unmarshal, AccessPointInfoMem.decode, decodeObject,
      findField_top, findField_nested, AccessPointInfoMem.set, storeStruct, storeSlice, decodeArray, storeInt64,
      storeQuotedFloat64, literalStoreQuotedFloat64, h, APSystemStats.decode,
      APSysStats.decode, APInterface.decode, APRadioMem.decode, APScan.decode, APVapMem.decode,
      APStation.decode, APSystemStats.set, APSysStats.set, APInterface.set, APRadioMem.set,
      APScan.set, APVapMem.set, APStation.set, findField_top_uptime, AccessPointInfoMem.view,
      AccessPointInfoMem.zero, AccessPointInfo.zero, APRadioMem.view, APVapMem.view,
      APRadioMem.zero, APVapMem.zero, APRadio.zero, APVap.zero, APSystemStats.zero,
      APSysStats.zero, APInterface.zero, APScan.zero, APStation.zero]
  · intro v x h
    simp [Collector.Fetch, respond, Unmarshal, AccessPointInfoMem.decode, decodeObject,
      findField_top, findField_nested, AccessPointInfoMem.set, storeStruct, storeSlice, decodeArray, storeInt64,
      storeQuotedFloat64, literalStoreQuotedFloat64, h, APSystemStats.decode,
      APSysStats.decode, APInterface.decode, APRadioMem.decode, APScan.decode, APVapMem.decode,
      APStation.decode, APSystemStats.set, APSysStats.set, APInterface.set, APRadioMem.set,
      APScan.set, APVapMem.set, APStation.set, findField_system_cpu, AccessPointInfoMem.view,
      AccessPointInfoMem.zero, AccessPointInfo.zero, APRadioMem.view, APVapMem.view,
      APRadioMem.zero, APVapMem.zero, APRadio.zero, APVap.zero, APSystemStats.zero,
      APSysStats.zero, APInterface.zero, APScan.zero, APStation.zero]
  · intro v x h
    simp [Collector.Fetch, respond, Unmarshal, AccessPointInfoMem.decode, decodeObject,
      findField_top, findField_nested, AccessPointInfoMem.set, storeStruct, storeSlice, decodeArray, storeInt64,
      storeQuotedFloat64, literalStoreQuotedFloat64, h, APSystemStats.decode,
      APSysStats.decode, APInterface.decode, APRadioMem.decode, APScan.decode, APVapMem.decode,
      APStation.decode, APSystemStats.set, APSysStats.set, APInterface.set, APRadioMem.set,
      APScan.set, APVapMem.set, APStation.set, findField_system_mem, AccessPointInfoMem.view,
      AccessPointInfoMem.zero, AccessPointInfo.zero, APRadioMem.view, APVapMem.view,
      APRadioMem.zero, APVapMem.zero, APRadio.zero, APVap.zero, APSystemStats.zero,
      APSysStats.zero, APInterface.zero, APScan.zero, APStation.zero]
  · intro v x h
    simp [Collector.Fetch, respond, Unmarshal, AccessPointInfoMem.decode, decodeObject,
      findField_top, findField_nested, AccessPointInfoMem.set, storeStruct, storeSlice, decodeArray, storeInt64,
      storeQuotedFloat64, literalStoreQuotedFloat64, h, APSystemStats.decode,
      APSysStats.decode, APInterface.decode, APRadioMem.decode, APScan.decode, APVapMem.decode,
      APStation.decode, APSystemStats.set, APSysStats.set, APInterface.set, APRadioMem.set,
      APScan.set, APVapMem.set, APStation.set, findField_sys_loadavg_1, AccessPointInfoMem.view,
      AccessPointInfoMem.zero, AccessPointInfo.zero, APRadioMem.view, APVapMem.view,
      APRadioMem.zero, APVapMem.zero, APRadio.zero, APVap.zero, APSystemStats.zero,
      APSysStats.zero, APInterface.zero, APScan.zero, APStation.zero]
  · intro v x h
    simp [Collector.Fetch, respond, Unmarshal, AccessPointInfoMem.decode, decodeObject,
      findField_top, findField_nested, AccessPointInfoMem.set, storeStruct, storeSlice, decodeArray, storeInt64,
      storeQuotedFloat64, literalStoreQuotedFloat64, h, APSystemStats.decode,
      APSysStats.decode, APInterface.decode, APRadioMem.decode, APScan.decode, APVapMem.decode,
      APStation.decode, APSystemStats.set, APSysStats.set, APInterface.set, APRadioMem.set,
      APScan.set, APVapMem.set, APStation.set, findField_sys_loadavg_5, AccessPointInfoMem.view,
      AccessPointInfoMem.zero, AccessPointInfo.zero, APRadioMem.view, APVapMem.view,
      APRadioMem.zero, APVapMem.zero, APRadio.zero, APVap.zero, APSystemStats.zero,
      APSysStats.zero, APInterface.zero, APScan.zero, APStation.zero]
  · intro v x h
    simp [Collector.Fetch, respond, Unmarshal, AccessPointInfoMem.decode, decodeObject,
      findField_top, findField_nested, AccessPointInfoMem.set, storeStruct, storeSlice, decodeArray, storeInt64,
      storeQuotedFloat64, literalStoreQuotedFloat64, h, APSystemStats.decode,
      APSysStats.decode, APInterface.decode, APRadioMem.decode, APScan.decode, APVapMem.decode,
      APStation.decode, APSystemStats.set, APSysStats.set, APInterface.set, APRadioMem.set,
      APScan.set, APVapMem.set, APStation.set, findField_sys_loadavg_15, AccessPointInfoMem.view,
      AccessPointInfoMem.zero, AccessPointInfo.zero, APRadioMem.view, APVapMem.view,
      APRadioMem.zero, APVapMem.zero, APRadio.zero, APVap.zero, APSystemStats.zero,
      APSysStats.zero, APInterface.zero, APScan.zero, APStation.zero]
  · intro v n h
    simp [Collector.Fetch, respond, Unmarshal, AccessPointInfoMem.decode, decodeObject,
      findField_top, findField_nested, AccessPointInfoMem.set, storeStruct, storeSlice, decodeArray, storeInt64,
      storeQuotedFloat64, literalStoreQuotedFloat64, h, APSystemStats.decode,
      APSysStats.decode, APInterface.decode, APRadioMem.decode, APScan.decode, APVapMem.decode,
      APStation.decode, APSystemStats.set, APSysStats.set, APInterface.set, APRadioMem.set,
      APScan.set, APVapMem.set, APStation.set, findField_sys_mem_used, AccessPointInfoMem.view,
      AccessPointInfoMem.zero, AccessPointInfo.zero, APRadioMem.view, APVapMem.view,
      APRadioMem.zero, APVapMem.zero, APRadio.zero, APVap.zero, APSystemStats.zero,
      APSysStats.zero, APInterface.zero, APScan.zero, APStation.zero]
  · intro v n h
    simp [Collector.Fetch, respond, Unmarshal, AccessPointInfoMem.decode, decodeObject,
      findField_top, findField_nested, AccessPointInfoMem.set, storeStruct, storeSlice, decodeArray, storeInt64,
      storeQuotedFloat64, literalStoreQuotedFloat64, h, APSystemStats.decode,
      APSysStats.decode, APInterface.decode, APRadioMem.decode, APScan.decode, APVapMem.decode,
      APStation.decode, APSystemStats.set, APSysStats.set, APInterface.set, APRadioMem.set,
      APScan.set, APVapMem.set, APStation.set, findField_sys_mem_total, AccessPointInfoMem.view,
      AccessPointInfoMem.zero, AccessPointInfo.zero, APRadioMem.view, APVapMem.view,
      APRadioMem.zero, APVapMem.zero, APRadio.zero, APVap.zero, APSystemStats.zero,
      APSysStats.zero, APInterface.zero, APScan.zero, APStation.zero]
  · intro v n h
    simp [Collector.Fetch, respond, Unmarshal, AccessPointInfoMem.decode, decodeObject,
      findField_top, findField_nested, AccessPointInfoMem.set, storeStruct, storeSlice, decodeArray, storeInt64,
      storeQuotedFloat64, literalStoreQuotedFloat64, h, APSystemStats.decode,
      APSysStats.decode, APInterface.decode, APRadioMem.decode, APScan.decode, APVapMem.decode,
      APStation.decode, APSystemStats.set, APSysStats.set, APInterface.set, APRadioMem.set,
      APScan.set, APVapMem.set, APStation.set, findField_sys_mem_buffer, AccessPointInfoMem.view,
      AccessPointInfoMem.zero, AccessPointInfo.zero, APRadioMem.view, APVapMem.view,
      APRadioMem.zero, APVapMem.zero, APRadio.zero, APVap.zero, APSystemStats.zero,
      APSysStats.zero, APInterface.zero, APScan.zero, APStation.zero]
  · intro v n h
    simp [Collector.Fetch, respond, Unmarshal, AccessPointInfoMem.decode, decodeObject,
      findField_top, findField_nested, AccessPointInfoMem.set, storeStruct, storeSlice, decodeArray, storeInt64,
      storeQuotedFloat64, literalStoreQuotedFloat64, h, APSystemStats.decode,
      APSysStats.decode, APInterface.decode, APRadioMem.decode, APScan.decode, APVapMem.decode,
      APStation.decode, APSystemStats.set, APSysStats.set, APInterface.set, APRadioMem.set,
      APScan.set, APVapMem.set, APStation.set, findField_if_tx_bytes, AccessPointInfoMem.view,
      AccessPointInfoMem.zero, AccessPointInfo.zero, APRadioMem.view, APVapMem.view,
      APRadioMem.zero, APVapMem.zero, APRadio.zero, APVap.zero, APSystemStats.zero,
      APSysStats.zero, APInterface.zero, APScan.zero, APStation.zero]
  · intro v n h
    simp [Collector.Fetch, respond, Unmarshal, AccessPointInfoMem.decode, decodeObject,
      findField_top, findField_nested, AccessPointInfoMem.set, storeStruct, storeSlice, decodeArray, storeInt64,
      storeQuotedFloat64, literalStoreQuotedFloat64, h, APSystemStats.decode,
      APSysStats.decode, APInterface.decode, APRadioMem.decode, APScan.decode, APVapMem.decode,
      APStation.decode, APSystemStats.set, APSysStats.set, APInterface.set, APRadioMem.set,
      APScan.set, APVapMem.set, APStation.set, findField_if_rx_bytes, AccessPointInfoMem.view,
      AccessPointInfoMem.zero, AccessPointInfo.zero, APRadioMem.view, APVapMem.view,
      APRadioMem.zero, APVapMem.zero, APRadio.zero, APVap.zero, APSystemStats.zero,
      APSysStats.zero, APInterface.zero, APScan.zero, APStation.zero]
  · intro v n h
    simp [Collector.Fetch, respond, Unmarshal, AccessPointInfoMem.decode, decodeObject,
      findField_top, findField_nested, AccessPointInfoMem.set, storeStruct, storeSlice, decodeArray, storeInt64,
      storeQuotedFloat64, literalStoreQuotedFloat64, h, APSystemStats.decode,
      APSysStats.decode, APInterface.decode, APRadioMem.decode, APScan.decode, APVapMem.decode,
      APStation.decode, APSystemStats.set, APSysStats.set, APInterface.set, APRadioMem.set,
      APScan.set, APVapMem.set, APStation.set, findField_radio_builtin_ant_gain, AccessPointInfoMem.view,
      AccessPointInfoMem.zero, AccessPointInfo.zero, APRadioMem.view, APVapMem.view,
      APRadioMem.zero, APVapMem.zero, APRadio.zero, APVap.zero, APSystemStats.zero,
      APSysStats.zero, APInterface.zero, APScan.zero, APStation.zero]
  · intro v n h
    simp [Collector.Fetch, respond, Unmarshal, AccessPointInfoMem.decode, decodeObject,
      findField_top, findField_nested, AccessPointInfoMem.set, storeStruct, storeSlice, decodeArray, storeInt64,
      storeQuotedFloat64, literalStoreQuotedFloat64, h, APSystemStats.decode,
      APSysStats.decode, APInterface.decode, APRadioMem.decode, APScan.decode, APVapMem.decode,
      APStation.decode, APSystemStats.set, APSysStats.set, APInterface.set, APRadioMem.set,
      APScan.set, APVapMem.set, APStation.set, findField_radio_max_txpower, AccessPointInfoMem.view,
      AccessPointInfoMem.zero, AccessPointInfo.zero, APRadioMem.view, APVapMem.view,
      APRadioMem.zero, APVapMem.zero, APRadio.zero, APVap.zero, APSystemStats.zero,
      APSysStats.zero, APInterface.zero, APScan.zero, APStation.zero]
  · intro v n h
    simp [Collector.Fetch, respond, Unmarshal, AccessPointInfoMem.decode, decodeObject,
      findField_top, findField_nested, AccessPointInfoMem.set, storeStruct, storeSlice, decodeArray, storeInt64,
      storeQuotedFloat64, literalStoreQuotedFloat64, h, APSystemStats.decode,
      APSysStats.decode, APInterface.decode, APRadioMem.decode, APScan.decode, APVapMem.decode,
      APStation.decode, APSystemStats.set, APSysStats.set, APInterface.set, APRadioMem.set,
      APScan.set, APVapMem.set, APStation.set, findField_radio_min_txpower, AccessPointInfoMem.view,
      AccessPointInfoMem.zero, AccessPointInfo.zero, APRadioMem.view, APVapMem.view,
      APRadioMem.zero, APVapMem.zero, APRadio.zero, APVap.zero, APSystemStats.zero,
      APSysStats.zero, APInterface.zero, APScan.zero, APStation.zero]
  · intro v n h
    simp [Collector.Fetch, respond, Unmarshal, AccessPointInfoMem.decode, decodeObject,
      findField_top, findField_nested, AccessPointInfoMem.set, storeStruct, storeSlice, decodeArray, storeInt64,
      storeQuotedFloat64, literalStoreQuotedFloat64, h, APSystemStats.decode,
      APSysStats.decode, APInterface.decode, APRadioMem.decode, APScan.decode, APVapMem.decode,
      APStation.decode, APSystemStats.set, APSysStats.set, APInterface.set, APRadioMem.set,
      APScan.set, APVapMem.set, APStation.set, findField_scan_channel, AccessPointInfoMem.view,
      AccessPointInfoMem.zero, AccessPointInfo.zero, APRadioMem.view, APVapMem.view,
      APRadioMem.zero, APVapMem.zero, APRadio.zero, APVap.zero, APSystemStats.zero,
      APSysStats.zero, APInterface.zero, APScan.zero, APStation.zero]
  · intro v n h
    simp [Collector.Fetch, respond, Unmarshal, AccessPointInfoMem.decode, decodeObject,
      findField_top, findField_nested, AccessPointInfoMem.set, storeStruct, storeSlice, decodeArray, storeInt64,
      storeQuotedFloat64, literalStoreQuotedFloat64, h, APSystemStats.decode,
      APSysStats.decode, APInterface.decode, APRadioMem.decode, APScan.decode, APVapMem.decode,
      APStation.decode, APSystemStats.set, APSysStats.set, APInterface.set, APRadioMem.set,
      APScan.set, APVapMem.set, APStation.set, findField_scan_freq, AccessPointInfoMem.view,
      AccessPointInfoMem.zero, AccessPointInfo.zero, APRadioMem.view, APVapMem.view,
      APRadioMem.zero, APVapMem.zero, APRadio.zero, APVap.zero, APSystemStats.zero,
      APSysStats.zero, APInterface.zero, APScan.zero, APStation.zero]
  · intro v n h
    simp [Collector.Fetch, respond, Unmarshal, AccessPointInfoMem.decode, decodeObject,
      findField_top, findField_nested, AccessPointInfoMem.set, storeStruct, storeSlice, decodeArray, storeInt64,
      storeQuotedFloat64, literalStoreQuotedFloat64, h, APSystemStats.decode,
      APSysStats.decode, APInterface.decode, APRadioMem.decode, APScan.decode, APVapMem.decode,
      APStation.decode, APSystemStats.set, APSysStats.set, APInterface.set, APRadioMem.set,
      APScan.set, APVapMem.set, APStation.set, findField_scan_noise, AccessPointInfoMem.view,
      AccessPointInfoMem.zero, AccessPointInfo.zero, APRadioMem.view, APVapMem.view,
      APRadioMem.zero, APVapMem.zero, APRadio.zero, APVap.zero, APSystemStats.zero,
      APSysStats.zero, APInterface.zero, APScan.zero, APStation.zero]
  · intro v n h
    simp [Collector.Fetch, respond, Unmarshal, AccessPointInfoMem.decode, decodeObject,
      findField_top, findField_nested, AccessPointInfoMem.set, storeStruct, storeSlice, decodeArray, storeInt64,
      storeQuotedFloat64, literalStoreQuotedFloat64, h, APSystemStats.decode,
      APSysStats.decode, APInterface.decode, APRadioMem.decode, APScan.decode, APVapMem.decode,
      APStation.decode, APSystemStats.set, APSysStats.set, APInterface.set, APRadioMem.set,
      APScan.set, APVapMem.set, APStation.set, findField_scan_signal, AccessPointInfoMem.view,
      AccessPointInfoMem.zero, AccessPointInfo.zero, APRadioMem.view, APVapMem.view,
      APRadioMem.zero, APVapMem.zero, APRadio.zero, APVap.zero, APSystemStats.zero,
      APSysStats.zero, APInterface.zero, APScan.zero, APStation.zero]
  · intro v n h
    simp [Collector.Fetch, respond, Unmarshal, AccessPointInfoMem.decode, decodeObject,
      findField_top, findField_nested, AccessPointInfoMem.set, storeStruct, storeSlice, decodeArray, storeInt64,
      storeQuotedFloat64, literalStoreQuotedFloat64, h, APSystemStats.decode,
      APSysStats.decode, APInterface.decode, APRadioMem.decode, APScan.decode, APVapMem.decode,
      APStation.decode, APSystemStats.set, APSysStats.set, APInterface.set, APRadioMem.set,
      APScan.set, APVapMem.set, APStation.set, findField_vap_rx_bytes, AccessPointInfoMem.view,
      AccessPointInfoMem.zero, AccessPointInfo.zero, APRadioMem.view, APVapMem.view,
      APRadioMem.zero, APVapMem.zero, APRadio.zero, APVap.zero, APSystemStats.zero,
      APSysStats.zero, APInterface.zero, APScan.zero, APStation.zero]
  · intro v n h
    simp [Collector.Fetch, respond, Unmarshal, AccessPointInfoMem.decode, decodeObject,
      findField_top, findField_nested, AccessPointInfoMem.set, storeStruct, storeSlice, decodeArray, storeInt64,
      storeQuotedFloat64, literalStoreQuotedFloat64, h, APSystemStats.decode,
      APSysStats.decode, APInterface.decode, APRadioMem.decode, APScan.decode, APVapMem.decode,
      APStation.decode, APSystemStats.set, APSysStats.set, APInterface.set, APRadioMem.set,
      APScan.set, APVapMem.set, APStation.set, findField_vap_rx_dropped, AccessPointInfoMem.view,
      AccessPointInfoMem.zero, AccessPointInfo.zero, APRadioMem.view, APVapMem.view,
      APRadioMem.zero, APVapMem.zero, APRadio.zero, APVap.zero, APSystemStats.zero,
      APSysStats.zero, APInterface.zero, APScan.zero, APStation.zero]
  · intro v n h
    simp [Collector.Fetch, respond, Unmarshal, AccessPointInfoMem.decode, decodeObject,
      findField_top, findField_nested, AccessPointInfoMem.set, storeStruct, storeSlice, decodeArray, storeInt64,
      storeQuotedFloat64, literalStoreQuotedFloat64, h, APSystemStats.decode,
      APSysStats.decode, APInterface.decode, APRadioMem.decode, APScan.decode, APVapMem.decode,
      APStation.decode, APSystemStats.set, APSysStats.set, APInterface.set, APRadioMem.set,
      APScan.set, APVapMem.set, APStation.set, findField_vap_rx_errors, AccessPointInfoMem.view,
      AccessPointInfoMem.zero, AccessPointInfo.zero, APRadioMem.view, APVapMem.view,
      APRadioMem.zero, APVapMem.zero, APRadio.zero, APVap.zero, APSystemStats.zero,
      APSysStats.zero, APInterface.zero, APScan.zero, APStation.zero]
  · intro v n h
    simp [Collector.Fetch, respond, Unmarshal, AccessPointInfoMem.decode, decodeObject,
      findField_top, findField_nested, AccessPointInfoMem.set, storeStruct, storeSlice, decodeArray, storeInt64,
      storeQuotedFloat64, literalStoreQuotedFloat64, h, APSystemStats.decode,
      APSysStats.decode, APInterface.decode, APRadioMem.decode, APScan.decode, APVapMem.decode,
      APStation.decode, APSystemStats.set, APSysStats.set, APInterface.set, APRadioMem.set,
      APScan.set, APVapMem.set, APStation.set, findField_vap_tx_bytes, AccessPointInfoMem.view,
      AccessPointInfoMem.zero, AccessPointInfo.zero, APRadioMem.view, APVapMem.view,
      APRadioMem.zero, APVapMem.zero, APRadio.zero, APVap.zero, APSystemStats.zero,
      APSysStats.zero, APInterface.zero, APScan.zero, APStation.zero]
  · intro v n h
    simp [Collector.Fetch, respond, Unmarshal, AccessPointInfoMem.decode, decodeObject,
      findField_top, findField_nested, AccessPointInfoMem.set, storeStruct, storeSlice, decodeArray, storeInt64,
      storeQuotedFloat64, literalStoreQuotedFloat64, h, APSystemStats.decode,
      APSysStats.decode, APInterface.decode, APRadioMem.decode, APScan.decode, APVapMem.decode,
      APStation.decode, APSystemStats.set, APSysStats.set, APInterface.set, APRadioMem.set,
      APScan.set, APVapMem.set, APStation.set, findField_vap_tx_dropped, AccessPointInfoMem.view,
      AccessPointInfoMem.zero, AccessPointInfo.zero, APRadioMem.view, APVapMem.view,
      APRadioMem.zero, APVapMem.zero, APRadio.zero, APVap.zero, APSystemStats.zero,
      APSysStats.zero, APInterface.zero, APScan.zero, APStation.zero]
  · intro v n h
    simp [Collector.Fetch, respond, Unmarshal, AccessPointInfoMem.decode, decodeObject,
      findField_top, findField_nested, AccessPointInfoMem.set, storeStruct, storeSlice, decodeArray, storeInt64,
      storeQuotedFloat64, literalStoreQuotedFloat64, h, APSystemStats.decode,
      APSysStats.decode, APInterface.decode, APRadioMem.decode, APScan.decode, APVapMem.decode,
      APStation.decode, APSystemStats.set, APSysStats.set, APInterface.set, APRadioMem.set,
      APScan.set, APVapMem.set, APStation.set, findField_vap_tx_errors, AccessPointInfoMem.view,
      AccessPointInfoMem.zero, AccessPointInfo.zero, APRadioMem.view, APVapMem.view,
      APRadioMem.zero, APVapMem.zero, APRadio.zero, APVap.zero, APSystemStats.zero,
      APSysStats.zero, APInterface.zero, APScan.zero, APStation.zero]
  · intro v n h
    simp [Collector.Fetch, respond, Unmarshal, AccessPointInfoMem.decode, decodeObject,
      findField_top, findField_nested, AccessPointInfoMem.set, storeStruct, storeSlice, decodeArray, storeInt64,
      storeQuotedFloat64, literalStoreQuotedFloat64, h, APSystemStats.decode,
      APSysStats.decode, APInterface.decode, APRadioMem.decode, APScan.decode, APVapMem.decode,
      APStation.decode, APSystemStats.set, APSysStats.set, APInterface.set, APRadioMem.set,
      APScan.set, APVapMem.set, APStation.set, findField_vap_tx_power, AccessPointInfoMem.view,
      AccessPointInfoMem.zero, AccessPointInfo.zero, APRadioMem.view, APVapMem.view,
      APRadioMem.zero, APVapMem.zero, APRadio.zero, APVap.zero, APSystemStats.zero,
      APSysStats.zero, APInterface.zero, APScan.zero, APStation.zero]
  · intro v n h
    simp [Collector.Fetch, respond, Unmarshal, AccessPointInfoMem.decode, decodeObject,
      findField_top, findField_nested, AccessPointInfoMem.set, storeStruct, storeSlice, decodeArray, storeInt64,
      storeQuotedFloat64, literalStoreQuotedFloat64, h, APSystemStats.decode,
      APSysStats.decode, APInterface.decode, APRadioMem.decode, APScan.decode, APVapMem.decode,
      APStation.decode, APSystemStats.set, APSysStats.set, APInterface.set, APRadioMem.set,
      APScan.set, APVapMem.set, APStation.set, findField_vap_tx_retries, AccessPointInfoMem.view,
      AccessPointInfoMem.zero, AccessPointInfo.zero, APRadioMem.view, APVapMem.view,
      APRadioMem.zero, APVapMem.zero, APRadio.zero, APVap.zero, APSystemStats.zero,
      APSysStats.zero, APInterface.zero, APScan.zero, APStation.zero]
  · intro v n h
    simp [Collector.Fetch, respond, Unmarshal, AccessPointInfoMem.decode, decodeObject,
      findField_top, findField_nested, AccessPointInfoMem.set, storeStruct, storeSlice, decodeArray, storeInt64,
      storeQuotedFloat64, literalStoreQuotedFloat64, h, APSystemStats.decode,
      APSysStats.decode, APInterface.decode, APRadioMem.decode, APScan.decode, APVapMem.decode,
      APStation.decode, APSystemStats.set, APSysStats.set, APInterface.set, APRadioMem.set,
      APScan.set, APVapMem.set, APStation.set, findField_vap_tx_success, AccessPointInfoMem.view,
      AccessPointInfoMem.zero, AccessPointInfo.zero, APRadioMem.view, APVapMem.view,
      APRadioMem.zero, APVapMem.zero, APRadio.zero, APVap.zero, APSystemStats.zero,
      APSysStats.zero, APInterface.zero, APScan.zero, APStation.zero]
  · intro v n h
    simp [Collector.Fetch, respond, Unmarshal, AccessPointInfoMem.decode, decodeObject,
      findField_top, findField_nested, AccessPointInfoMem.set, storeStruct, storeSlice, decodeArray, storeInt64,
      storeQuotedFloat64, literalStoreQuotedFloat64, h, APSystemStats.decode,
      APSysStats.decode, APInterface.decode, APRadioMem.decode, APScan.decode, APVapMem.decode,
      APStation.decode, APSystemStats.set, APSysStats.set, APInterface.set, APRadioMem.set,
      APScan.set, APVapMem.set, APStation.set, findField_vap_tx_total, AccessPointInfoMem.view,
      AccessPointInfoMem.zero, AccessPointInfo.zero, APRadioMem.view, APVapMem.view,
      APRadioMem.zero, APVapMem.zero, APRadio.zero, APVap.zero, APSystemStats.zero,
      APSysStats.zero, APInterface.zero, APScan.zero, APStation.zero]
  · intro v n h
    simp [Collector.Fetch, respond, Unmarshal, AccessPointInfoMem.decode, decodeObject,
      findField_top, findField_nested, AccessPointInfoMem.set, storeStruct, storeSlice, decodeArray, storeInt64,
      storeQuotedFloat64, literalStoreQuotedFloat64, h, APSystemStats.decode,
      APSysStats.decode, APInterface.decode, APRadioMem.decode, APScan.decode, APVapMem.decode,
      APStation.decode, APSystemStats.set, APSysStats.set, APInterface.set, APRadioMem.set,
      APScan.set, APVapMem.set, APStation.set, findField_vap_channel, AccessPointInfoMem.view,
      AccessPointInfoMem.zero, AccessPointInfo.zero, APRadioMem.view, APVapMem.view,
      APRadioMem.zero, APVapMem.zero, APRadio.zero, APVap.zero, APSystemStats.zero,
      APSysStats.zero, APInterface.zero, APScan.zero, APStation.zero]
  · intro v n h
    simp [Collector.Fetch, respond, Unmarshal, AccessPointInfoMem.decode, decodeObject,
      findField_top, findField_nested, AccessPointInfoMem.set, storeStruct, storeSlice, decodeArray, storeInt64,
      storeQuotedFloat64, literalStoreQuotedFloat64, h, APSystemStats.decode,
      APSysStats.decode, APInterface.decode, APRadioMem.decode, APScan.decode, APVapMem.decode,
      APStation.decode, APSystemStats.set, APSysStats.set, APInterface.set, APRadioMem.set,
      APScan.set, APVapMem.set, APStation.set, findField_sta_tx_bytes, AccessPointInfoMem.view,
      AccessPointInfoMem.zero, AccessPointInfo.zero, APRadioMem.view, APVapMem.view,
      APRadioMem.zero, APVapMem.zero, APRadio.zero, APVap.zero, APSystemStats.zero,
      APSysStats.zero, APInterface.zero, APScan.zero, APStation.zero]
  · intro v n h
    simp [Collector.Fetch, respond, Unmarshal, AccessPointInfoMem.decode, decodeObject,
      findField_top, findField_nested, AccessPointInfoMem.set, storeStruct, storeSlice, decodeArray, storeInt64,
      storeQuotedFloat64, literalStoreQuotedFloat64, h, APSystemStats.decode,
      APSysStats.decode, APInterface.decode, APRadioMem.decode, APScan.decode, APVapMem.decode,
      APStation.decode, APSystemStats.set, APSysStats.set, APInterface.set, APRadioMem.set,
      APScan.set, APVapMem.set, APStation.set, findField_sta_rx_bytes, AccessPointInfoMem.view,
      AccessPointInfoMem.zero, AccessPointInfo.zero, APRadioMem.view, APVapMem.view,
      APRadioMem.zero, APVapMem.zero, APRadio.zero, APVap.zero, APSystemStats.zero,
      APSysStats.zero, APInterface.zero, APScan.zero, APStation.zero]
  · intro v n h
    simp [Collector.Fetch, respond, Unmarshal, AccessPointInfoMem.decode, decodeObject,
      findField_top, findField_nested, AccessPointInfoMem.set, storeStruct, storeSlice, decodeArray, storeInt64,
      storeQuotedFloat64, literalStoreQuotedFloat64, h, APSystemStats.decode,
      APSysStats.decode, APInterface.decode, APRadioMem.decode, APScan.decode, APVapMem.decode,
      APStation.decode, APSystemStats.set, APSysStats.set, APInterface.set, APRadioMem.set,
      APScan.set, APVapMem.set, APStation.set, findField_sta_noise, AccessPointInfoMem.view,
      AccessPointInfoMem.zero, AccessPointInfo.zero, APRadioMem.view, APVapMem.view,
      APRadioMem.zero, APVapMem.zero, APRadio.zero, APVap.zero, APSystemStats.zero,
      APSysStats.zero, APInterface.zero, APScan.zero, APStation.zero]
  · intro v n h
    simp [Collector.Fetch, respond, Unmarshal, AccessPointInfoMem.decode, decodeObject,
      findField_top, findField_nested, AccessPointInfoMem.set, storeStruct, storeSlice, decodeArray, storeInt64,
      storeQuotedFloat64, literalStoreQuotedFloat64, h, APSystemStats.decode,
      APSysStats.decode, APInterface.decode, APRadioMem.decode, APScan.decode, APVapMem.decode,
      APStation.decode, APSystemStats.set, APSysStats.set, APInterface.set, APRadioMem.set,
      APScan.set, APVapMem.set, APStation.set, findField_sta_signal, AccessPointInfoMem.view,
      AccessPointInfoMem.zero, AccessPointInfo.zero, APRadioMem.view, APVapMem.view,
      APRadioMem.zero, APVapMem.zero, APRadio.zero, APVap.zero, APSystemStats.zero,
      APSysStats.zero, APInterface.zero, APScan.zero, APStation.zero]

/-- C5, counterexample: cpu written as the string "12" decodes and written as the
number 12 is an error; uptime written as the number 5 decodes and written as
the string "5" is an error. -/
theorem Collector.Fetch_encodings_differ :
    (∃ r : AccessPointInfo Int,
      sampleCollector.Fetch sampleOps
        (respond (some (.obj [("system-stats", .obj [("cpu", .str "12")])]))) sampleA =
        (some r, none) ∧ r.SystemStats.CPU = 12) ∧
    sampleCollector.Fetch sampleOps
      (respond (some (.obj [("system-stats", .obj [("cpu", .num "12")])]))) sampleA =
      (none, some .unmarshal) ∧
    (∃ r : AccessPointInfo Int,
      sampleCollector.Fetch sampleOps (respond (some (.obj [("uptime", .num "5")]))) sampleA =
        (some r, none) ∧ r.Uptime = 5) ∧
    sampleCollector.Fetch sampleOps (respond (some (.obj [("uptime", .str "5")]))) sampleA =
      (none, some .unmarshal) := by
  refine ⟨⟨{ AccessPointInfo.zero sampleOps with
              Name := "A", Value := 1,
              SystemStats := { CPU := 12, Mem := 0 } }, by decide, by decide⟩,
    by decide,
    ⟨{ AccessPointInfo.zero sampleOps with Name := "A", Value := 1, Uptime := 5 },
      by decide, by decide⟩,
    by decide⟩

end EncodingProofs

/-! ## NewConfig -/

/-- An access point entry that one of the four checks refuses. -/
theorem checkAccessPoints_isSome_iff (aps : List AccessPointConfig) (i : Nat) :
    (∃ err, checkAccessPoints i aps = some err) ↔
      ∃ ap ∈ aps, ap.Name = "" ∨ ap.Address = "" ∨ ap.Username = "" ∨
        (ap.Password = "" ∧ ap.KeyFile = "") := by
  induction aps generalizing i with
  | nil => simp [checkAccessPoints]
  | cons a rest ih =>
    simp only [checkAccessPoints, List.mem_cons, exists_eq_or_imp]
    by_cases h1 : a.Name = ""
    · simp [h1]
    by_cases h2 : a.Address = ""
    · simp [h1, h2]
    by_cases h3 : a.Username = ""
    · simp [h1, h2, h3]
    by_cases h4 : a.Password = "" ∧ a.KeyFile = ""
    · simp [h1, h2, h3, h4]
    · simp only [h1, h2, h3, h4, if_false, false_or]
      exact ih (i + 1)

theorem checkAccessPoints_none (aps : List AccessPointConfig) (i : Nat)
    (h : checkAccessPoints i aps = none) :
    ∀ ap ∈ aps, ap.Name ≠ "" ∧ ap.Address ≠ "" ∧ ap.Username ≠ "" ∧
      (ap.Password ≠ "" ∨ ap.KeyFile ≠ "") := by
  intro ap hap
  have hno : ¬∃ err, checkAccessPoints i aps = some err := by simp [h]
  rw [checkAccessPoints_isSome_iff] at hno
  by_contra hc
  apply hno
  refine ⟨ap, hap, ?_⟩
  by_cases h1 : ap.Name = ""
  · exact Or.inl h1
  by_cases h2 : ap.Address = ""
  · exact Or.inr (Or.inl h2)
  by_cases h3 : ap.Username = ""
  · exact Or.inr (Or.inr (Or.inl h3))
  by_cases h4 : ap.Password = ""
  · by_cases h5 : ap.KeyFile = ""
    · exact Or.inr (Or.inr (Or.inr ⟨h4, h5⟩))
    · exact absurd ⟨h1, h2, h3, Or.inr h5⟩ hc
  · exact absurd ⟨h1, h2, h3, Or.inl h4⟩ hc

/-- C11: for every decoded configuration document, `NewConfig` returns an error
if and only if the access point list is empty or some entry has an empty name,
an empty address, an empty username, or both an empty password and an empty
keyfile; otherwise it returns the document's access points with the document's
port, 9130 when the document sets none.  Every `Config` that `NewConfig` returns,
for any file, has at least one access point, and each of them has a non-empty
name, address and username and a non-empty password or keyfile. -/
theorem NewConfig_validation :
    (∀ document : ConfigDocument,
      ((∃ err, NewConfig { openOk := true, decoded := some (some document) } = .error err) ↔
        (document.accessPoints = [] ∨
          ∃ ap ∈ document.accessPoints, ap.Name = "" ∨ ap.Address = "" ∨ ap.Username = "" ∨
            (ap.Password = "" ∧ ap.KeyFile = ""))) ∧
      ((¬(document.accessPoints = [] ∨
          ∃ ap ∈ document.accessPoints, ap.Name = "" ∨ ap.Address = "" ∨ ap.Username = "" ∨
            (ap.Password = "" ∧ ap.KeyFile = ""))) →
        NewConfig { openOk := true, decoded := some (some document) } =
          .ok { Global := { ListenPort := document.port.getD 9130 },
                AccessPoints := document.accessPoints })) ∧
    (∀ (file : ConfigFile) (config : Config), NewConfig file = .ok config →
      config.AccessPoints ≠ [] ∧
      (∀ ap ∈ config.AccessPoints, ap.Name ≠ "" ∧ ap.Address ≠ "" ∧ ap.Username ≠ "" ∧
        (ap.Password ≠ "" ∨ ap.KeyFile ≠ "")) ∧
      ∃ document, file.decoded = some (some document) ∧
        config.AccessPoints = document.accessPoints ∧
        (document.port = none → config.Global.ListenPort = 9130) ∧
        (∀ p, document.port = some p → config.Global.ListenPort = p)) := by
  refine ⟨?_, ?_⟩
  · intro document
    have key := checkAccessPoints_isSome_iff document.accessPoints 0
    cases hl : document.accessPoints with
    | nil => simp [NewConfig, hl]
    | cons a rest =>
      rw [hl] at key
      cases hc : checkAccessPoints 0 (a :: rest) with
      | none =>
        have hno : ¬∃ ap ∈ a :: rest, ap.Name = "" ∨ ap.Address = "" ∨ ap.Username = "" ∨
            (ap.Password = "" ∧ ap.KeyFile = "") := by
          rw [← key]; simp [hc]
        refine ⟨?_, ?_⟩
        · constructor
          · rintro ⟨err, herr⟩
            simp [NewConfig, hl, hc] at herr
          · rintro (h | h)
            · cases h
            · exact absurd h hno
        · intro _
          simp [NewConfig, hl, hc]
      | some err =>
        have hyes : ∃ ap ∈ a :: rest, ap.Name = "" ∨ ap.Address = "" ∨ ap.Username = "" ∨
            (ap.Password = "" ∧ ap.KeyFile = "") := key.mp ⟨err, hc⟩
        refine ⟨?_, ?_⟩
        · constructor
          · intro _
            exact Or.inr hyes
          · intro _
            exact ⟨err, by simp [NewConfig, hl, hc]⟩
        · intro hn
          exact absurd (Or.inr hyes) hn
  · intro file config h
    unfold NewConfig at h
    split_ifs at h
    cases hd : file.decoded with
    | none => simp [hd] at h
    | some o =>
      cases o with
      | none => simp [hd] at h
      | some document =>
        simp only [hd] at h
        split_ifs at h with hlen
        cases hc : checkAccessPoints 0 document.accessPoints with
        | some err => simp [hc] at h
        | none =>
          simp only [hc, Except.ok.injEq] at h
          subst h
          refine ⟨?_, checkAccessPoints_none _ 0 hc, document, rfl, rfl, ?_, ?_⟩
          · intro hnil
            apply hlen
            simp only at hnil
            simp [hnil]
          · intro hp
            simp [hp]
          · intro p hp
            simp [hp]

section LabelProofs
variable {F : Type}

/-! ## Label names and label values -/

theorem zip_labels (ms : List (Metric F)) (d : Desc) :
    (ms.filter (fun m => decide (m.desc = d))).map
      (fun m => m.desc.variableLabels.zip m.labelValues) =
    ((ms.filter (fun m => decide (m.desc = d))).map (·.labelValues)).map
      (fun vs => d.variableLabels.zip vs) := by
  rw [List.map_map]
  apply List.map_congr_left
  intro m hm
  have hd : m.desc = d := by simpa using (List.mem_filter.mp hm).2
  simp [hd]

theorem collectFrom_error (ops : Float64Ops F) (c : Collector) (remote : Nat → Remote) :
    ∀ (aps : List AccessPointConfig) (i : Nat) (acc : List (AccessPointInfo F)) (p : Panic),
      Collector.collectFrom ops c remote i aps acc = .error p → p = .nilDereference := by
  intro aps
  induction aps with
  | nil => intro i acc p h; simp [Collector.collectFrom] at h
  | cons a rest ih =>
    intro i acc p h
    rcases hf : c.Fetch ops (remote i) a with ⟨r, e⟩
    cases e with
    | some err =>
      simp only [Collector.collectFrom, hf] at h
      exact ih _ _ p h
    | none =>
      cases r with
      | none =>
        simp only [Collector.collectFrom, hf, Except.error.injEq] at h
        exact h.symm
      | some info =>
        simp only [Collector.collectFrom, hf] at h
        exact ih _ _ p h

/-- C12: for every list of records, every series the loop of `Exporter.Collect`
constructs has as many label values as its descriptor declares label names in
`NewExporter` (7 for info, 2 for the other device metrics, 3 for radio, 5 for
rogue-AP, 7 for VAP, 4 for station), and paired position by position each label
name stands next to the field it denotes.  So no call of `MustNewConstMetric`
fails its label-count check: the loop returns its series for every list, the
empty one included, and `Exporter.Collect` never panics on that account,
whatever the devices answer. -/
theorem Exporter.label_values_match_label_names (ops : Float64Ops F) (c : Collector)
    (recs : List (AccessPointInfo F)) :
    ∃ ms : List (Metric F),
      Exporter.flatten ops (NewExporter c) recs = .ok ms ∧
      (∀ m ∈ ms, m.labelValues.length = m.desc.variableLabels.length) ∧
      ((NewExporter c).device.info.variableLabels.length = 7 ∧
        (∀ d ∈ (NewExporter c).deviceDescs, d.variableLabels.length = 2) ∧
        (∀ d ∈ (NewExporter c).radioDescs, d.variableLabels.length = 3) ∧
        (∀ d ∈ (NewExporter c).rogueDescs, d.variableLabels.length = 5) ∧
        (∀ d ∈ (NewExporter c).vapDescs, d.variableLabels.length = 7) ∧
        (∀ d ∈ (NewExporter c).stationDescs, d.variableLabels.length = 4)) ∧
      (ms.filter (fun m => decide (m.desc = (NewExporter c).device.info))).map
          (fun m => m.desc.variableLabels.zip m.labelValues) =
        recs.map (fun r =>
          [("ip", r.IP), ("mac", r.Mac), ("model", r.Model), ("model_name", r.ModelName),
            ("name", r.Name), ("serial", r.Serial), ("version", r.Version)]) ∧
      (∀ d ∈ (NewExporter c).deviceDescs,
        (ms.filter (fun m => decide (m.desc = d))).map
            (fun m => m.desc.variableLabels.zip m.labelValues) =
          recs.map (fun r => [("name", r.Name), ("model", r.Model)])) ∧
      (∀ d ∈ (NewExporter c).radioDescs,
        (ms.filter (fun m => decide (m.desc = d))).map
            (fun m => m.desc.variableLabels.zip m.labelValues) =
          (radiosOf recs).map (fun x =>
            [("name", x.1.Name), ("radio", x.2.Radio), ("radio_name", x.2.RadioName)])) ∧
      (∀ d ∈ (NewExporter c).rogueDescs,
        (ms.filter (fun m => decide (m.desc = d))).map
            (fun m => m.desc.variableLabels.zip m.labelValues) =
          (scansOf recs).map (fun x =>
            [("name", x.1.Name), ("radio", x.2.1.Radio), ("bssid", x.2.2.BSSID),
              ("essid", x.2.2.ESSID), ("security", x.2.2.Security)])) ∧
      (∀ d ∈ (NewExporter c).vapDescs,
        (ms.filter (fun m => decide (m.desc = d))).map
            (fun m => m.desc.variableLabels.zip m.labelValues) =
          (vapsOf recs).map (fun x =>
            [("name", x.1.Name), ("vap_name", x.2.Name), ("bssid", x.2.BSSID),
              ("radio", x.2.Radio), ("radio_name", x.2.RadioName), ("essid", x.2.ESSID),
              ("usage", x.2.Usage)])) ∧
      (∀ d ∈ (NewExporter c).stationDescs,
        (ms.filter (fun m => decide (m.desc = d))).map
            (fun m => m.desc.variableLabels.zip m.labelValues) =
          (stationsOf recs).map (fun x =>
            [("name", x.1.Name), ("vap_name", x.2.1.Name), ("hostname", x.2.2.Hostname),
              ("mac", x.2.2.Mac)])) ∧
      Exporter.flatten ops (NewExporter c) [] = .ok [] ∧
      (∀ remote : Nat → Remote,
        Exporter.Collect ops (NewExporter c) remote ≠ .error .labelCardinality) := by
  have hdev : ∀ d ∈ (NewExporter c).deviceDescs, d.variableLabels = deviceLabels := by
    intro d hd
    simp only [Exporter.deviceDescs, List.mem_cons, List.mem_singleton, List.not_mem_nil,
      or_false] at hd
    rcases hd with rfl | rfl | rfl | rfl | rfl | rfl | rfl | rfl | rfl | rfl | rfl <;> rfl
  have hradio : ∀ d ∈ (NewExporter c).radioDescs, d.variableLabels = radioLabels := by
    intro d hd
    simp only [Exporter.radioDescs, List.mem_cons, List.mem_singleton, List.not_mem_nil,
      or_false] at hd
    rcases hd with rfl | rfl | rfl <;> rfl
  have hrogue : ∀ d ∈ (NewExporter c).rogueDescs, d.variableLabels = rogueLabels := by
    intro d hd
    simp only [Exporter.rogueDescs, List.mem_cons, List.mem_singleton, List.not_mem_nil,
      or_false] at hd
    rcases hd with rfl | rfl | rfl | rfl <;> rfl
  have hvap : ∀ d ∈ (NewExporter c).vapDescs, d.variableLabels = vapLabels := by
    intro d hd
    simp only [Exporter.vapDescs, List.mem_cons, List.mem_singleton, List.not_mem_nil,
      or_false] at hd
    rcases hd with rfl | rfl | rfl | rfl | rfl | rfl | rfl | rfl | rfl | rfl <;> rfl
  have hstation : ∀ d ∈ (NewExporter c).stationDescs, d.variableLabels = stationLabels := by
    intro d hd
    simp only [Exporter.stationDescs, List.mem_cons, List.mem_singleton, List.not_mem_nil,
      or_false] at hd
    rcases hd with rfl | rfl | rfl | rfl <;> rfl
  refine ⟨_, flatten_eq ops c recs, ?_, ⟨rfl, ?_, ?_, ?_, ?_, ?_⟩, ?_, ?_, ?_, ?_, ?_, ?_,
    flatten_eq ops c [], ?_⟩
  · intro m hm
    obtain ⟨a, ha, rfl⟩ := List.mem_map.mp hm
    obtain ⟨r, _, hr⟩ := List.mem_flatMap.mp ha
    exact recordArgs_cardinality ops c r a hr
  · intro d hd; rw [hdev d hd]; rfl
  · intro d hd; rw [hradio d hd]; rfl
  · intro d hd; rw [hrogue d hd]; rfl
  · intro d hd; rw [hvap d hd]; rfl
  · intro d hd; rw [hstation d hd]; rfl
  · rw [zip_labels, info_labels ops c recs]
    simp [List.map_map, Function.comp_def, NewExporter, NewDesc, deviceInfoLabels]
  · intro d hd
    rw [zip_labels, device_labels ops c recs d hd, hdev d hd]
    simp [List.map_map, Function.comp_def, deviceLabels]
  · intro d hd
    rw [zip_labels, radio_labels ops c recs d hd, hradio d hd]
    simp [List.map_map, Function.comp_def, radioLabels]
  · intro d hd
    rw [zip_labels, rogue_labels ops c recs d hd, hrogue d hd]
    simp [List.map_map, Function.comp_def, rogueLabels]
  · intro d hd
    rw [zip_labels, vap_labels ops c recs d hd, hvap d hd]
    simp [List.map_map, Function.comp_def, vapLabels]
  · intro d hd
    rw [zip_labels, station_labels ops c recs d hd, hstation d hd]
    simp [List.map_map, Function.comp_def, stationLabels]
  · intro remote h
    have hc : (NewExporter c).collector = c := rfl
    unfold Exporter.Collect Collector.Collect at h
    rw [hc] at h
    cases hl : Collector.collectFrom ops c remote 0 c.config.AccessPoints [] with
    | error p =>
      simp only [hl, Except.error.injEq] at h
      have := collectFrom_error ops c remote _ _ _ p hl
      rw [this] at h
      cases h
    | ok infos =>
      simp only [hl, flatten_eq] at h
      cases h

end LabelProofs

end UnifiApExporter
